import Mathlib

/-!
Shallow embedding of the CTW-Layout-Generator map generator
(`src/lib/mapGenerator.ts` together with the data model of `src/types.ts`).

Modelling conventions, chosen once and used throughout:

* JavaScript `number` is embedded as `ℚ` (exact arithmetic).  All
  quantities the generator manipulates are produced by integer seeds,
  additions, multiplications and divisions, so `ℚ` represents the ideal
  real-number semantics of the source; IEEE-754 rounding is not modelled.
* `Math.floor` is `Int.floor` on `ℚ`; the JS `%` operator (sign of the
  dividend, i.e. truncated remainder) is `Int.tmod`.
* Comparisons of `Math.hypot` values are embedded as comparisons of
  squared Euclidean distances (`hypot a < hypot b ↔ a² < b²` for the
  ideal reals, since `hypot` is monotone).
* A node id in the source is the string `` `${team}-${abbr}-${index}` ``.
  Team names (`BLUE`, …) and type abbreviations (`SPAWN`, `S_EXIT`, …)
  never contain `-`, so that string is in bijection with the triple
  (team, abbreviation, index); ids are embedded as that triple
  (`NodeId`).  The `split('-')`/`shift`/`join('-')` manipulations of
  `applySymmetry` and `rotateLayout` become field updates of the triple.
* The id-counter `Map<string,number>` keyed by `` `${team}-${type}` ``
  is embedded as a function `Team × StrategicPointType → ℕ` (the key
  string is in bijection with the pair, teams and type tags being
  dash-free).
* Exceptions (`throw new Error`) are embedded with `Except String`;
  the PRNG object threaded through every routine becomes the state of
  `GenM := StateT Int (Except String)` (the state is the 31-bit LCG
  register).  A crash caused by a TypeScript non-null assertion `!` on
  a missing value is also embedded as an `Except.error`.
* In `ℚ`, division by zero yields 0 (Lean's convention); the only place
  the source may divide by zero (`pickCuts` when all drawn floats are 0)
  is unreachable from a validly seeded PRNG for the call patterns used.
-/

namespace CTW

-- Batteries marks the `Rat` arithmetic operations `@[irreducible]`,
-- which blocks `decide`-style evaluation of concrete generator runs;
-- re-mark them (locally) with their natural reducibility.
attribute [local semireducible] Rat.add Rat.mul Rat.inv Rat.sub Rat.ofScientific

/-- `Point` from `types.ts`: a pair of coordinates. -/
structure Point where
  x : ℚ
  y : ℚ
deriving DecidableEq

/-- `Zone` from `types.ts`: an axis-aligned rectangle plus its grid cell. -/
structure Zone where
  x : ℚ
  y : ℚ
  width : ℚ
  height : ℚ
  row : Int
  col : Int
deriving DecidableEq

/-- `StrategicPointType` from `types.ts`. -/
inductive StrategicPointType where
  | WOOL | WOOL_ENTRY | SPAWN | SPAWN_ENTRY
  | FRONT_LINE | FRONT_LINE_ENTRY | HUB | ISLAND | HELPER | CENTER_HUB
deriving DecidableEq

/-- `NODE_TYPE_ABBREVIATIONS` from `types.ts`. -/
def NODE_TYPE_ABBREVIATIONS : StrategicPointType → String
  | .SPAWN => "SPAWN"
  | .SPAWN_ENTRY => "S_EXIT"
  | .WOOL => "WOOL"
  | .WOOL_ENTRY => "W_ENTRY"
  | .FRONT_LINE => "FRNT"
  | .FRONT_LINE_ENTRY => "F_ENTRY"
  | .HUB => "HUB"
  | .HELPER => "HLPR"
  | .ISLAND => "ISLE"
  | .CENTER_HUB => "C_HUB"

/-- `Team` from `types.ts`. -/
inductive Team where
  | BLUE | ORANGE | GREEN | YELLOW
deriving DecidableEq

/-- A node id `` `${team}-${abbr}-${index}` ``, embedded as its three
dash-separated components (see the header comment: the string form and
this triple are in bijection). -/
structure NodeId where
  team : Team
  abbr : String
  idx : Nat
deriving DecidableEq

/-- `Node` from `types.ts`. -/
structure Node where
  id : NodeId
  type : StrategicPointType
  pos : Point
  team : Team
deriving DecidableEq

/-- `EdgeType` from `types.ts`. -/
inductive EdgeType where
  | walkable | bridgeable
deriving DecidableEq

/-- `Edge` from `types.ts`.  `from` is a Lean keyword, hence `fromId`/`toId`. -/
structure Edge where
  fromId : NodeId
  toId : NodeId
  nodes : List Point
  isRushRoute : Bool := false
  isCrossTeam : Bool := false
  type : EdgeType := .walkable
  purpose : Option String := none
deriving DecidableEq

/-- `TeamLayout` from `types.ts`. -/
structure TeamLayout where
  grid : List (List Zone)
  nodes : List Node
  edges : List Edge

/-- `MapLayout` from `types.ts` (`teams` is a partial map from teams). -/
structure MapLayout where
  width : ℚ
  height : ℚ
  teamGap : ℚ
  laneWidth : ℚ
  teams : Team → Option TeamLayout

/-- `SymmetryMode` from `types.ts`. -/
inductive SymmetryMode where
  | MIRROR | ROTATION
deriving DecidableEq

/-- `GridMode` from `types.ts`. -/
inductive GridMode where
  | STANDARD | ROW_INDEPENDENT
deriving DecidableEq

/-- `DistanceConstraint` from `types.ts`. -/
structure DistanceConstraint where
  min : ℚ
  max : ℚ
deriving DecidableEq

/-- `IslandGenerationConfig` from `types.ts`. -/
structure IslandGenerationConfig where
  enabled : Bool
  maxIslandsPerTeam : Nat
  spawnInFourthColumn : Bool
  spawnInCenterGap : Bool
  spawnInEmptyZones : Bool

/-- `PathingEnhancements` from `types.ts`. -/
structure PathingEnhancements where
  enableWoolFlankRoutes : Bool
  enableSpawnWoolRushRoute : Bool

/-- `GeneratorConfig` from `types.ts`. -/
structure GeneratorConfig where
  teamWidth : ℚ
  teamHeight : ℚ
  teamGap : ℚ
  laneWidth : ℚ
  seed : Int
  gridMode : GridMode
  symmetryMode : SymmetryMode
  symmetricalTeamLayout : Bool
  spawnEntryDistance : DistanceConstraint
  woolEntryDistance : DistanceConstraint
  frontlineEntryDistance : DistanceConstraint
  islandGeneration : IslandGenerationConfig
  pathingEnhancements : PathingEnhancements
  numTeams : Nat
  woolsPerTeam : Nat

/-! ## The PRNG (`class PRNG` in `mapGenerator.ts`)

The generator object is embedded as the `Int` state of the monad
`GenM`; its methods become state transformers. -/

/-- The generation monad: LCG register state plus thrown errors. -/
abbrev GenM := StateT Int (Except String)

/-- The PRNG constructor:
`this.seed = seed % 2147483647; if (this.seed <= 0) this.seed += 2147483646;`
(JS `%` is the truncated remainder, `Int.tmod`). -/
def PRNG.init (seed : Int) : Int :=
  let r := seed.tmod 2147483647
  if r ≤ 0 then r + 2147483646 else r

/-- One LCG step: `this.seed = (this.seed * 16807) % 2147483647`. -/
def PRNG.step (s : Int) : Int :=
  (s * 16807).tmod 2147483647

/-- `next()`: advances the register and returns
`(this.seed - 1) / 2147483646`. -/
def next : GenM ℚ := fun s =>
  let s' := PRNG.step s
  .ok (((s' : ℚ) - 1) / 2147483646, s')

/-- `nextInt(min, max)`: `min` if `min > max` (without drawing), else
`Math.floor(this.next() * (max - min + 1)) + min`. -/
def nextInt (min max : ℚ) : GenM ℚ :=
  if min > max then pure min
  else do
    let u ← next
    pure ((⌊u * (max - min + 1)⌋ : ℤ) + min)

/-- Swap two positions of a list (the effect of
`[arr[i], arr[j]] = [arr[j], arr[i]]` for in-range indices; the source
never swaps out of range when driven by a validly seeded PRNG). -/
def listSwap (l : List α) (i j : Nat) : List α :=
  match l[i]?, l[j]? with
  | some a, some b => (l.set i b).set j a
  | _, _ => l

/-- The Fisher–Yates walk of `shuffle`: while `currentIndex ≠ 0`, draw
`randomIndex = Math.floor(next() * currentIndex)`, decrement
`currentIndex`, and swap the two positions. -/
def shuffleGo (l : List α) : Nat → GenM (List α)
  | 0 => pure l
  | n + 1 => do
    let u ← next
    let randomIndex := (⌊u * ((n + 1 : Nat) : ℚ)⌋).toNat
    shuffleGo (listSwap l n randomIndex) n

/-- `shuffle(array)` of the PRNG class. -/
def shuffle (l : List α) : GenM (List α) :=
  shuffleGo l l.length

/-! ## Id generation -/

/-- The id-counter map `` `${team}-${type}` → number ``, embedded as a
function (the key string is in bijection with the pair). -/
def Counters := Team × StrategicPointType → Nat

/-- `generateNodeId`: bumps the per-(team,type) counter and returns the
id `` `${team}-${abbr}-${index}` `` (as its component triple). -/
def generateNodeId (counters : Counters) (team : Team) (type : StrategicPointType) :
    NodeId × Counters :=
  let index := counters (team, type) + 1
  (⟨team, NODE_TYPE_ABBREVIATIONS type, index⟩,
   fun k => if k = (team, type) then index else counters k)

/-- Default zone used for list accesses `arr[i]` whose index is in range
in every reachable execution (JS would yield `undefined` otherwise). -/
def dfltZone : Zone := ⟨0, 0, 0, 0, 0, 0⟩

/-- `grid[i][j]`. -/
def gridGet (grid : List (List Zone)) (i j : Nat) : Zone :=
  (grid.getD i []).getD j dfltZone

/-- Models the `undefined` produced by a JS `Map.get` miss inside
`applySymmetry`/`rotateLayout` (unreachable: every edge endpoint id is
a key of the node map there). -/
def undefinedId : NodeId := ⟨Team.BLUE, "undefined", 0⟩

/-! ## Point placement -/

/-- `placePairedPoints(prng, zone, distance, padding)`. -/
def placePairedPoints (zone : Zone) (distance : DistanceConstraint) (padding : ℚ) :
    GenM (Point × Point) := do
  let objectiveMaxX := zone.x + zone.width - padding - distance.min
  -- Check if zone is wide enough for the minimum distance
  if objectiveMaxX ≤ zone.x + padding then
    -- Fallback: place points at opposite ends of the zone.
    let oy ← nextInt (zone.y + padding) (zone.y + zone.height - padding)
    let ey ← nextInt (zone.y + padding) (zone.y + zone.height - padding)
    pure ({ x := zone.x + padding, y := oy },
          { x := zone.x + zone.width - padding, y := ey })
  else do
    let ox ← nextInt (zone.x + padding) objectiveMaxX
    let oy ← nextInt (zone.y + padding) (zone.y + zone.height - padding)
    let entryMinX := ox + distance.min
    let entryMaxX := ox + distance.max
    let clampedMinX := max entryMinX (zone.x + padding)
    let clampedMaxX := min entryMaxX (zone.x + zone.width - padding)
    if clampedMinX ≥ clampedMaxX then
      -- Fallback if calculated range is invalid
      let ey ← nextInt (zone.y + padding) (zone.y + zone.height - padding)
      pure ({ x := ox, y := oy }, { x := zone.x + zone.width - padding, y := ey })
    else do
      let ex ← nextInt clampedMinX clampedMaxX
      let ey ← nextInt (zone.y + padding) (zone.y + zone.height - padding)
      pure ({ x := ox, y := oy }, { x := ex, y := ey })

/-- The cut loop of `pickCuts`:
`cut = lastCut + minCellSize + proportions[i] * availableSize`. -/
def cutsFrom (minCellSize availableSize : ℚ) : ℚ → List ℚ → List ℚ
  | _, [] => []
  | lastCut, p :: ps =>
    let cut := lastCut + minCellSize + p * availableSize
    cut :: cutsFrom minCellSize availableSize cut ps

/-- `pickCuts(prng, totalSize, numCuts, minCellSize)`. -/
def pickCuts (totalSize : ℚ) (numCuts : Nat) (minCellSize : ℚ) : GenM (List ℚ) := do
  let availableSize := totalSize - minCellSize * ((numCuts : ℚ) + 1)
  if availableSize < 0 then
    throw "Cannot fit cells with the minimum size into the total size."
  else do
    let randomValues ← (List.range numCuts).mapM (fun _ => next)
    let sum := randomValues.foldl (· + ·) 0
    let proportions := randomValues.map (· / sum)
    pure (cutsFrom minCellSize availableSize 0 proportions)

/-- The inner `j` loop of `createGrid`: builds one row of cells,
accumulating `x`. -/
def rowCells (y rowHeight : ℚ) (i : Nat) : ℚ → Nat → List ℚ → List Zone
  | _, _, [] => []
  | x, j, w :: ws =>
    { x := x, y := y, width := w, height := rowHeight, row := (i : Int), col := (j : Int) }
      :: rowCells y rowHeight i (x + w) (j + 1) ws

/-- One iteration of the `i`-row loop of `createGrid` (`minCellWidth`
is the constant 20). -/
def gridRowStep (width : ℚ) (gridMode : GridMode) (symmetricalTeamLayout : Bool)
    (vCuts rowHeights : List ℚ) (rows : List (List Zone)) (y : ℚ) (i : Nat) :
    GenM (List (List Zone) × ℚ) := do
  -- When symmetrical team layout is on, Row-Independent mode is disabled.
  let useRowIndependentCuts :=
    gridMode = GridMode.ROW_INDEPENDENT ∧ symmetricalTeamLayout = false
  let finalVCuts ← if useRowIndependentCuts then pickCuts width 2 20 else pure vCuts
  let finalColWidths :=
    [finalVCuts.getD 0 0, finalVCuts.getD 1 0 - finalVCuts.getD 0 0, width - finalVCuts.getD 1 0]
  let rowHeight := rowHeights.getD i 0
  pure (rows ++ [rowCells y rowHeight i 0 0 finalColWidths], y + rowHeight)

/-- `createGrid(prng, width, height, gridMode, symmetricalTeamLayout)`. -/
def createGrid (width height : ℚ) (gridMode : GridMode) (symmetricalTeamLayout : Bool) :
    GenM (List (List Zone)) := do
  let minCellWidth : ℚ := 20
  let minCellHeight : ℚ := 20
  let rowHeights ←
    if symmetricalTeamLayout then do
      -- Enforce symmetrical rows
      let maxTopRowHeight : ℚ := ((⌊(height - minCellHeight) / 2⌋ : ℤ) : ℚ)
      if minCellHeight > maxTopRowHeight then
        throw "Cannot create symmetrical grid. The map height is too small for the minimum cell height."
      else do
        let topRowHeight ← nextInt minCellHeight maxTopRowHeight
        let hCuts := [topRowHeight, height - topRowHeight]
        pure [hCuts.getD 0 0, hCuts.getD 1 0 - hCuts.getD 0 0, height - hCuts.getD 1 0]
    else do
      let hCuts ← pickCuts height 2 minCellHeight
      pure [hCuts.getD 0 0, hCuts.getD 1 0 - hCuts.getD 0 0, height - hCuts.getD 1 0]
  let vCuts ← pickCuts width 2 minCellWidth
  let (grid, _) ← (List.range 3).foldlM
    (fun (acc : List (List Zone) × ℚ) i =>
      gridRowStep width gridMode symmetricalTeamLayout vCuts rowHeights acc.1 acc.2 i)
    ([], 0)
  pure grid

/-- `placePointsInZone(prng, zone, count, padding)`. -/
def placePointsInZone (zone : Zone) (count : Nat) (padding : ℚ) : GenM (List Point) :=
  (List.range count).mapM (fun _ => do
    let px ← nextInt padding (zone.width - padding)
    let py ← nextInt padding (zone.height - padding)
    pure ({ x := zone.x + px, y := zone.y + py } : Point))

/-- `placeNodes(prng, grid, team, config, counters)`. -/
def placeNodes (grid : List (List Zone)) (team : Team) (config : GeneratorConfig)
    (counters : Counters) : GenM (List Node × Counters) := do
  if config.symmetricalTeamLayout = false then do
    -- Place Woolrooms and their entries in the same zone.
    let woolZones ← shuffle [gridGet grid 0 0, gridGet grid 2 0]
    -- First Wool
    let w1Zone := woolZones.getD 0 dfltZone
    let (w1Pos, w1EntryPos) ← placePairedPoints w1Zone config.woolEntryDistance 10
    let (i1, counters) := generateNodeId counters team .WOOL
    let (i2, counters) := generateNodeId counters team .WOOL_ENTRY
    let nodes : List Node := [⟨i1, .WOOL, w1Pos, team⟩, ⟨i2, .WOOL_ENTRY, w1EntryPos, team⟩]
    -- Second Wool
    let w2Zone := woolZones.getD 1 dfltZone
    let (w2Pos, w2EntryPos) ← placePairedPoints w2Zone config.woolEntryDistance 10
    let (i3, counters) := generateNodeId counters team .WOOL
    let (i4, counters) := generateNodeId counters team .WOOL_ENTRY
    let nodes := nodes ++ [⟨i3, .WOOL, w2Pos, team⟩, ⟨i4, .WOOL_ENTRY, w2EntryPos, team⟩]
    -- Place Spawn and its entry
    let spawnZone := gridGet grid 1 0
    let (spawnPos, spawnEntryPos) ← placePairedPoints spawnZone config.spawnEntryDistance 10
    let (i5, counters) := generateNodeId counters team .SPAWN
    let (i6, counters) := generateNodeId counters team .SPAWN_ENTRY
    let nodes := nodes ++ [⟨i5, .SPAWN, spawnPos, team⟩, ⟨i6, .SPAWN_ENTRY, spawnEntryPos, team⟩]
    -- Place Hubs
    let (nodes, counters) ← (List.range 3).foldlM
      (fun (acc : List Node × Counters) i => do
        let (ns, cs) := acc
        let hubPts ← placePointsInZone (gridGet grid i 1) 1 10
        let hubPos := hubPts.getD 0 ⟨0, 0⟩
        let (nid, cs) := generateNodeId cs team .HUB
        pure (ns ++ [(⟨nid, .HUB, hubPos, team⟩ : Node)], cs))
      (nodes, counters)
    -- Place Frontlines
    let shuffledIdx ← shuffle [0, 1, 2]
    let cnt ← nextInt 2 3
    let frontlineZoneIndices := shuffledIdx.take (⌊cnt⌋.toNat)
    let (nodes, counters) ← frontlineZoneIndices.foldlM
      (fun (acc : List Node × Counters) i => do
        let (ns, cs) := acc
        let zone := gridGet grid i 2
        -- For Frontlines the helper's objective/entry naming is swapped.
        let (fePos, flPos) ← placePairedPoints zone config.frontlineEntryDistance 10
        let (ia, cs) := generateNodeId cs team .FRONT_LINE_ENTRY
        let (ib, cs) := generateNodeId cs team .FRONT_LINE
        pure (ns ++ [(⟨ia, .FRONT_LINE_ENTRY, fePos, team⟩ : Node),
                     (⟨ib, .FRONT_LINE, flPos, team⟩ : Node)], cs))
      (nodes, counters)
    pure (nodes, counters)
  else do
    -- Symmetrical team layout logic
    -- 1. Spawn and Spawn Entry on the horizontal axis defining the mirror line.
    let spawnZone := gridGet grid 1 0
    let my ← nextInt 10 (spawnZone.height - 10)
    let mirrorY := spawnZone.y + my
    let (spawnPosRaw, spawnEntryPosRaw) ← placePairedPoints spawnZone config.spawnEntryDistance 10
    let spawnPos := { spawnPosRaw with y := mirrorY }
    let spawnEntryPos := { spawnEntryPosRaw with y := mirrorY }
    let (i1, counters) := generateNodeId counters team .SPAWN
    let (i2, counters) := generateNodeId counters team .SPAWN_ENTRY
    let nodes : List Node := [⟨i1, .SPAWN, spawnPos, team⟩, ⟨i2, .SPAWN_ENTRY, spawnEntryPos, team⟩]
    let mirrorPoint : Point → Point := fun p => { x := p.x, y := 2 * mirrorY - p.y }
    -- 2. Top Wool and Entry, mirrored for Bottom Wool
    let w1Zone := gridGet grid 0 0
    let (w1Pos, w1EntryPos) ← placePairedPoints w1Zone config.woolEntryDistance 10
    let (i3, counters) := generateNodeId counters team .WOOL
    let (i4, counters) := generateNodeId counters team .WOOL_ENTRY
    let (i5, counters) := generateNodeId counters team .WOOL
    let (i6, counters) := generateNodeId counters team .WOOL_ENTRY
    let nodes := nodes ++ [⟨i3, .WOOL, w1Pos, team⟩, ⟨i4, .WOOL_ENTRY, w1EntryPos, team⟩,
                           ⟨i5, .WOOL, mirrorPoint w1Pos, team⟩,
                           ⟨i6, .WOOL_ENTRY, mirrorPoint w1EntryPos, team⟩]
    -- 3. Hubs (Top, Middle on axis, Bottom mirrored)
    let topHubPts ← placePointsInZone (gridGet grid 0 1) 1 10
    let topHubPos := topHubPts.getD 0 ⟨0, 0⟩
    let (i7, counters) := generateNodeId counters team .HUB
    let mhx ← nextInt 10 ((gridGet grid 1 1).width - 10)
    let midHubPos : Point := { x := (gridGet grid 1 1).x + mhx, y := mirrorY }
    let (i8, counters) := generateNodeId counters team .HUB
    let (i9, counters) := generateNodeId counters team .HUB
    let nodes := nodes ++ [⟨i7, .HUB, topHubPos, team⟩, ⟨i8, .HUB, midHubPos, team⟩,
                           ⟨i9, .HUB, mirrorPoint topHubPos, team⟩]
    -- 4. Top Frontline, mirrored for Bottom Frontline
    let topFlZone := gridGet grid 0 2
    let (fePos, flPos) ← placePairedPoints topFlZone config.frontlineEntryDistance 10
    let (ia, counters) := generateNodeId counters team .FRONT_LINE_ENTRY
    let (ib, counters) := generateNodeId counters team .FRONT_LINE
    let (ic, counters) := generateNodeId counters team .FRONT_LINE_ENTRY
    let (id', counters) := generateNodeId counters team .FRONT_LINE
    let nodes := nodes ++ [⟨ia, .FRONT_LINE_ENTRY, fePos, team⟩, ⟨ib, .FRONT_LINE, flPos, team⟩,
                           ⟨ic, .FRONT_LINE_ENTRY, mirrorPoint fePos, team⟩,
                           ⟨id', .FRONT_LINE, mirrorPoint flPos, team⟩]
    pure (nodes, counters)

/-! ## Graph builder -/

/-- `findNode(nodes, type)`. -/
def findNode (nodes : List Node) (t : StrategicPointType) : Option Node :=
  nodes.find? (fun p => decide (p.type = t))

/-- `findNodes(nodes, type)`. -/
def findNodes (nodes : List Node) (t : StrategicPointType) : List Node :=
  nodes.filter (fun p => decide (p.type = t))

/-- Squared Euclidean distance; `Math.hypot a < Math.hypot b` is embedded
as `dist2 a < dist2 b` (`hypot` is monotone in the squared distance). -/
def dist2 (a b : Point) : ℚ :=
  (a.x - b.x) ^ 2 + (a.y - b.y) ^ 2

/-- The recurring `candidates.reduce((prev, curr) => closer ? curr : prev)`
nearest-node pattern (first-encountered wins on ties; `none` models the
`TypeError` of reducing an empty array, which every caller guards). -/
def reduceNearest (targetPos : Point) : List Node → Option Node
  | [] => none
  | h :: t =>
    some (t.foldl (fun prev curr =>
      if dist2 curr.pos targetPos < dist2 prev.pos targetPos then curr else prev) h)

/-- `findNearestNode(targetPos, candidates)`. -/
def findNearestNode (targetPos : Point) (candidates : List Node) : Option Node :=
  reduceNearest targetPos candidates

/-- Stable insertion by `y` (ascending). -/
def insertByY (n : Node) : List Node → List Node
  | [] => [n]
  | h :: t => if n.pos.y ≤ h.pos.y then n :: h :: t else h :: insertByY n t

/-- `hubs.sort((a,b) => a.pos.y - b.pos.y)`: a stable ascending sort by
`y` (JS `Array.prototype.sort` is stable; a stable sort's result is
unique, so insertion sort realizes it). -/
def sortByY (l : List Node) : List Node :=
  l.foldr insertByY []

/-- `p.from.includes('HUB')` on an id string: only the abbreviation
component can contain `HUB` (team names and the decimal index cannot),
and exactly the abbreviations `HUB` and `C_HUB` do. -/
def idHasHUB (i : NodeId) : Bool :=
  i.abbr == "HUB" || i.abbr == "C_HUB"

/-- `p.to.includes('F_ENTRY')` on an id string: only the abbreviation
`F_ENTRY` contains `F_ENTRY`. -/
def idHasFENTRY (i : NodeId) : Bool :=
  i.abbr == "F_ENTRY"

/-- A plain walkable edge between two nodes. -/
def mkEdge (a b : Node) : Edge :=
  { fromId := a.id, toId := b.id, nodes := [a.pos, b.pos], type := .walkable }

/-- `createEdges(nodes, prng)`.  Note `hubs.sort` sorts the filtered
array in place, so every later use of `hubs` observes the sorted order
(`sortedHubs` here). -/
def createEdges (nodes : List Node) : GenM (List Edge) := do
  let some spawn := findNode nodes .SPAWN
    | throw "createEdges: no SPAWN node (non-null assertion failed)"
  let some spawnEntry := findNode nodes .SPAWN_ENTRY
    | throw "createEdges: no SPAWN_ENTRY node (non-null assertion failed)"
  let wools := findNodes nodes .WOOL
  let woolEntries := findNodes nodes .WOOL_ENTRY
  let hubs := findNodes nodes .HUB
  let frontEntries := findNodes nodes .FRONT_LINE_ENTRY
  let frontlines := findNodes nodes .FRONT_LINE
  -- Connect spawn to its entry
  let edges : List Edge := [mkEdge spawn spawnEntry]
  let sortedHubs := sortByY hubs
  let midHub : Option Node :=
    if sortedHubs.length > 1 then sortedHubs[sortedHubs.length / 2]? else sortedHubs[0]?
  -- Connect spawn entry ONLY to the middle hub
  let edges := match midHub with
    | some mh => edges ++ [mkEdge spawnEntry mh]
    | none => edges
  -- Connect Wool Entries to Wools and their SINGLE closest Hub
  let edges := wools.foldl (fun es wool =>
    if woolEntries.length = 0 ∨ sortedHubs.length = 0 then es
    else
      match reduceNearest wool.pos woolEntries with
      | none => es
      | some entry =>
        match reduceNearest entry.pos sortedHubs with
        | none => es
        | some hub => es ++ [mkEdge hub entry, mkEdge entry wool]) edges
  -- Connect each Frontline Entry to its SINGLE closest Hub
  let edges :=
    if sortedHubs.length > 0 then
      frontEntries.foldl (fun es fe =>
        match reduceNearest fe.pos sortedHubs with
        | none => es
        | some closestHub => es ++ [mkEdge closestHub fe]) edges
    else edges
  -- Inter-Hub connectivity for lane switching
  let edges := edges ++ (sortedHubs.zip sortedHubs.tail).map (fun q => mkEdge q.1 q.2)
  -- Frontline entry to objective connectivity
  let edges :=
    if frontlines.length > 0 then
      frontEntries.foldl (fun es fe =>
        match reduceNearest fe.pos frontlines with
        | none => es
        | some fl => es ++ [mkEdge fe fl]) edges
    else edges
  -- Add 1-2 tactical gaps (indices track JS object identity of the
  -- filtered references whose `type` field is mutated)
  let potentialGapEdges := edges.enum.filter (fun q => idHasHUB q.2.fromId && idHasFENTRY q.2.toId)
  if potentialGapEdges.length > 0 then do
    let shuffled ← shuffle potentialGapEdges
    let k ← nextInt 1 2
    let gapIdx := (shuffled.take (⌊k⌋.toNat)).map (·.1)
    pure (edges.enum.map (fun q =>
      if gapIdx.contains q.1 then { q.2 with type := .bridgeable } else q.2))
  else
    pure edges

/-! ## Route enhancer -/

/-- `addPathingEnhancements(nodes, edges, config, prng, team, counters)`.
The returned triple also carries the threaded counter table. -/
def addPathingEnhancements (nodes : List Node) (edges : List Edge) (config : GeneratorConfig)
    (team : Team) (counters : Counters) :
    GenM (List Node × List Edge × Counters) := do
  let (newNodes, newEdges, counters, flankDiversionPoints) ←
    if config.pathingEnhancements.enableWoolFlankRoutes then do
      let woolEntries := findNodes nodes .WOOL_ENTRY
      let hubIds := (findNodes nodes .HUB).map (·.id)
      let woolIds := (findNodes nodes .WOOL).map (·.id)
      woolEntries.foldlM
        (fun (acc : List Node × List Edge × Counters × List (NodeId × Node)) we => do
          let (ns, es, cs, fm) := acc
          let hubToWEEdge := es.find? (fun p => p.toId == we.id && hubIds.contains p.fromId)
          let weToWoolEdge := es.find? (fun p => p.fromId == we.id && woolIds.contains p.toId)
          match hubToWEEdge, weToWoolEdge with
          | some hwe, some wwe =>
            match ns.find? (fun p => p.id == hwe.fromId), ns.find? (fun p => p.id == wwe.toId) with
            | some hub, some wool => do
              -- `filter(p => p !== edge)` removes the found (first) occurrence
              let es := (es.erase hwe).erase wwe
              let p1Pos : Point := { x := hub.pos.x + (we.pos.x - hub.pos.x) * (1/2),
                                     y := hub.pos.y + (we.pos.y - hub.pos.y) * (1/2) }
              let p2Pos : Point := { x := we.pos.x + (wool.pos.x - we.pos.x) * (1/2),
                                     y := we.pos.y + (wool.pos.y - we.pos.y) * (1/2) }
              let f ← nextInt 0 1
              let flankOffset : ℚ := if f = 0 then 25 else -25
              let padding : ℚ := 10
              let flankY := max padding (min (we.pos.y + flankOffset) (config.teamHeight - padding))
              let p3Pos : Point := { x := we.pos.x, y := flankY }
              let (j1, cs) := generateNodeId cs team .HELPER
              let (j2, cs) := generateNodeId cs team .HELPER
              let (j3, cs) := generateNodeId cs team .HELPER
              let p1 : Node := ⟨j1, .HELPER, p1Pos, team⟩
              let p2 : Node := ⟨j2, .HELPER, p2Pos, team⟩
              let p3 : Node := ⟨j3, .HELPER, p3Pos, team⟩
              let ns := ns ++ [p1, p2, p3]
              let fm := fm ++ [(we.id, p3)]
              let es := es ++ [mkEdge hub p1, mkEdge p1 we, mkEdge we p2, mkEdge p2 wool,
                               mkEdge p1 p3, mkEdge p3 p2]
              pure (ns, es, cs, fm)
            | _, _ => throw "addPathingEnhancements: missing node (non-null assertion failed)"
          | _, _ => pure acc)
        (nodes, edges, counters, [])
    else
      pure (nodes, edges, counters, [])
  if config.pathingEnhancements.enableSpawnWoolRushRoute then
    match findNode newNodes .SPAWN_ENTRY with
    | some spawnEntry =>
      let woolEntries := findNodes newNodes .WOOL_ENTRY
      if woolEntries.length > 0 then
        match reduceNearest spawnEntry.pos woolEntries with
        | none => pure (newNodes, newEdges, counters)
        | some closestWE =>
          let targetForRushRoute :=
            match (flankDiversionPoints.find? (fun q => q.1 == closestWE.id)).map (·.2) with
            | some flankDiversionPoint =>
              let seY := spawnEntry.pos.y
              let weY := closestWE.pos.y
              let flankY := flankDiversionPoint.pos.y
              if (seY < flankY ∧ flankY < weY) ∨ (weY < flankY ∧ flankY < seY) then
                flankDiversionPoint
              else closestWE
            | none => closestWE
          pure (newNodes,
                newEdges ++ [{ fromId := spawnEntry.id, toId := targetForRushRoute.id,
                               nodes := [spawnEntry.pos, targetForRushRoute.pos],
                               isRushRoute := true, type := .walkable }],
                counters)
      else pure (newNodes, newEdges, counters)
    | none => pure (newNodes, newEdges, counters)
  else
    pure (newNodes, newEdges, counters)

/-! ## Symmetry transform -/

/-- `applySymmetry(nodes, edges, team, symmetryMode, totalWidth, totalHeight)`:
pure (consumes no randomness). -/
def applySymmetry (nodes : List Node) (edges : List Edge) (team : Team)
    (symmetryMode : SymmetryMode) (totalWidth totalHeight : ℚ) :
    List Node × List Edge :=
  let mirror : Point → Point := fun p =>
    if symmetryMode = SymmetryMode.MIRROR then { x := totalWidth - p.x, y := p.y }
    else { x := totalWidth - p.x, y := totalHeight - p.y }
  -- id remap: split('-'), drop the team component, re-prefix with `team`
  let newNodes := nodes.map (fun p =>
    { p with id := { p.id with team := team }, pos := mirror p.pos, team := team })
  let nodeMap := nodes.map (fun p => (p.id, { p.id with team := team }))
  let mapGet := fun (i : NodeId) =>
    ((nodeMap.find? (fun q => q.1 == i)).map (·.2)).getD undefinedId
  let newEdges := edges.map (fun e =>
    ({ fromId := mapGet e.fromId, toId := mapGet e.toId,
       nodes := e.nodes.map mirror,
       isRushRoute := e.isRushRoute, type := e.type, purpose := e.purpose } : Edge))
  (newNodes, newEdges)

/-! ## Island generator -/

/-- `createIslandChain(prng, startPoint, bounds, team, counters)`. -/
def createIslandChain (startPoint : Point) (bounds : Zone) (team : Team)
    (counters : Counters) : GenM (List Node × List Edge × Counters) := do
  let numPoints ← nextInt 2 3
  let chain ← (List.range ((⌊numPoints⌋).toNat - 1)).foldlM
    (fun (acc : List Point) _ => do
      let prevPoint := acc.getLast?.getD startPoint
      let nx ← nextInt (max bounds.x (prevPoint.x - 20)) (min (bounds.x + bounds.width) (prevPoint.x + 20))
      let ny ← nextInt (max bounds.y (prevPoint.y - 20)) (min (bounds.y + bounds.height) (prevPoint.y + 20))
      pure (acc ++ [({ x := nx, y := ny } : Point)]))
    [startPoint]
  let (strategicNodes, counters) := chain.foldl
    (fun (acc : List Node × Counters) p =>
      let (ns, cs) := acc
      let (nid, cs) := generateNodeId cs team .ISLAND
      (ns ++ [(⟨nid, .ISLAND, p, team⟩ : Node)], cs))
    ([], counters)
  let newEdges := (strategicNodes.zip strategicNodes.tail).map (fun q => mkEdge q.1 q.2)
  pure (strategicNodes, newEdges, counters)

/-- An island spawn strategy: the boolean says whether it succeeded;
nodes/edges are what the source closure pushed into its captured
accumulators. -/
def IslandStrat := Counters → GenM (Bool × List Node × List Edge × Counters)

/-- The *empty frontline zones* spawn strategy. -/
def islandSpawnEmptyZones (grid : List (List Zone)) (existingNodes : List Node) :
    IslandStrat := fun counters => do
  let usedFrontlineRows := (findNodes existingNodes .FRONT_LINE).map (fun p =>
    ((grid.flatten.find? (fun z => decide (p.pos.y ≥ z.y ∧ p.pos.y < z.y + z.height))).map (·.row)))
  let emptyFrontlineZones := (([0, 1, 2] : List Nat).filter
      (fun i => ¬ usedFrontlineRows.contains (some (Int.ofNat i)))).map (fun i => gridGet grid i 2)
  if emptyFrontlineZones.length = 0 then pure (false, [], [], counters)
  else do
    let shuffled ← shuffle emptyFrontlineZones
    let zone := shuffled.getD 0 dfltZone
    match findNearestNode { x := zone.x, y := zone.y + zone.height / 2 } existingNodes with
    | none => throw "generateIslands: findNearestNode on an empty node list"
    | some nearestNode => do
      let sx ← nextInt 10 (zone.width - 10)
      let sy ← nextInt 10 (zone.height - 10)
      let startPos : Point := { x := zone.x + sx, y := zone.y + sy }
      let (ns, es, cs) ← createIslandChain startPos zone .BLUE counters
      match ns with
      | [] => throw "generateIslands: empty island chain"
      | first :: _ =>
        pure (true, ns,
              es ++ [{ fromId := nearestNode.id, toId := first.id,
                       nodes := [nearestNode.pos, first.pos], type := .bridgeable }], cs)

/-- The *forward fourth column* spawn strategy (2 teams only). -/
def islandSpawnFourthColumn (config : GeneratorConfig) (existingNodes : List Node)
    (totalHeight : ℚ) : IslandStrat := fun counters => do
  let fourthColWidth : ℚ := 30
  let zone : Zone := { x := config.teamWidth, y := 0, width := fourthColWidth,
                       height := totalHeight, row := -1, col := 3 }
  let relevantNodes := existingNodes.filter
    (fun p => decide (p.type = .FRONT_LINE ∨ p.type = .FRONT_LINE_ENTRY))
  if relevantNodes.length = 0 then pure (false, [], [], counters)
  else do
    let shuffled ← shuffle relevantNodes
    match shuffled with
    | [] => throw "generateIslands: empty shuffle result"
    | nearestNode :: _ => do
      let dx ← nextInt 15 25
      let dy ← nextInt (-10) 10
      let startPos : Point := { x := nearestNode.pos.x + dx, y := nearestNode.pos.y + dy }
      let (ns, es, cs) ← createIslandChain startPos zone .BLUE counters
      match ns with
      | [] => throw "generateIslands: empty island chain"
      | first :: _ =>
        pure (true, ns,
              es ++ [{ fromId := nearestNode.id, toId := first.id,
                       nodes := [nearestNode.pos, first.pos], type := .bridgeable }], cs)

/-- The *center gap* spawn strategy. -/
def islandSpawnCenterGap (config : GeneratorConfig) (existingNodes : List Node)
    (totalWidth totalHeight : ℚ) : IslandStrat := fun counters => do
  let blueSideGapWidth := config.teamGap / 2
  let zone : Zone := { x := (totalWidth - config.teamGap) / 2, y := 0,
                       width := blueSideGapWidth, height := totalHeight, row := -1, col := -1 }
  let relevantNodes := existingNodes.filter (fun p => decide (p.type = .FRONT_LINE))
  if relevantNodes.length = 0 then pure (false, [], [], counters)
  else do
    let startY ← nextInt 20 (totalHeight - 20)
    let sx ← nextInt 5 (zone.width - 5)
    let startPos : Point := { x := zone.x + sx, y := startY }
    match findNearestNode startPos relevantNodes with
    | none => throw "generateIslands: findNearestNode on an empty node list"
    | some nearestNode => do
      let (ns, es, cs) ← createIslandChain startPos zone .BLUE counters
      match ns with
      | [] => throw "generateIslands: empty island chain"
      | first :: _ =>
        pure (true, ns,
              es ++ [{ fromId := nearestNode.id, toId := first.id,
                       nodes := [nearestNode.pos, first.pos], type := .bridgeable }], cs)

/-- The `while (islandCount < max && shuffledSpawns.length > 0)` loop;
`pop()` takes from the end of the shuffled array, so this runs over the
reversed list. -/
def runSpawns (maxIslands : Nat) :
    List IslandStrat → Nat → List Node → List Edge → Counters →
    GenM (List Node × List Edge × Counters)
  | [], _, ns, es, cs => pure (ns, es, cs)
  | f :: rest, islandCount, ns, es, cs =>
    if islandCount < maxIslands then do
      let (ok, ns', es', cs) ← f cs
      runSpawns maxIslands rest (if ok then islandCount + 1 else islandCount)
        (ns ++ ns') (es ++ es') cs
    else pure (ns, es, cs)

/-- `generateIslands(prng, config, grid, existingNodes, totalWidth, totalHeight, counters)`. -/
def generateIslands (config : GeneratorConfig) (grid : List (List Zone))
    (existingNodes : List Node) (totalWidth totalHeight : ℚ) (counters : Counters) :
    GenM (List Node × List Edge × Counters) := do
  if config.islandGeneration.enabled = false ∨ config.islandGeneration.maxIslandsPerTeam = 0 then
    pure ([], [], counters)
  else do
    let availableSpawns : List IslandStrat :=
      (if config.islandGeneration.spawnInEmptyZones then
        [islandSpawnEmptyZones grid existingNodes] else []) ++
      (if config.islandGeneration.spawnInFourthColumn ∧ config.numTeams = 2 then
        [islandSpawnFourthColumn config existingNodes totalHeight] else []) ++
      (if config.islandGeneration.spawnInCenterGap then
        [islandSpawnCenterGap config existingNodes totalWidth totalHeight] else [])
    let shuffledSpawns ← shuffle availableSpawns
    runSpawns config.islandGeneration.maxIslandsPerTeam shuffledSpawns.reverse 0 [] [] counters

/-! ## Orchestrators -/

/-- The error message thrown for a too-narrow 2-team territory (the
source interpolates the configured width into the text). -/
def narrowTerritoryMsg : String :=
  "Each team's territory must be at least 80 units wide. Please increase 'Team Width' to allow enough space for point placement."

/-- `generate2TeamLayout(config, prng)`. -/
def generate2TeamLayout (config : GeneratorConfig) : GenM MapLayout := do
  let totalWidth := config.teamWidth * 2 + config.teamGap
  let totalHeight := config.teamHeight
  if config.teamWidth < 80 then
    throw narrowTerritoryMsg
  else do
    let counters : Counters := fun _ => 0
    -- Generate Blue Team side
    let blueGrid ← createGrid config.teamWidth config.teamHeight config.gridMode config.symmetricalTeamLayout
    let (blueNodes, counters) ← placeNodes blueGrid .BLUE config counters
    let blueEdges ← createEdges blueNodes
    let (enhancedBlueNodes, enhancedBlueEdges, counters) ←
      addPathingEnhancements blueNodes blueEdges config .BLUE counters
    let (islandNodes, islandEdges, _) ←
      generateIslands config blueGrid enhancedBlueNodes totalWidth totalHeight counters
    let finalBlueNodes := enhancedBlueNodes ++ islandNodes
    let finalBlueEdges := enhancedBlueEdges ++ islandEdges
    -- Generate Orange Team side via symmetry
    let (orangeNodes, orangeEdges) :=
      applySymmetry finalBlueNodes finalBlueEdges .ORANGE config.symmetryMode totalWidth totalHeight
    let orangeGrid := blueGrid.map (fun row => row.map (fun zone =>
      if config.symmetryMode = SymmetryMode.MIRROR then
        { zone with x := totalWidth - (zone.x + zone.width) }
      else
        { zone with x := totalWidth - (zone.x + zone.width),
                    y := totalHeight - (zone.y + zone.height) }))
    pure { width := totalWidth, height := totalHeight, teamGap := config.teamGap,
           laneWidth := config.laneWidth,
           teams := fun t => match t with
             | .BLUE => some { grid := blueGrid, nodes := finalBlueNodes, edges := finalBlueEdges }
             | .ORANGE => some { grid := orangeGrid, nodes := orangeNodes, edges := orangeEdges }
             | _ => none }

/-- `rotatePoint(p, angle, center)`.  The source computes the rotation
with `Math.cos`/`Math.sin` of `angle·π/180`; only the right angles
90/180/270 are ever passed, where the ideal trigonometric values are
0/±1 and the rotation reduces to these exact formulas (other angles are
never used and are embedded as the identity). -/
def rotatePoint (p : Point) (angle : ℚ) (center : Point) : Point :=
  if angle = 90 then { x := center.x - (p.y - center.y), y := center.y + (p.x - center.x) }
  else if angle = 180 then { x := center.x - (p.x - center.x), y := center.y - (p.y - center.y) }
  else if angle = 270 then { x := center.x + (p.y - center.y), y := center.y - (p.x - center.x) }
  else p

/-- `rotateLayout(baseLayout, angle, newTeam)` (closure over `centerPoint`
in `generate4TeamLayout`).  Center hubs are shared: kept once with their
original id; every other node id gets its team component replaced. -/
def rotateLayout (centerPoint : Point) (baseLayout : TeamLayout) (angle : ℚ)
    (newTeam : Team) : TeamLayout :=
  let (newNodes, nodeMap) := baseLayout.nodes.foldl
    (fun (acc : List Node × List (NodeId × NodeId)) p =>
      let (ns, nm) := acc
      if p.type = StrategicPointType.CENTER_HUB then
        if (nm.find? (fun q => q.1 == p.id)).isSome then (ns, nm)
        else (ns ++ [p], nm ++ [(p.id, p.id)])
      else
        let newId := { p.id with team := newTeam }
        let rotated : Node := { p with id := newId, team := newTeam,
                                       pos := rotatePoint p.pos angle centerPoint }
        (ns ++ [rotated], nm ++ [(p.id, newId)]))
    ([], [])
  let mapGet := fun (i : NodeId) =>
    ((nodeMap.find? (fun q => q.1 == i)).map (·.2)).getD undefinedId
  let newEdges := baseLayout.edges.map (fun e =>
    { e with fromId := mapGet e.fromId, toId := mapGet e.toId,
             nodes := e.nodes.map (rotatePoint · angle centerPoint) })
  let newGrid := baseLayout.grid.map (fun row => row.map (fun zone =>
    if angle = 90 then
      let ntl := rotatePoint { x := zone.x, y := zone.y + zone.height } angle centerPoint
      { zone with x := ntl.x, y := ntl.y, width := zone.height, height := zone.width }
    else if angle = 180 then
      let ntl := rotatePoint { x := zone.x + zone.width, y := zone.y + zone.height } angle centerPoint
      { zone with x := ntl.x, y := ntl.y }
    else if angle = 270 then
      let ntl := rotatePoint { x := zone.x + zone.width, y := zone.y } angle centerPoint
      { zone with x := ntl.x, y := ntl.y, width := zone.height, height := zone.width }
    else zone))
  { nodes := newNodes, edges := newEdges, grid := newGrid }

/-- `generate4TeamLayout(config, prng)`. -/
def generate4TeamLayout (config : GeneratorConfig) : GenM MapLayout := do
  let quadrantSize := config.teamWidth
  let centerGap := config.teamGap
  let totalSize := quadrantSize * 2 + centerGap
  let centerPoint : Point := { x := totalSize / 2, y := totalSize / 2 }
  let blueGrid ← createGrid quadrantSize quadrantSize .STANDARD false
  let counters : Counters := fun _ => 0
  -- Spawn in the corner
  let spawnZone := gridGet blueGrid 0 0
  let (spawnPos, spawnEntryPos) ← placePairedPoints spawnZone config.spawnEntryDistance 10
  let (i1, counters) := generateNodeId counters .BLUE .SPAWN
  let (i2, counters) := generateNodeId counters .BLUE .SPAWN_ENTRY
  let blueNodes : List Node :=
    [⟨i1, .SPAWN, spawnPos, .BLUE⟩, ⟨i2, .SPAWN_ENTRY, spawnEntryPos, .BLUE⟩]
  -- Wools
  let (blueNodes, counters) ←
    if config.woolsPerTeam = 1 then do
      let woolZone := gridGet blueGrid 0 1
      let (woolPos, woolEntryPos) ← placePairedPoints woolZone config.woolEntryDistance 10
      let (i3, counters) := generateNodeId counters .BLUE .WOOL
      let (i4, counters) := generateNodeId counters .BLUE .WOOL_ENTRY
      pure (blueNodes ++ [(⟨i3, .WOOL, woolPos, .BLUE⟩ : Node),
                          (⟨i4, .WOOL_ENTRY, woolEntryPos, .BLUE⟩ : Node)], counters)
    else do
      let (wtPos, wtEntryPos) ← placePairedPoints (gridGet blueGrid 0 1) config.woolEntryDistance 10
      let (i3, counters) := generateNodeId counters .BLUE .WOOL
      let (i4, counters) := generateNodeId counters .BLUE .WOOL_ENTRY
      let (wbPos, wbEntryPos) ← placePairedPoints (gridGet blueGrid 1 0) config.woolEntryDistance 10
      let (i5, counters) := generateNodeId counters .BLUE .WOOL
      let (i6, counters) := generateNodeId counters .BLUE .WOOL_ENTRY
      pure (blueNodes ++ [(⟨i3, .WOOL, wtPos, .BLUE⟩ : Node),
                          (⟨i4, .WOOL_ENTRY, wtEntryPos, .BLUE⟩ : Node),
                          (⟨i5, .WOOL, wbPos, .BLUE⟩ : Node),
                          (⟨i6, .WOOL_ENTRY, wbEntryPos, .BLUE⟩ : Node)], counters)
  -- Hubs
  let (blueNodes, counters) ←
    [gridGet blueGrid 1 1, gridGet blueGrid 0 2, gridGet blueGrid 2 0,
     gridGet blueGrid 1 2, gridGet blueGrid 2 1].foldlM
      (fun (acc : List Node × Counters) zone => do
        let (ns, cs) := acc
        let pts ← placePointsInZone zone 1 10
        let (nid, cs) := generateNodeId cs .BLUE .HUB
        pure (ns ++ [(⟨nid, .HUB, pts.getD 0 ⟨0, 0⟩, .BLUE⟩ : Node)], cs))
      (blueNodes, counters)
  -- Frontlines
  let (fePos, flPos) ← placePairedPoints (gridGet blueGrid 2 2) config.frontlineEntryDistance 10
  let (i7, counters) := generateNodeId counters .BLUE .FRONT_LINE_ENTRY
  let (i8, counters) := generateNodeId counters .BLUE .FRONT_LINE
  let blueNodes := blueNodes ++ [(⟨i7, .FRONT_LINE_ENTRY, fePos, .BLUE⟩ : Node),
                                 (⟨i8, .FRONT_LINE, flPos, .BLUE⟩ : Node)]
  -- Edges
  let blueEdges ← createEdges blueNodes
  -- Center Hubs
  let (centerHubs, counters) ← (List.range 4).foldlM
    (fun (acc : List Node × Counters) _ => do
      let (ns, cs) := acc
      let (nid, cs) := generateNodeId cs .BLUE .CENTER_HUB
      let dx ← nextInt (-(centerGap / 3)) (centerGap / 3)
      let dy ← nextInt (-(centerGap / 3)) (centerGap / 3)
      pure (ns ++ [(⟨nid, .CENTER_HUB, { x := centerPoint.x + dx, y := centerPoint.y + dy },
                     .BLUE⟩ : Node)], cs))
    ([], counters)
  let _ := counters
  let allBlueNodes := blueNodes ++ centerHubs
  let frontlineNodes := findNodes blueNodes .FRONT_LINE
  let blueEdges ← frontlineNodes.foldlM
    (fun es fl => do
      match findNearestNode fl.pos centerHubs with
      | none => throw "generate4TeamLayout: findNearestNode on empty center hubs"
      | some closestCenterHub =>
        pure (es ++ [{ fromId := fl.id, toId := closestCenterHub.id,
                       nodes := [fl.pos, closestCenterHub.pos], type := EdgeType.walkable }]))
    blueEdges
  let blueTeamLayout : TeamLayout := { nodes := allBlueNodes, edges := blueEdges, grid := blueGrid }
  let orangeTeamLayout := rotateLayout centerPoint blueTeamLayout 90 .ORANGE
  let greenTeamLayout := rotateLayout centerPoint blueTeamLayout 180 .GREEN
  let yellowTeamLayout := rotateLayout centerPoint blueTeamLayout 270 .YELLOW
  pure { width := totalSize, height := totalSize, teamGap := centerGap,
         laneWidth := config.laneWidth,
         teams := fun t => match t with
           | .BLUE => some blueTeamLayout
           | .ORANGE => some orangeTeamLayout
           | .GREEN => some greenTeamLayout
           | .YELLOW => some yellowTeamLayout }

/-- `generateLayout(config)`: seeds the PRNG and dispatches on the team
count; the result carries the final PRNG register. -/
def generateLayout (config : GeneratorConfig) : Except String (MapLayout × Int) :=
  (if config.numTeams = 4 then generate4TeamLayout config
   else generate2TeamLayout config) (PRNG.init config.seed)

/-! ## Monad plumbing lemmas -/

theorem bind_run {α β} {x : GenM α} {f : α → GenM β} {s s₁ : Int} {a : α}
    (hx : x s = .ok (a, s₁)) : (x >>= f) s = f a s₁ := by
  show StateT.bind x f s = _
  unfold StateT.bind
  rw [hx]
  rfl

theorem bind_err {α β} {x : GenM α} {f : α → GenM β} {s : Int} {e : String}
    (hx : x s = .error e) : (x >>= f) s = .error e := by
  show StateT.bind x f s = _
  unfold StateT.bind
  rw [hx]
  rfl

theorem bind_ok {α β} {x : GenM α} {f : α → GenM β} {s s₂ : Int} {b : β} :
    (x >>= f) s = .ok (b, s₂) ↔ ∃ a s₁, x s = .ok (a, s₁) ∧ f a s₁ = .ok (b, s₂) := by
  constructor
  · intro h
    cases hx : x s with
    | error e =>
      rw [bind_err hx] at h
      exact Except.noConfusion h
    | ok p =>
      obtain ⟨a, s₁⟩ := p
      rw [bind_run hx] at h
      exact ⟨a, s₁, rfl, h⟩
  · rintro ⟨a, s₁, hx, hf⟩
    rw [bind_run hx]
    exact hf

theorem pure_ok {α} {a b : α} {s s' : Int} :
    (pure a : GenM α) s = .ok (b, s') ↔ b = a ∧ s' = s := by
  show (StateT.pure a : GenM α) s = _ ↔ _
  unfold StateT.pure
  constructor
  · intro h
    injection h with h
    injection h with h1 h2
    exact ⟨h1.symm, h2.symm⟩
  · rintro ⟨rfl, rfl⟩
    rfl

theorem throw_ok {α} {e : String} {b : α} {s s' : Int} :
    (throw e : GenM α) s = .ok (b, s') ↔ False := by
  constructor
  · intro h
    exact Except.noConfusion h
  · intro h
    exact h.elim

/-! ## PRNG facts -/

/-- The states a constructed PRNG inhabits (when not degeneratively
seeded): the nonzero residues modulo the Mersenne modulus. -/
def ValidState (s : Int) : Prop := 1 ≤ s ∧ s ≤ 2147483646

theorem neg_tmod (a b : Int) : (-a).tmod b = -(a.tmod b) := by
  rw [Int.tmod_def, Int.tmod_def, Int.neg_tdiv]
  ring

theorem tmod_gt_neg (a : Int) {b : Int} (hb : 0 < b) : -b < a.tmod b := by
  rcases le_or_lt 0 a with h | h
  · have := Int.tmod_nonneg b h
    omega
  · have h1 : (-a).tmod b < b := Int.tmod_lt_of_pos _ hb
    have h2 : (-a).tmod b = -(a.tmod b) := neg_tmod a b
    omega

theorem PRNG.init_valid {seed : Int} (h : seed.tmod 2147483647 ≠ -2147483646) :
    ValidState (PRNG.init seed) := by
  unfold PRNG.init ValidState
  have h1 : seed.tmod 2147483647 < 2147483647 := Int.tmod_lt_of_pos _ (by norm_num)
  have h2 : -2147483647 < seed.tmod 2147483647 := tmod_gt_neg _ (by norm_num)
  simp only []
  split <;> omega

theorem PRNG.step_valid {s : Int} (hs : ValidState s) : ValidState (PRNG.step s) := by
  obtain ⟨h1, h2⟩ := hs
  unfold PRNG.step
  have hnn : (0 : Int) ≤ s * 16807 := by positivity
  have hmod : (s * 16807).tmod 2147483647 = (s * 16807) % 2147483647 :=
    Int.tmod_eq_emod hnn (by norm_num)
  have hub : (s * 16807) % 2147483647 < 2147483647 :=
    Int.emod_lt_of_pos _ (by norm_num)
  have hlb : 0 ≤ (s * 16807) % 2147483647 := Int.emod_nonneg _ (by norm_num)
  have hne : (s * 16807) % 2147483647 ≠ 0 := by
    intro h0
    have hdvd : (2147483647 : Int) ∣ s * 16807 := Int.dvd_of_emod_eq_zero h0
    have hcop : IsCoprime (2147483647 : Int) (16807 : Int) := by
      rw [Int.isCoprime_iff_gcd_eq_one]
      decide
    have hdvds : (2147483647 : Int) ∣ s := hcop.dvd_of_dvd_mul_right hdvd
    have := Int.le_of_dvd (by omega) hdvds
    omega
  rw [hmod]
  exact ⟨by omega, by omega⟩

theorem next_ok {s : Int} :
    next s = .ok ((((PRNG.step s : Int) : ℚ) - 1) / 2147483646, PRNG.step s) := rfl

theorem next_bounds {s s' : Int} {u : ℚ} (hs : ValidState s)
    (h : next s = .ok (u, s')) : 0 ≤ u ∧ u < 1 ∧ ValidState s' := by
  have hst := PRNG.step_valid hs
  rw [next_ok] at h
  injection h with h
  injection h with h1 h2
  subst h1
  subst h2
  obtain ⟨hl, hr⟩ := hst
  refine ⟨?_, ?_, PRNG.step_valid hs⟩
  · apply div_nonneg _ (by norm_num)
    have : (1 : ℚ) ≤ ((PRNG.step s : Int) : ℚ) := by exact_mod_cast hl
    linarith
  · rw [div_lt_one (by norm_num)]
    have : ((PRNG.step s : Int) : ℚ) ≤ 2147483646 := by exact_mod_cast hr
    linarith

/-- `nextInt` on integer bounds `a ≤ b` from a valid state: an integer
result in `[a, b]`, valid final state. -/
theorem nextInt_int_bounds {a b : ℤ} {s s' : Int} {v : ℚ} (hs : ValidState s)
    (hab : a ≤ b) (h : nextInt (a : ℚ) (b : ℚ) s = .ok (v, s')) :
    (∃ k : ℤ, v = (k : ℚ) ∧ a ≤ k ∧ k ≤ b) ∧ ValidState s' := by
  unfold nextInt at h
  rw [if_neg (by exact not_lt.mpr (by exact_mod_cast hab))] at h
  rw [bind_ok] at h
  obtain ⟨u, s₁, hu, hv⟩ := h
  obtain ⟨hu0, hu1, hs₁⟩ := next_bounds hs hu
  rw [pure_ok] at hv
  obtain ⟨rfl, rfl⟩ := hv
  refine ⟨⟨⌊u * ((b : ℚ) - (a : ℚ) + 1)⌋ + a, by push_cast; ring, ?_, ?_⟩, hs₁⟩
  · have : (0 : ℤ) ≤ ⌊u * ((b : ℚ) - (a : ℚ) + 1)⌋ := by
      apply Int.floor_nonneg.mpr
      apply mul_nonneg hu0
      have : (a : ℚ) ≤ (b : ℚ) := by exact_mod_cast hab
      linarith
    omega
  · have hk : ⌊u * ((b : ℚ) - (a : ℚ) + 1)⌋ < b - a + 1 := by
      rw [Int.floor_lt]
      calc u * ((b : ℚ) - (a : ℚ) + 1)
          < 1 * ((b : ℚ) - (a : ℚ) + 1) := by
            apply mul_lt_mul_of_pos_right hu1
            have : (a : ℚ) ≤ (b : ℚ) := by exact_mod_cast hab
            linarith
        _ = ((b - a + 1 : ℤ) : ℚ) := by push_cast; ring
    omega

deriving instance DecidableEq for Except

/-- **C10** — counterexample to the claim as stated: the (negative) seed
-2147483646 is ≡ 1 (mod 2147483647), so the constructor lands on the
absorbing state 0, which is outside [1, 2^31 - 2]; from it `next()`
returns the negative value -1/2147483646 (outside [0, 1)) and
`nextInt(0, 5)` returns -1 (outside [0, 5]). -/
theorem C10_counterexample :
    PRNG.init (-2147483646) = 0 ∧
    next (PRNG.init (-2147483646)) = .ok (-(1 / 2147483646 : ℚ), 0) ∧
    nextInt (0 : ℚ) (5 : ℚ) (PRNG.init (-2147483646)) = .ok ((-1 : ℚ), 0) := by
  decide

/-- **C10** (amended): for every integer seed *except the negative seeds
congruent to 1 modulo 2147483647* (equivalently: those whose JS `%`
remainder is -2147483646, on which the constructor produces the
absorbing state 0), the constructor establishes internal state in
[1, 2^31 - 2]; every step of `next()` preserves that range; every value
returned by `next()` lies in [0, 1); and `nextInt(min, max)` on integers
`min ≤ max` returns an integer in [min, max]. -/
theorem C10_prng_contract (seed : Int) (h : seed.tmod 2147483647 ≠ -2147483646) :
    (1 ≤ PRNG.init seed ∧ PRNG.init seed ≤ 2147483646) ∧
    (∀ s : Int, 1 ≤ s → s ≤ 2147483646 → 1 ≤ PRNG.step s ∧ PRNG.step s ≤ 2147483646) ∧
    (∀ (s s' : Int) (u : ℚ), 1 ≤ s → s ≤ 2147483646 →
      next s = .ok (u, s') → 0 ≤ u ∧ u < 1) ∧
    (∀ (s s' : Int) (a b : ℤ) (v : ℚ), 1 ≤ s → s ≤ 2147483646 → a ≤ b →
      nextInt (a : ℚ) (b : ℚ) s = .ok (v, s') → ∃ k : ℤ, v = (k : ℚ) ∧ a ≤ k ∧ k ≤ b) := by
  refine ⟨PRNG.init_valid h, ?_, ?_, ?_⟩
  · intro s h1 h2
    exact PRNG.step_valid ⟨h1, h2⟩
  · intro s s' u h1 h2 hn
    obtain ⟨hu0, hu1, _⟩ := next_bounds ⟨h1, h2⟩ hn
    exact ⟨hu0, hu1⟩
  · intro s s' a b v h1 h2 hab hn
    obtain ⟨⟨k, hk, hka, hkb⟩, _⟩ := nextInt_int_bounds ⟨h1, h2⟩ hab hn
    exact ⟨k, hk, hka, hkb⟩

/-- Witness for C10 at the concrete seed 42. -/
theorem C10_witness :
    ((42 : Int).tmod 2147483647 ≠ -2147483646) ∧
    ((1 ≤ PRNG.init 42 ∧ PRNG.init 42 ≤ 2147483646) ∧
     (∀ s : Int, 1 ≤ s → s ≤ 2147483646 → 1 ≤ PRNG.step s ∧ PRNG.step s ≤ 2147483646) ∧
     (∀ (s s' : Int) (u : ℚ), 1 ≤ s → s ≤ 2147483646 →
       next s = .ok (u, s') → 0 ≤ u ∧ u < 1) ∧
     (∀ (s s' : Int) (a b : ℤ) (v : ℚ), 1 ≤ s → s ≤ 2147483646 → a ≤ b →
       nextInt (a : ℚ) (b : ℚ) s = .ok (v, s') → ∃ k : ℤ, v = (k : ℚ) ∧ a ≤ k ∧ k ≤ b)) :=
  ⟨by decide, C10_prng_contract 42 (by decide)⟩

/-- `nextInt` on arbitrary rational bounds: whatever it returns, the
final state is still valid (it draws at most once). -/
theorem nextInt_state {a b : ℚ} {s s' : Int} {v : ℚ} (hs : ValidState s)
    (h : nextInt a b s = .ok (v, s')) : ValidState s' := by
  unfold nextInt at h
  split at h
  · rw [pure_ok] at h
    obtain ⟨_, rfl⟩ := h
    exact hs
  · rw [bind_ok] at h
    obtain ⟨u, s₁, hu, hv⟩ := h
    obtain ⟨_, _, hs₁⟩ := next_bounds hs hu
    rw [pure_ok] at hv
    obtain ⟨_, rfl⟩ := hv
    exact hs₁

/-! ## `pickCuts` facts (C6) -/

/-- Drawing a float per list element: all draws lie in `[0,1)` and the
state stays valid. -/
theorem mapM_next_ok {α} {l : List α} {s s' : Int} {vs : List ℚ} (hs : ValidState s)
    (h : (l.mapM (fun _ => next)) s = .ok (vs, s')) :
    vs.length = l.length ∧ (∀ v ∈ vs, 0 ≤ v ∧ v < 1) ∧ ValidState s' := by
  induction l generalizing s vs with
  | nil =>
    rw [List.mapM_nil, pure_ok] at h
    obtain ⟨rfl, rfl⟩ := h
    simp [hs]
  | cons a t ih =>
    rw [List.mapM_cons] at h
    rw [bind_ok] at h
    obtain ⟨v, s₁, hv, h⟩ := h
    rw [bind_ok] at h
    obtain ⟨ws, s₂, hw, h⟩ := h
    rw [pure_ok] at h
    obtain ⟨rfl, rfl⟩ := h
    obtain ⟨hv0, hv1, hs₁⟩ := next_bounds hs hv
    obtain ⟨hlen, hball, hs₂⟩ := ih hs₁ hw
    refine ⟨by simp [hlen], ?_, hs₂⟩
    intro x hx
    rcases List.mem_cons.mp hx with rfl | hx
    · exact ⟨hv0, hv1⟩
    · exact hball x hx

/-- A `pure` computation never throws. -/
theorem pure_ne_err {α} {a : α} {s : Int} {e : String} :
    (pure a : GenM α) s ≠ .error e := by
  intro h
  rw [pure_ok.mpr ⟨rfl, rfl⟩] at h
  exact Except.noConfusion h

/-- `mapM` of `next` never throws. -/
theorem mapM_next_total {α} (l : List α) (s : Int) :
    ∃ vs s', (l.mapM (fun _ => next)) s = .ok (vs, s') := by
  induction l generalizing s with
  | nil => exact ⟨[], s, by rw [List.mapM_nil]; rfl⟩
  | cons a t ih =>
    obtain ⟨vs, s', h⟩ := ih (PRNG.step s)
    refine ⟨(((PRNG.step s : Int) : ℚ) - 1) / 2147483646 :: vs, s', ?_⟩
    rw [List.mapM_cons, bind_run next_ok, bind_run h]
    rfl

theorem sum_map_div (l : List ℚ) (b : ℚ) : (l.map (· / b)).sum = l.sum / b := by
  induction l with
  | nil => simp
  | cons h t ih => simp [ih, add_div]

theorem cutsFrom_length (m a : ℚ) : ∀ (ps : List ℚ) (lc : ℚ),
    (cutsFrom m a lc ps).length = ps.length := by
  intro ps
  induction ps with
  | nil => intro lc; rfl
  | cons p t ih => intro lc; simp [cutsFrom, ih]

theorem cutsFrom_chain {m a : ℚ} (ha : 0 ≤ a) :
    ∀ (ps : List ℚ) (lc : ℚ), (∀ p ∈ ps, 0 ≤ p) →
    List.Chain' (fun x y => x + m ≤ y) (lc :: cutsFrom m a lc ps) := by
  intro ps
  induction ps with
  | nil =>
    intro lc _
    simp [cutsFrom]
  | cons p t ih =>
    intro lc hp
    rw [cutsFrom]
    refine List.chain'_cons.mpr ⟨?_, ih _ (fun q hq => hp q (List.mem_cons_of_mem _ hq))⟩
    have : 0 ≤ p * a := mul_nonneg (hp p (List.mem_cons_self _ _)) ha
    linarith

theorem cutsFrom_last (m a : ℚ) : ∀ (ps : List ℚ) (lc : ℚ),
    (cutsFrom m a lc ps).getLastD lc = lc + ps.length * m + ps.sum * a := by
  intro ps
  induction ps with
  | nil => intro lc; simp [cutsFrom]
  | cons p t ih =>
    intro lc
    rw [cutsFrom]
    rw [List.getLastD_cons]
    rw [ih]
    simp only [List.length_cons, List.sum_cons]
    push_cast
    ring

/-- The error side of `pickCuts`: it throws iff the total cannot fit
`numCuts + 1` minimum-sized segments. -/
theorem pickCuts_err_iff (totalSize : ℚ) (numCuts : Nat) (minCellSize : ℚ) (s : Int) :
    (∃ e, pickCuts totalSize numCuts minCellSize s = .error e) ↔
      totalSize < minCellSize * ((numCuts : ℚ) + 1) := by
  constructor
  · rintro ⟨e, he⟩
    by_contra hlt
    rw [pickCuts] at he
    rw [if_neg (by push_neg at hlt ⊢; linarith)] at he
    obtain ⟨vs, s', hv⟩ := mapM_next_total (List.range numCuts) s
    rw [bind_run hv] at he
    exact pure_ne_err he
  · intro hlt
    rw [pickCuts]
    rw [if_pos (by linarith)]
    exact ⟨_, rfl⟩

/-- The success side of `pickCuts`: `numCuts` cut positions whose
segment chain (including the outer boundaries `0`, `total`) never drops
below `minCellSize`; the PRNG state stays valid. -/
theorem pickCuts_props {totalSize : ℚ} {numCuts : Nat} {minCellSize : ℚ} {s s' : Int}
    {cuts : List ℚ} (hs : ValidState s) (_hm : 0 < minCellSize)
    (h : pickCuts totalSize numCuts minCellSize s = .ok (cuts, s')) :
    cuts.length = numCuts ∧
    List.Chain' (fun x y => x + minCellSize ≤ y) ((0 :: cuts) ++ [totalSize]) ∧
    ValidState s' := by
    rw [pickCuts] at h
    by_cases hav : totalSize - minCellSize * ((numCuts : ℚ) + 1) < 0
    · rw [if_pos hav] at h
      exact absurd h (by intro hh; exact Except.noConfusion hh)
    · rw [if_neg hav] at h
      rw [bind_ok] at h
      obtain ⟨vs, s₁, hv, h⟩ := h
      rw [pure_ok] at h
      obtain ⟨rfl, rfl⟩ := h
      obtain ⟨hlen, hball, hsv⟩ := mapM_next_ok hs hv
      rw [List.length_range] at hlen
      set S := vs.foldl (· + ·) 0 with hS
      have hSsum : S = vs.sum := by
        rw [hS, List.sum_eq_foldl]
      have hS0 : 0 ≤ S := by
        rw [hSsum]
        exact List.sum_nonneg (fun v hv => (hball v hv).1)
      set ps := vs.map (· / S) with hps
      have hpnn : ∀ p ∈ ps, 0 ≤ p := by
        intro p hp
        rw [hps] at hp
        obtain ⟨v, hv, rfl⟩ := List.mem_map.mp hp
        exact div_nonneg (hball v hv).1 hS0
      have hpslen : ps.length = numCuts := by
        rw [hps, List.length_map, hlen]
      have hpssum : ps.sum ≤ 1 := by
        rcases eq_or_lt_of_le hS0 with hS0' | hSpos
        · have : ∀ p ∈ ps, p = 0 := by
            intro p hp
            rw [hps] at hp
            obtain ⟨v, hv, rfl⟩ := List.mem_map.mp hp
            rw [← hS0', div_zero]
          rw [List.sum_eq_zero this]
          norm_num
        · rw [hps, sum_map_div, ← hSsum, div_self (ne_of_gt hSpos)]
      have hchain := cutsFrom_chain (m := minCellSize) (a := totalSize - minCellSize * ((numCuts : ℚ) + 1)) (by linarith) ps 0 hpnn
      have hlast := cutsFrom_last minCellSize (totalSize - minCellSize * ((numCuts : ℚ) + 1)) ps 0
      refine ⟨by rw [cutsFrom_length, hpslen], ?_, hsv⟩
      · rw [List.chain'_append]
        refine ⟨hchain, List.chain'_singleton _, ?_⟩
        intro x hx y hy
        simp only [List.head?_cons, Option.mem_def, Option.some.injEq] at hy
        subst hy
        have hgl : (0 : ℚ) :: cutsFrom minCellSize (totalSize - minCellSize * ((numCuts : ℚ) + 1)) 0 ps ≠ [] := by simp
        rw [List.getLast?_eq_getLast _ hgl] at hx
        simp only [Option.mem_def, Option.some.injEq] at hx
        subst hx
        have hgd : (List.getLast ((0 : ℚ) :: cutsFrom minCellSize (totalSize - minCellSize * ((numCuts : ℚ) + 1)) 0 ps) hgl) =
            (cutsFrom minCellSize (totalSize - minCellSize * ((numCuts : ℚ) + 1)) 0 ps).getLastD 0 := by
          rw [List.getLast_eq_getLastD]
        rw [hgd, hlast]
        have hs1 : ps.sum * (totalSize - minCellSize * ((numCuts : ℚ) + 1)) ≤
            totalSize - minCellSize * ((numCuts : ℚ) + 1) := by
          have hnn : 0 ≤ totalSize - minCellSize * ((numCuts : ℚ) + 1) := by linarith
          nlinarith [List.sum_nonneg (fun p hp => hpnn p hp)]
        rw [hpslen]
        linarith

/-- **C6**: `pickCuts(total, numCuts, minSize)` reports a configuration
error if and only if `total < minSize * (numCuts + 1)`; on success it
returns `numCuts` strictly increasing cut positions such that every one
of the `numCuts + 1` segments between `0`, the cuts, and `total` has
length at least `minSize` (stated as the segment chain below). -/
theorem C6_pickCuts_spec (totalSize : ℚ) (numCuts : Nat) (minCellSize : ℚ) (s : Int)
    (hs : ValidState s) (hm : 0 < minCellSize) :
    ((∃ e, pickCuts totalSize numCuts minCellSize s = .error e) ↔
      totalSize < minCellSize * ((numCuts : ℚ) + 1)) ∧
    (∀ cuts s', pickCuts totalSize numCuts minCellSize s = .ok (cuts, s') →
      cuts.length = numCuts ∧
      List.Chain' (· < ·) cuts ∧
      List.Chain' (fun x y => x + minCellSize ≤ y) ((0 :: cuts) ++ [totalSize])) := by
  refine ⟨pickCuts_err_iff totalSize numCuts minCellSize s, ?_⟩
  intro cuts s' h
  obtain ⟨hlen, hchain, _⟩ := pickCuts_props hs hm h
  refine ⟨hlen, ?_, hchain⟩
  have h1 : List.Chain' (fun x y => x + minCellSize ≤ y) (0 :: cuts) :=
    (List.chain'_append.mp hchain).1
  have h2 : List.Chain' (· < ·) (0 :: cuts) :=
    h1.imp (fun {x y} hxy => by linarith)
  exact h2.tail

/-! ## `placePairedPoints` facts (C1, C8) -/

/-- `nextInt_int_bounds` transported along cast equations for the
bounds. -/
theorem nextInt_cast_bounds (za zb : ℤ) {a b : ℚ} {s s' : Int} {v : ℚ}
    (hza : a = (za : ℚ)) (hzb : b = (zb : ℚ)) (hs : ValidState s) (hab : za ≤ zb)
    (h : nextInt a b s = .ok (v, s')) :
    (∃ k : ℤ, v = (k : ℚ) ∧ za ≤ k ∧ k ≤ zb) ∧ ValidState s' := by
  subst hza
  subst hzb
  exact nextInt_int_bounds hs hab h

/-- **C1** — counterexample to the claim as stated: zone
`[0,200]×[0,200]`, constraint `[5,20]`, padding 10 (so the zone width
minus padding, 190, exceeds the max 20 and no fallback branch is
taken), PRNG state 1.  The pair comes out as objective `(10,33)`,
entry `(27,93)`: the x-offset 17 honours `[5,20]`, but the y
coordinates are drawn independently, so the straight-line (Euclidean)
distance satisfies `17² + 60² = 3889 > 20² = 400` — far outside the
configured range. -/
theorem C1_counterexample :
    ((200 : ℚ) - 10 > 20) ∧
    (0 : ℚ) + 200 - 10 - 5 > 0 + 10 ∧
    placePairedPoints ⟨0, 0, 200, 200, 0, 0⟩ ⟨5, 20⟩ 10 1 =
      .ok ((⟨10, 33⟩, ⟨27, 93⟩), 984943658) ∧
    ¬ (max ((10 : ℚ) + 5) (0 + 10) ≥ min ((10 : ℚ) + 20) (0 + 200 - 10)) ∧
    ((27 : ℚ) - 10) ^ 2 + ((93 : ℚ) - 33) ^ 2 > 20 ^ 2 := by
  refine ⟨by norm_num, by norm_num, by decide, by norm_num, by norm_num⟩

/-- **C1** (amended): for an integer-valued zone, padding and
constraint with `0 ≤ min < max`, whenever the containing zone is wide
enough that the first fallback is not taken
(`zoneWidth > 2·padding + min`), the **horizontal** offset
`entry.x − objective.x` of the returned pair lies within `[min, max]`
(the claim's Euclidean distance also includes the independently drawn
`y` coordinates and can exceed `max`, as the counterexample shows). -/
theorem C1_pairing_horizontal (zx zy zw zh zr zc pad dmin dmax : ℤ) (s : Int)
    (hs : ValidState s) (hmin : 0 ≤ dmin) (hlt : dmin < dmax)
    (hfit : 2 * pad + dmin < zw)
    (o e : Point) (s' : Int)
    (h : placePairedPoints ⟨(zx : ℚ), (zy : ℚ), (zw : ℚ), (zh : ℚ), zr, zc⟩
          ⟨(dmin : ℚ), (dmax : ℚ)⟩ (pad : ℚ) s = .ok ((o, e), s')) :
    (dmin : ℚ) ≤ e.x - o.x ∧ e.x - o.x ≤ (dmax : ℚ) := by
  have hminq : (0 : ℚ) ≤ (dmin : ℚ) := by exact_mod_cast hmin
  have hltq : (dmin : ℚ) < (dmax : ℚ) := by exact_mod_cast hlt
  have hfitq : 2 * (pad : ℚ) + (dmin : ℚ) < (zw : ℚ) := by exact_mod_cast hfit
  rw [placePairedPoints] at h
  rw [if_neg (by simp only []; push_neg; linarith)] at h
  rw [bind_ok] at h
  obtain ⟨ox, s1, hox, h⟩ := h
  obtain ⟨⟨k, rfl, hk1, hk2⟩, hs1⟩ := nextInt_cast_bounds
    (zx + pad) (zx + zw - pad - dmin)
    (by push_cast; ring) (by push_cast; ring) hs (by omega) hox
  rw [bind_ok] at h
  obtain ⟨oy, s2, hoy, h⟩ := h
  have hs2 := nextInt_state hs1 hoy
  have hk1q : (zx : ℚ) + (pad : ℚ) ≤ (k : ℚ) := by exact_mod_cast hk1
  have hk2q : (k : ℚ) ≤ (zx : ℚ) + (zw : ℚ) - (pad : ℚ) - (dmin : ℚ) := by
    have : ((k : ℚ)) ≤ ((zx + zw - pad - dmin : ℤ) : ℚ) := by exact_mod_cast hk2
    push_cast at this
    linarith
  by_cases hcol : max ((k : ℚ) + (dmin : ℚ)) ((zx : ℚ) + (pad : ℚ)) ≥
      min ((k : ℚ) + (dmax : ℚ)) ((zx : ℚ) + (zw : ℚ) - (pad : ℚ))
  · rw [if_pos hcol] at h
    rw [bind_ok] at h
    obtain ⟨ey, s3, hey, h⟩ := h
    rw [pure_ok] at h
    obtain ⟨hoe, rfl⟩ := h
    injection hoe with ho he
    subst ho
    subst he
    simp only []
    have hmax : max ((k : ℚ) + (dmin : ℚ)) ((zx : ℚ) + (pad : ℚ)) =
        (k : ℚ) + (dmin : ℚ) := max_eq_left (by linarith)
    rw [hmax] at hcol
    rcases min_cases ((k : ℚ) + (dmax : ℚ)) ((zx : ℚ) + (zw : ℚ) - (pad : ℚ)) with
      ⟨hmeq, hmle⟩ | ⟨hmeq, hmlt⟩ <;> rw [hmeq] at hcol <;> constructor <;> linarith
  · rw [if_neg hcol] at h
    rw [bind_ok] at h
    obtain ⟨ex, s3, hex, h⟩ := h
    rw [bind_ok] at h
    obtain ⟨ey, s4, hey, h⟩ := h
    rw [pure_ok] at h
    obtain ⟨hoe, rfl⟩ := h
    injection hoe with ho he
    subst ho
    subst he
    simp only []
    push_neg at hcol
    have habz : max (k + dmin) (zx + pad) ≤ min (k + dmax) (zx + zw - pad) := by
      have hq : ((max (k + dmin) (zx + pad) : ℤ) : ℚ) <
          ((min (k + dmax) (zx + zw - pad) : ℤ) : ℚ) := by
        push_cast
        exact hcol
      exact le_of_lt (by exact_mod_cast hq)
    obtain ⟨⟨m, rfl, hm1, hm2⟩, -⟩ := nextInt_cast_bounds
      (max (k + dmin) (zx + pad)) (min (k + dmax) (zx + zw - pad))
      (by push_cast; rfl) (by push_cast; rfl) hs2 habz hex
    have hm1' : k + dmin ≤ m := le_trans (le_max_left _ _) hm1
    have hm2' : m ≤ k + dmax := le_trans hm2 (min_le_left _ _)
    constructor
    · have : (dmin : ℚ) ≤ ((m - k : ℤ) : ℚ) := by exact_mod_cast (by omega : dmin ≤ m - k)
      push_cast at this
      linarith
    · have : ((m - k : ℤ) : ℚ) ≤ (dmax : ℚ) := by exact_mod_cast (by omega : m - k ≤ dmax)
      push_cast at this
      linarith

/-- Witness for C1 at the concrete run of the counterexample's zone
(the x-offset 17 indeed lies in `[5, 20]`). -/
theorem C1_witness :
    (ValidState 1 ∧ (0 : ℤ) ≤ 5 ∧ (5 : ℤ) < 20 ∧ (2 : ℤ) * 10 + 5 < 200) ∧
    ((5 : ℤ) : ℚ) ≤ (⟨27, 93⟩ : Point).x - (⟨10, 33⟩ : Point).x ∧
      (⟨27, 93⟩ : Point).x - (⟨10, 33⟩ : Point).x ≤ ((20 : ℤ) : ℚ) :=
  ⟨⟨⟨by decide, by decide⟩, by decide, by decide, by decide⟩,
   C1_pairing_horizontal 0 0 200 200 0 0 10 5 20 1 ⟨by decide, by decide⟩
     (by decide) (by decide) (by decide) ⟨10, 33⟩ ⟨27, 93⟩ 984943658 (by decide)⟩

/-- **C8** — counterexample to the claim as stated: zone
`[0,100]×[0,200]`, constraint `[30,30]`, padding 10, state 1000000.
No first fallback (the zone fits the minimum distance), the objective
is drawn at x = 52, and the clamped entry range collapses
(`max(82,10) ≥ min(82,90)`), taking the second fallback branch — yet
the objective sits at 52, not at `zone.x + padding = 10`. -/
theorem C8_counterexample :
    ((0 : ℚ) + 100 - 10 - 30 > 0 + 10) ∧
    (max ((52 : ℚ) + 30) (0 + 10) ≥ min ((52 : ℚ) + 30) (0 + 100 - 10)) ∧
    placePairedPoints ⟨0, 0, 100, 200, 0, 0⟩ ⟨30, 30⟩ 10 1000000 =
      .ok ((⟨52, 152⟩, ⟨90, 68⟩), 691908565) ∧
    ((52 : ℚ) ≠ 0 + 10) := by
  refine ⟨by norm_num, by norm_num, by decide, by norm_num⟩

/-- **C8** (amended): in the *first* fallback (zone too narrow for the
minimum distance) both points do lie on opposite horizontal edges of
the padding-inset zone; but in the *second* fallback (collapsed
clamped range) only the entry is pinned to `zone.x + zone.width −
padding`, while the objective keeps its previously drawn x position
(which the counterexample shows need not be `zone.x + padding`). -/
theorem C8_fallback_positions (zone : Zone) (dc : DistanceConstraint) (padding : ℚ)
    (s : Int) (o e : Point) (s' : Int)
    (h : placePairedPoints zone dc padding s = .ok ((o, e), s')) :
    (zone.x + zone.width - padding - dc.min ≤ zone.x + padding →
      o.x = zone.x + padding ∧ e.x = zone.x + zone.width - padding) ∧
    (zone.x + padding < zone.x + zone.width - padding - dc.min →
      max (o.x + dc.min) (zone.x + padding) ≥ min (o.x + dc.max)
        (zone.x + zone.width - padding) →
      e.x = zone.x + zone.width - padding) := by
  rw [placePairedPoints] at h
  by_cases hnarrow : zone.x + zone.width - padding - dc.min ≤ zone.x + padding
  · rw [if_pos hnarrow] at h
    rw [bind_ok] at h
    obtain ⟨oy, s1, hoy, h⟩ := h
    rw [bind_ok] at h
    obtain ⟨ey, s2, hey, h⟩ := h
    rw [pure_ok] at h
    obtain ⟨hoe, rfl⟩ := h
    injection hoe with ho he
    subst ho
    subst he
    exact ⟨fun _ => ⟨rfl, rfl⟩, fun hwide _ => absurd hnarrow (not_le.mpr hwide)⟩
  · rw [if_neg hnarrow] at h
    rw [bind_ok] at h
    obtain ⟨ox, s1, hox, h⟩ := h
    rw [bind_ok] at h
    obtain ⟨oy, s2, hoy, h⟩ := h
    refine ⟨fun hn => absurd hn hnarrow, fun _ hcol => ?_⟩
    by_cases hc : max (ox + dc.min) (zone.x + padding) ≥
        min (ox + dc.max) (zone.x + zone.width - padding)
    · rw [if_pos hc] at h
      rw [bind_ok] at h
      obtain ⟨ey, s3, hey, h⟩ := h
      rw [pure_ok] at h
      obtain ⟨hoe, rfl⟩ := h
      injection hoe with ho he
      subst ho
      subst he
      rfl
    · rw [if_neg hc] at h
      rw [bind_ok] at h
      obtain ⟨ex, s3, hex, h⟩ := h
      rw [bind_ok] at h
      obtain ⟨ey, s4, hey, h⟩ := h
      rw [pure_ok] at h
      obtain ⟨hoe, rfl⟩ := h
      injection hoe with ho he
      subst ho
      subst he
      exact absurd hcol hc

/-- Witness for C8 at the first-fallback case: zone `[0,50]×[0,100]`,
constraint `[40, 60]`, padding 10 (the zone is too narrow), state 42 —
both returned points sit on the opposite padded edges. -/
theorem C8_witness :
    (((0 : ℚ) + 50 - 10 - 40 ≤ 0 + 10) ∧
      placePairedPoints ⟨0, 0, 50, 100, 0, 0⟩ ⟨40, 60⟩ 10 42 =
        .ok ((⟨10, 10⟩, ⟨40, 52⟩), 1126542223) ∧ True) ∧
    (((0 : ℚ) + 50 - 10 - 40 ≤ 0 + 10 →
      (⟨10, 10⟩ : Point).x = 0 + 10 ∧ (⟨40, 52⟩ : Point).x = 0 + 50 - 10) ∧
     ((0 : ℚ) + 10 < 0 + 50 - 10 - 40 →
      max ((⟨10, 10⟩ : Point).x + 40) (0 + 10) ≥
        min ((⟨10, 10⟩ : Point).x + 60) (0 + 50 - 10) →
      (⟨40, 52⟩ : Point).x = 0 + 50 - 10)) :=
  ⟨⟨by norm_num, by decide, trivial⟩,
   C8_fallback_positions ⟨0, 0, 50, 100, 0, 0⟩ ⟨40, 60⟩ 10 42 ⟨10, 10⟩ ⟨40, 52⟩
     1126542223 (by decide)⟩

/-! ## `createGrid` facts (C5, C7) -/

/-- A well-formed triple of column widths (or row heights): three
segments of at least the 20-unit minimum that sum to the span. -/
def ColsOk (w : ℚ) (W : List ℚ) : Prop :=
  ∃ a b c : ℚ, W = [a, b, c] ∧ a + b + c = w ∧ 20 ≤ a ∧ 20 ≤ b ∧ 20 ≤ c

/-- The `[c0, c1-c0, w-c1]` spans cut out by a successful
`pickCuts(w, 2, 20)` are a well-formed triple. -/
theorem pickCuts_colsOk {w : ℚ} {s s' : Int} {cuts : List ℚ} (hs : ValidState s)
    (h : pickCuts w 2 20 s = .ok (cuts, s')) :
    ColsOk w [cuts.getD 0 0, cuts.getD 1 0 - cuts.getD 0 0, w - cuts.getD 1 0] ∧
    ValidState s' := by
  obtain ⟨hlen, hchain, hsv⟩ := pickCuts_props hs (by norm_num) h
  obtain ⟨c0, c1, rfl⟩ := List.length_eq_two.mp hlen
  simp only [List.cons_append, List.nil_append, List.chain'_cons, List.chain'_singleton,
    and_true] at hchain
  obtain ⟨h1, h2, h3⟩ := hchain
  refine ⟨⟨c0, c1 - c0, w - c1, ?_, by ring, by linarith, by linarith, by linarith⟩, hsv⟩
  simp [List.getD]

/-- Unfolding the three-iteration row loop of `createGrid`. -/
theorem foldlM3 {β} (f : β → Nat → GenM β) (b0 : β) :
    (List.range 3).foldlM f b0 = (do
      let b1 ← f b0 0
      let b2 ← f b1 1
      let b3 ← f b2 2
      pure b3) := by
  rfl

/-- One grid-row step: appends one `rowCells` row whose widths are a
well-formed triple and advances `y` by the row height. -/
theorem gridRowStep_ok {width : ℚ} {gm : GridMode} {sym : Bool} {vCuts rowHeights : List ℚ}
    {rows : List (List Zone)} {y : ℚ} {i : Nat} {s s' : Int}
    {acc' : List (List Zone) × ℚ}
    (hs : ValidState s)
    (hvcOk : ColsOk width [vCuts.getD 0 0, vCuts.getD 1 0 - vCuts.getD 0 0,
                           width - vCuts.getD 1 0])
    (hstep : gridRowStep width gm sym vCuts rowHeights rows y i s = .ok (acc', s')) :
    ∃ W, acc' = (rows ++ [rowCells y (rowHeights.getD i 0) i 0 0 W],
                 y + rowHeights.getD i 0) ∧
      ColsOk width W ∧ ValidState s' := by
  rw [gridRowStep] at hstep
  by_cases hri : gm = GridMode.ROW_INDEPENDENT ∧ sym = false
  · rw [if_pos hri] at hstep
    rw [bind_ok] at hstep
    obtain ⟨fv, s1, hfv, hstep⟩ := hstep
    simp only [] at hstep
    rw [pure_ok] at hstep
    obtain ⟨rfl, rfl⟩ := hstep
    obtain ⟨hok, hsv⟩ := pickCuts_colsOk hs hfv
    exact ⟨_, rfl, hok, hsv⟩
  · rw [if_neg hri] at hstep
    rw [bind_ok] at hstep
    obtain ⟨fv, s1, hfv, hstep⟩ := hstep
    rw [pure_ok] at hfv
    obtain ⟨rfl, rfl⟩ := hfv
    simp only [] at hstep
    rw [pure_ok] at hstep
    obtain ⟨rfl, rfl⟩ := hstep
    exact ⟨_, rfl, hvcOk, hs⟩

/-- The common tail of `createGrid` after the row heights are fixed:
draws the shared column cuts and folds the three row steps. -/
theorem createGrid_tail_ok {width : ℚ} {gm : GridMode} {sym : Bool} {A B C : ℚ}
    {s1 s' : Int} {grid : List (List Zone)}
    (hs1 : ValidState s1)
    (h : (do
      let vCuts ← pickCuts width 2 20
      let (grid, _) ← (List.range 3).foldlM
        (fun (acc : List (List Zone) × ℚ) i =>
          gridRowStep width gm sym vCuts [A, B, C] acc.1 acc.2 i) ([], 0)
      pure grid : GenM (List (List Zone))) s1 = .ok (grid, s')) :
    ∃ W0 W1 W2 : List ℚ,
      grid = [rowCells 0 A 0 0 0 W0, rowCells A B 1 0 0 W1,
              rowCells (A + B) C 2 0 0 W2] ∧
      ColsOk width W0 ∧ ColsOk width W1 ∧ ColsOk width W2 ∧ ValidState s' := by
  rw [bind_ok] at h
  obtain ⟨vCuts, s2, hvc, h⟩ := h
  rw [bind_ok] at h
  obtain ⟨gp, s3, hfold, h⟩ := h
  obtain ⟨rows, yf⟩ := gp
  simp only [] at h
  rw [pure_ok] at h
  obtain ⟨rfl, rfl⟩ := h
  obtain ⟨hvcOk, hs2⟩ := pickCuts_colsOk hs1 hvc
  rw [foldlM3] at hfold
  rw [bind_ok] at hfold
  obtain ⟨a1, t1, hst1, hfold⟩ := hfold
  rw [bind_ok] at hfold
  obtain ⟨a2, t2, hst2, hfold⟩ := hfold
  rw [bind_ok] at hfold
  obtain ⟨a3, t3, hst3, hfold⟩ := hfold
  rw [pure_ok] at hfold
  obtain ⟨ha3, rfl⟩ := hfold
  obtain ⟨W0, rfl, hW0, ht1⟩ := gridRowStep_ok hs2 hvcOk hst1
  obtain ⟨W1, rfl, hW1, ht2⟩ := gridRowStep_ok ht1 hvcOk hst2
  obtain ⟨W2, rfl, hW2, ht3⟩ := gridRowStep_ok ht2 hvcOk hst3
  injection ha3 with hg hy
  subst hg
  refine ⟨W0, W1, W2, ?_, hW0, hW1, hW2, ht3⟩
  simp only [List.getD_cons_zero, List.getD_cons_succ, List.nil_append, List.cons_append,
    List.append_nil, zero_add]

/-- Full characterization of a successful `createGrid` run: three rows
of three cells each, whose heights and per-row widths are well-formed
triples; under `symmetricalTeamLayout` the top and bottom row heights
coincide. -/
theorem createGrid_ok_spec {width height : ℚ} {gm : GridMode} {sym : Bool} {s s' : Int}
    {grid : List (List Zone)}
    (hs : ValidState s) (h : createGrid width height gm sym s = .ok (grid, s')) :
    ∃ (h0 h1 h2 : ℚ) (W0 W1 W2 : List ℚ),
      grid = [rowCells 0 h0 0 0 0 W0, rowCells h0 h1 1 0 0 W1,
              rowCells (h0 + h1) h2 2 0 0 W2] ∧
      h0 + h1 + h2 = height ∧ 20 ≤ h0 ∧ 20 ≤ h1 ∧ 20 ≤ h2 ∧
      (sym = true → h0 = h2) ∧
      ColsOk width W0 ∧ ColsOk width W1 ∧ ColsOk width W2 ∧ ValidState s' := by
  rw [createGrid] at h
  cases sym with
  | false =>
    rw [if_neg (by simp)] at h
    rw [bind_ok] at h
    obtain ⟨hCuts, s1a, hpc, h⟩ := h
    rw [bind_ok] at h
    obtain ⟨rowHeights, s1, hpure, h⟩ := h
    rw [pure_ok] at hpure
    obtain ⟨rfl, rfl⟩ := hpure
    obtain ⟨⟨a, b, c, habc, hsum, ha, hb, hc⟩, hsv⟩ := pickCuts_colsOk hs hpc
    rw [habc] at h
    obtain ⟨W0, W1, W2, hgrid, hW0, hW1, hW2, hval⟩ := createGrid_tail_ok hsv h
    exact ⟨a, b, c, W0, W1, W2, hgrid, hsum, ha, hb, hc, by simp, hW0, hW1, hW2, hval⟩
  | true =>
    rw [if_pos rfl] at h
    simp only [] at h
    by_cases hcond : (20 : ℚ) > ((⌊(height - 20) / 2⌋ : ℤ) : ℚ)
    · rw [if_pos hcond] at h
      rw [bind_ok] at h
      obtain ⟨x, sx, hx, _⟩ := h
      exact absurd hx (by intro hh; exact Except.noConfusion hh)
    · rw [if_neg hcond] at h
      rw [bind_ok] at h
      obtain ⟨t, st, hnext, h⟩ := h
      have hcast : nextInt (((20 : ℤ) : ℚ)) ((⌊(height - 20) / 2⌋ : ℤ) : ℚ) s =
          .ok (t, st) := by
        convert hnext using 3
      rw [bind_ok] at h
      obtain ⟨rowHeights, s1, hpure, h⟩ := h
      rw [pure_ok] at hpure
      obtain ⟨hrw, hst⟩ := hpure
      subst hrw
      subst hst
      have hab : (20 : ℤ) ≤ ⌊(height - 20) / 2⌋ := by
        push_neg at hcond
        exact_mod_cast hcond
      obtain ⟨⟨k, rfl, hk20, hkfl⟩, hsv⟩ := nextInt_int_bounds hs hab hcast
      have hkr : ((k : ℚ)) ≤ (height - 20) / 2 := Int.le_floor.mp hkfl
      have hk20' : (20 : ℚ) ≤ (k : ℚ) := by exact_mod_cast hk20
      have hl : [([(k : ℚ), height - (k : ℚ)].getD 0 0),
          ([(k : ℚ), height - (k : ℚ)].getD 1 0 - [(k : ℚ), height - (k : ℚ)].getD 0 0),
          (height - [(k : ℚ), height - (k : ℚ)].getD 1 0)] =
          [(k : ℚ), (height - (k : ℚ)) - (k : ℚ), height - (height - (k : ℚ))] := by
        simp [List.getD]
      rw [hl] at h
      obtain ⟨W0, W1, W2, hgrid, hW0, hW1, hW2, hval⟩ := createGrid_tail_ok hsv h
      refine ⟨(k : ℚ), (height - (k : ℚ)) - (k : ℚ), height - (height - (k : ℚ)),
        W0, W1, W2, hgrid, by ring, hk20', by linarith, by linarith, ?_, hW0, hW1, hW2, hval⟩
      intro _
      ring

/-- `nextInt` never throws. -/
theorem nextInt_total (a b : ℚ) (s : Int) : ∃ v s', nextInt a b s = .ok (v, s') := by
  unfold nextInt
  split
  · exact ⟨a, s, rfl⟩
  · exact ⟨_, _, by rw [bind_run next_ok]; rfl⟩

/-- `pickCuts` succeeds whenever the segments fit. -/
theorem pickCuts_total {totalSize : ℚ} {numCuts : Nat} {minCellSize : ℚ}
    (hav : ¬ totalSize - minCellSize * ((numCuts : ℚ) + 1) < 0) (s : Int) :
    ∃ cuts s', pickCuts totalSize numCuts minCellSize s = .ok (cuts, s') := by
  rw [pickCuts]
  rw [if_neg hav]
  obtain ⟨vs, s', hv⟩ := mapM_next_total (List.range numCuts) s
  exact ⟨_, s', by rw [bind_run hv]; rfl⟩

/-- A non-row-independent grid row step never throws and keeps the state. -/
theorem gridRowStep_total {width : ℚ} {gm : GridMode} {sym : Bool} {vCuts rowHeights : List ℚ}
    (hri : ¬(gm = GridMode.ROW_INDEPENDENT ∧ sym = false))
    (rows : List (List Zone)) (y : ℚ) (i : Nat) (s : Int) :
    gridRowStep width gm sym vCuts rowHeights rows y i s =
      .ok ((rows ++ [rowCells y (rowHeights.getD i 0) i 0 0
             [vCuts.getD 0 0, vCuts.getD 1 0 - vCuts.getD 0 0, width - vCuts.getD 1 0]],
            y + rowHeights.getD i 0), s) := by
  rw [gridRowStep, if_neg hri]
  rw [bind_run (pure_ok.mpr ⟨rfl, rfl⟩)]
  rfl

/-- Every zone of a built row carries the row's `y` and height. -/
theorem rowCells_mem {y rh : ℚ} {i : Nat} : ∀ {x : ℚ} {j : Nat} {ws : List ℚ} {z : Zone},
    z ∈ rowCells y rh i x j ws → z.height = rh ∧ z.y = y := by
  intro x j ws
  induction ws generalizing x j with
  | nil =>
    intro z hz
    simp [rowCells] at hz
  | cons w ws ih =>
    intro z hz
    rw [rowCells] at hz
    rcases List.mem_cons.mp hz with rfl | hz
    · exact ⟨rfl, rfl⟩
    · exact ih hz

/-- A zone's half-open rectangle `[x, x+width) × [y, y+height)`
contains a point. -/
def zoneContainsB (z : Zone) (px py : ℚ) : Bool :=
  decide (z.x ≤ px ∧ px < z.x + z.width ∧ z.y ≤ py ∧ py < z.y + z.height)

theorem rowCells3 (y rh : ℚ) (i : Nat) (a b c : ℚ) :
    rowCells y rh i 0 0 [a, b, c] =
      [⟨0, y, a, rh, (i : Int), 0⟩, ⟨0 + a, y, b, rh, (i : Int), 1⟩,
       ⟨0 + a + b, y, c, rh, (i : Int), 2⟩] := rfl

/-- Counting the zones of one grid row that contain a point: exactly
the indicator of the row's full rectangle. -/
theorem rowCount (y rh : ℚ) (i : Nat) (px py a b c : ℚ)
    (ha : 0 ≤ a) (hb : 0 ≤ b) (hc : 0 ≤ c) :
    ((rowCells y rh i 0 0 [a, b, c]).countP (fun z => zoneContainsB z px py)) =
      if (0 ≤ px ∧ px < a + b + c) ∧ (y ≤ py ∧ py < y + rh) then 1 else 0 := by
  rw [rowCells3]
  rw [List.countP_cons, List.countP_cons, List.countP_cons, List.countP_nil]
  simp only [zoneContainsB, decide_eq_true_eq]
  by_cases hy : y ≤ py ∧ py < y + rh
  · rcases lt_or_le px 0 with hr | hr0
    · rw [if_neg (by rintro ⟨h1, -⟩; linarith), if_neg (by rintro ⟨h1, -⟩; linarith),
          if_neg (by rintro ⟨h1, -⟩; linarith), if_neg (by rintro ⟨⟨h1, -⟩, -⟩; linarith)]
    · rcases lt_or_le px a with hr1 | hr1
      · rw [if_neg (by rintro ⟨h1, -⟩; linarith),
            if_neg (by rintro ⟨h1, -⟩; linarith),
            if_pos ⟨hr0, by linarith, hy.1, hy.2⟩,
            if_pos ⟨⟨hr0, by linarith⟩, hy⟩]
      · rcases lt_or_le px (a + b) with hr2 | hr2
        · rw [if_neg (by rintro ⟨h1, -⟩; linarith),
              if_pos ⟨by linarith, by linarith, hy.1, hy.2⟩,
              if_neg (by rintro ⟨-, h2, -⟩; linarith),
              if_pos ⟨⟨hr0, by linarith⟩, hy⟩]
        · rcases lt_or_le px (a + b + c) with hr3 | hr3
          · rw [if_pos ⟨by linarith, by linarith, hy.1, hy.2⟩,
                if_neg (by rintro ⟨-, h2, -⟩; linarith),
                if_neg (by rintro ⟨-, h2, -⟩; linarith),
                if_pos ⟨⟨hr0, by linarith⟩, hy⟩]
          · rw [if_neg (by rintro ⟨-, h2, -⟩; linarith),
                if_neg (by rintro ⟨-, h2, -⟩; linarith),
                if_neg (by rintro ⟨-, h2, -⟩; linarith),
                if_neg (by rintro ⟨⟨-, h2⟩, -⟩; linarith)]
  · rw [if_neg (by rintro ⟨-, -, h3, h4⟩; exact hy ⟨h3, h4⟩),
        if_neg (by rintro ⟨-, -, h3, h4⟩; exact hy ⟨h3, h4⟩),
        if_neg (by rintro ⟨-, -, h3, h4⟩; exact hy ⟨h3, h4⟩),
        if_neg (by rintro ⟨-, hy'⟩; exact hy hy')]

/-- **C5**: every grid returned by `createGrid` (either grid mode, with
or without `symmetricalTeamLayout`) has exactly 3 rows and 3 columns,
and its nine half-open zone rectangles tile `[0,width) × [0,height)`
exactly: every point of the territory lies in exactly one zone. -/
theorem C5_createGrid_shape (width height : ℚ) (gm : GridMode) (sym : Bool) (s s' : Int)
    (grid : List (List Zone)) (hs : ValidState s)
    (h : createGrid width height gm sym s = .ok (grid, s')) :
    grid.length = 3 ∧ (∀ row ∈ grid, row.length = 3) ∧
    (∀ px py : ℚ, 0 ≤ px → px < width → 0 ≤ py → py < height →
      (grid.flatten.countP (fun z => zoneContainsB z px py)) = 1) := by
  obtain ⟨h0, h1, h2, W0, W1, W2, hgrid, hsum, h20a, h20b, h20c, -, hc0, hc1, hc2, -⟩ :=
    createGrid_ok_spec hs h
  obtain ⟨a0, b0, c0, rfl, hs0, ha0, hb0, hcc0⟩ := hc0
  obtain ⟨a1, b1, c1, rfl, hs1, ha1, hb1, hcc1⟩ := hc1
  obtain ⟨a2, b2, c2, rfl, hs2, ha2, hb2, hcc2⟩ := hc2
  subst hgrid
  refine ⟨rfl, ?_, ?_⟩
  · intro row hrow
    rcases List.mem_cons.mp hrow with rfl | hrow
    · rw [rowCells3]; rfl
    rcases List.mem_cons.mp hrow with rfl | hrow
    · rw [rowCells3]; rfl
    rcases List.mem_cons.mp hrow with rfl | hrow
    · rw [rowCells3]; rfl
    · simp at hrow
  · intro px py hx0 hxw hy0 hyh
    have hfl : ([rowCells 0 h0 0 0 0 [a0, b0, c0], rowCells h0 h1 1 0 0 [a1, b1, c1],
        rowCells (h0 + h1) h2 2 0 0 [a2, b2, c2]] : List (List Zone)).flatten =
        rowCells 0 h0 0 0 0 [a0, b0, c0] ++ (rowCells h0 h1 1 0 0 [a1, b1, c1] ++
        rowCells (h0 + h1) h2 2 0 0 [a2, b2, c2]) := by
      simp
    rw [hfl, List.countP_append, List.countP_append]
    rw [rowCount 0 h0 0 px py a0 b0 c0 (by linarith) (by linarith) (by linarith)]
    rw [rowCount h0 h1 1 px py a1 b1 c1 (by linarith) (by linarith) (by linarith)]
    rw [rowCount (h0 + h1) h2 2 px py a2 b2 c2 (by linarith) (by linarith) (by linarith)]
    rw [hs0, hs1, hs2]
    have hx : 0 ≤ px ∧ px < width := ⟨hx0, hxw⟩
    rcases lt_or_le py h0 with hpy0 | hpy0
    · rw [if_pos ⟨hx, by linarith, by linarith⟩,
          if_neg (by rintro ⟨-, h3, -⟩; linarith),
          if_neg (by rintro ⟨-, h3, -⟩; linarith)]
    · rcases lt_or_le py (h0 + h1) with hpy1 | hpy1
      · rw [if_neg (by rintro ⟨-, -, h4⟩; linarith),
            if_pos ⟨hx, by linarith, by linarith⟩,
            if_neg (by rintro ⟨-, h3, -⟩; linarith)]
      · rw [if_neg (by rintro ⟨-, -, h4⟩; linarith),
            if_neg (by rintro ⟨-, -, h4⟩; linarith),
            if_pos ⟨hx, by linarith, by linarith⟩]

/-- Witness for C5 at a concrete run (standard mode, 100×100, seed
state 42). -/
theorem C5_witness :
    ValidState 42 ∧
    ∀ grid s', createGrid (100 : ℚ) (100 : ℚ) GridMode.STANDARD false 42 = .ok (grid, s') →
      grid.length = 3 ∧ (∀ row ∈ grid, row.length = 3) ∧
      (∀ px py : ℚ, 0 ≤ px → px < 100 → 0 ≤ py → py < 100 →
        (grid.flatten.countP (fun z => zoneContainsB z px py)) = 1) :=
  ⟨⟨by decide, by decide⟩, fun grid s' h =>
    C5_createGrid_shape 100 100 GridMode.STANDARD false 42 s' grid ⟨by decide, by decide⟩ h⟩

/-- **C7** — counterexample to the claim as stated: at height 50 (which
is ≥ 40, so the claim predicts success) the symmetrical grid fails:
three rows of minimum height 20 (top, mirrored bottom, and the middle)
need height ≥ 60. -/
theorem C7_counterexample :
    ¬ ((50 : ℚ) < 40) ∧
    (∃ e, createGrid (100 : ℚ) (50 : ℚ) GridMode.STANDARD true 42 = .error e) :=
  ⟨by norm_num, ⟨_, rfl⟩⟩

/-- **C7** (amended): with `symmetricalTeamLayout` requested,
`createGrid` fails exactly when `height < 60` (three rows — the drawn
top row, its forced mirror and the middle row — each need the minimum
cell height 20, so the threshold is 60, not 40) **or** `width < 60`
(the shared column cuts need three minimum-width cells); whenever it
succeeds, every top-row zone's height equals every bottom-row zone's
height. -/
theorem C7_createGrid_symmetrical (width height : ℚ) (gm : GridMode) (s : Int)
    (hs : ValidState s) :
    ((∃ e, createGrid width height gm true s = .error e) ↔ (height < 60 ∨ width < 60)) ∧
    (∀ grid s', createGrid width height gm true s = .ok (grid, s') →
      ∀ z0 ∈ grid.getD 0 [], ∀ z2 ∈ grid.getD 2 [], z0.height = z2.height) := by
  constructor
  · constructor
    · rintro ⟨e, he⟩
      by_contra hno
      push_neg at hno
      obtain ⟨hh, hw⟩ := hno
      -- height ≥ 60, width ≥ 60: build the successful run
      rw [createGrid] at he
      rw [if_pos rfl] at he
      simp only [] at he
      have hcond : ¬ ((20 : ℚ) > ((⌊(height - 20) / 2⌋ : ℤ) : ℚ)) := by
        push_neg
        have : (20 : ℤ) ≤ ⌊(height - 20) / 2⌋ := by
          rw [Int.le_floor]
          push_cast
          linarith
        exact_mod_cast this
      rw [if_neg hcond] at he
      obtain ⟨t, st, hnext⟩ := nextInt_total 20 ((⌊(height - 20) / 2⌋ : ℤ) : ℚ) s
      rw [bind_run hnext] at he
      rw [bind_run (pure_ok.mpr ⟨rfl, rfl⟩)] at he
      obtain ⟨vCuts, s2, hvc⟩ := @pickCuts_total width 2 20 (by push_neg; push_cast; linarith) st
      rw [bind_run hvc] at he
      rw [foldlM3] at he
      simp only [] at he
      have hri : ¬(gm = GridMode.ROW_INDEPENDENT ∧ true = false) := by simp
      rw [bind_assoc] at he
      rw [bind_run (gridRowStep_total hri _ _ _ _)] at he
      simp only [] at he
      rw [bind_assoc] at he
      rw [bind_run (gridRowStep_total hri _ _ _ _)] at he
      simp only [] at he
      rw [bind_assoc] at he
      rw [bind_run (gridRowStep_total hri _ _ _ _)] at he
      rw [bind_run (pure_ok.mpr ⟨rfl, rfl⟩)] at he
      exact pure_ne_err he
    · intro hcase
      rw [createGrid]
      rw [if_pos rfl]
      simp only []
      by_cases hcond : (20 : ℚ) > ((⌊(height - 20) / 2⌋ : ℤ) : ℚ)
      · rw [if_pos hcond]
        exact ⟨"Cannot create symmetrical grid. The map height is too small for the minimum cell height.",
               bind_err rfl⟩
      · -- then height ≥ 60, so width < 60 and the column cuts fail
        have hh : ¬ height < 60 := by
          intro hh
          apply hcond
          have : ⌊(height - 20) / 2⌋ < 20 := by
            rw [Int.floor_lt]
            push_cast
            linarith
          exact_mod_cast this
        have hw : width < 60 := by tauto
        rw [if_neg hcond]
        obtain ⟨t, st, hnext⟩ := nextInt_total 20 ((⌊(height - 20) / 2⌋ : ℤ) : ℚ) s
        rw [bind_run hnext]
        rw [bind_run (pure_ok.mpr ⟨rfl, rfl⟩)]
        obtain ⟨e, hpc⟩ := (pickCuts_err_iff width 2 20 st).mpr (by push_cast; linarith)
        exact ⟨e, bind_err hpc⟩
  · intro grid s' h z0 hz0 z2 hz2
    obtain ⟨h0, h1, h2, W0, W1, W2, hgrid, _, _, _, _, hsym, _, _, _, _⟩ :=
      createGrid_ok_spec hs h
    rw [hgrid] at hz0 hz2
    simp only [List.getD_cons_zero, List.getD_cons_succ] at hz0 hz2
    rw [(rowCells_mem hz0).1, (rowCells_mem hz2).1]
    exact hsym rfl

/-- Witness for C7 at a concrete feasible symmetric grid. -/
theorem C7_witness :
    ValidState 42 ∧
    (((∃ e, createGrid (100 : ℚ) (80 : ℚ) GridMode.STANDARD true 42 = .error e) ↔
        ((80 : ℚ) < 60 ∨ (100 : ℚ) < 60)) ∧
      (∀ grid s', createGrid (100 : ℚ) (80 : ℚ) GridMode.STANDARD true 42 = .ok (grid, s') →
        ∀ z0 ∈ grid.getD 0 [], ∀ z2 ∈ grid.getD 2 [], z0.height = z2.height)) :=
  ⟨⟨by decide, by decide⟩, C7_createGrid_symmetrical 100 80 GridMode.STANDARD 42 ⟨by decide, by decide⟩⟩

/-- Witness for C6 at `pickCuts(100, 2, 20)` from state 42. -/
theorem C6_witness :
    ValidState 42 ∧ (0 : ℚ) < 20 ∧
    (((∃ e, pickCuts (100 : ℚ) 2 20 42 = .error e) ↔
        (100 : ℚ) < 20 * (((2 : ℕ) : ℚ) + 1)) ∧
      (∀ cuts s', pickCuts (100 : ℚ) 2 20 42 = .ok (cuts, s') →
        cuts.length = 2 ∧ List.Chain' (· < ·) cuts ∧
        List.Chain' (fun x y => x + 20 ≤ y) ((0 :: cuts) ++ [(100 : ℚ)]))) :=
  ⟨⟨by decide, by decide⟩, by decide,
   C6_pickCuts_spec 100 2 20 42 ⟨by decide, by decide⟩ (by decide)⟩

/-! ## Narrow-territory guard (C4) -/

/-- A 4-team configuration with `teamWidth = 70 < 80`.  The width guard
lives only in `generate2TeamLayout`; the 4-team path has none. -/
def cfg4narrow : GeneratorConfig :=
  { teamWidth := 70, teamHeight := 70, teamGap := 24, laneWidth := 5,
    seed := 42, gridMode := .STANDARD, symmetryMode := .MIRROR,
    symmetricalTeamLayout := false,
    spawnEntryDistance := ⟨10, 25⟩, woolEntryDistance := ⟨10, 25⟩,
    frontlineEntryDistance := ⟨10, 25⟩,
    islandGeneration := ⟨false, 0, false, false, false⟩,
    pathingEnhancements := ⟨false, false⟩,
    numTeams := 4, woolsPerTeam := 2 }

/-- **C4 counterexample.**  A configuration with `teamWidth = 70 < 80`
for which `generateLayout` succeeds: in 4-team mode no width guard runs,
so the claim "every configuration with teamWidth below 80 fails" is
false as stated. -/
theorem C4_counterexample :
    cfg4narrow.teamWidth < 80 ∧ (generateLayout cfg4narrow).isOk = true := by
  constructor
  · decide
  · decide

/-- **C4 (corrected).**  On the 2-team path, any configuration with
`teamWidth < 80` makes `generate2TeamLayout` throw the narrow-territory
error from every PRNG state (so no randomness is consumed — the result
does not depend on the state), and `generateLayout` reports that same
error whenever `numTeams ≠ 4`. -/
theorem C4_narrow_width (config : GeneratorConfig) (hw : config.teamWidth < 80) :
    (∀ s : Int, generate2TeamLayout config s = .error narrowTerritoryMsg) ∧
    (config.numTeams ≠ 4 → generateLayout config = .error narrowTerritoryMsg) := by
  have h2 : ∀ s : Int, generate2TeamLayout config s = .error narrowTerritoryMsg := by
    intro s
    unfold generate2TeamLayout
    rw [if_pos hw]
    rfl
  refine ⟨h2, fun hn => ?_⟩
  unfold generateLayout
  rw [if_neg hn]
  exact h2 _

/-- A 2-team configuration with `teamWidth = 70 < 80`. -/
def cfg2narrow : GeneratorConfig :=
  { cfg4narrow with numTeams := 2 }

/-- Witness for C4 at the concrete narrow 2-team configuration. -/
theorem C4_witness :
    cfg2narrow.teamWidth < 80 ∧ cfg2narrow.numTeams ≠ 4 ∧
    generate2TeamLayout cfg2narrow 42 = .error narrowTerritoryMsg ∧
    generateLayout cfg2narrow = .error narrowTerritoryMsg :=
  ⟨by decide, by decide,
   (C4_narrow_width cfg2narrow (by decide)).1 42,
   (C4_narrow_width cfg2narrow (by decide)).2 (by decide)⟩

/-! ## `createEdges` facts (C9) -/

/-- The Boolean "this edge joins the spawn entry to some hub" predicate:
one endpoint id is the spawn entry's, the other is among the hub ids. -/
def joinsSEHub (seId : NodeId) (hubIds : List NodeId) (e : Edge) : Bool :=
  (decide (e.fromId = seId) && hubIds.any (fun i => decide (i = e.toId))) ||
  (decide (e.toId = seId) && hubIds.any (fun i => decide (i = e.fromId)))

theorem joinsSEHub_false (seId : NodeId) (hubIds : List NodeId) (e : Edge)
    (h1 : e.fromId = seId → ∀ i ∈ hubIds, i ≠ e.toId)
    (h2 : e.toId = seId → ∀ i ∈ hubIds, i ≠ e.fromId) :
    joinsSEHub seId hubIds e = false := by
  simp only [joinsSEHub, Bool.or_eq_false_iff, Bool.and_eq_false_iff,
    decide_eq_false_iff_not, List.any_eq_false, decide_eq_true_eq]
  constructor
  · by_cases hf : e.fromId = seId
    · exact Or.inr (fun i hi => h1 hf i hi)
    · exact Or.inl hf
  · by_cases ht : e.toId = seId
    · exact Or.inr (fun i hi => h2 ht i hi)
    · exact Or.inl ht

theorem insertByY_perm (n : Node) (l : List Node) : List.Perm (insertByY n l) (n :: l) := by
  induction l with
  | nil => exact List.Perm.refl _
  | cons h t ih =>
    unfold insertByY
    split
    · exact List.Perm.refl _
    · exact (List.Perm.cons h ih).trans (List.Perm.swap n h t)

theorem sortByY_perm (l : List Node) : List.Perm (sortByY l) l := by
  induction l with
  | nil => exact List.Perm.refl _
  | cons h t ih =>
    exact (insertByY_perm h (t.foldr insertByY [])).trans (List.Perm.cons h ih)

theorem foldl_choice_mem {α} (f : α → α → α) (hf : ∀ a b, f a b = a ∨ f a b = b) :
    ∀ (t : List α) (a : α), t.foldl f a ∈ a :: t := by
  intro t
  induction t with
  | nil => intro a; exact List.mem_cons_self _ _
  | cons b t ih =>
    intro a
    have hm := ih (f a b)
    show t.foldl f (f a b) ∈ a :: b :: t
    rcases List.mem_cons.1 hm with h2 | h2
    · rw [h2]
      rcases hf a b with h | h <;> rw [h]
      · exact List.mem_cons_self _ _
      · exact List.mem_cons_of_mem _ (List.mem_cons_self _ _)
    · exact List.mem_cons_of_mem _ (List.mem_cons_of_mem _ h2)

theorem reduceNearest_mem {pos : Point} {l : List Node} {x : Node}
    (h : reduceNearest pos l = some x) : x ∈ l := by
  cases l with
  | nil => exact Option.noConfusion h
  | cons a t =>
    injection h with h
    subst h
    exact foldl_choice_mem _ (fun a b => by
      show (if dist2 b.pos pos < dist2 a.pos pos then b else a) = a ∨ _ = b
      split
      · exact Or.inr rfl
      · exact Or.inl rfl) t a

theorem foldl_append_extra {α β} (p : α → Bool) (f : List α → β → List α) (l : List β)
    (h : ∀ es b, b ∈ l → ∃ ex, f es b = es ++ ex ∧ ∀ e ∈ ex, p e = false) :
    ∀ init, ∃ extra, l.foldl f init = init ++ extra ∧ ∀ e ∈ extra, p e = false := by
  induction l with
  | nil => intro init; exact ⟨[], by simp⟩
  | cons b t ih =>
    intro init
    obtain ⟨ex1, hfb, hex1⟩ := h init b (List.mem_cons_self _ _)
    obtain ⟨extra, hfold, hextra⟩ :=
      ih (fun es c hc => h es c (List.mem_cons_of_mem _ hc)) (f init b)
    refine ⟨ex1 ++ extra, ?_, ?_⟩
    · rw [List.foldl_cons, hfold, hfb, List.append_assoc]
    · intro e he
      rcases List.mem_append.1 he with h1 | h2
      · exact hex1 e h1
      · exact hextra e h2

theorem countP_enumFrom_map {α} (p : α → Bool) (f : Nat × α → α)
    (hf : ∀ q, p (f q) = p q.2) :
    ∀ (l : List α) (n : Nat), ((l.enumFrom n).map f).countP p = l.countP p := by
  intro l
  induction l with
  | nil => intro n; rfl
  | cons a t ih =>
    intro n
    show (((n, a) :: t.enumFrom (n + 1)).map f).countP p = _
    rw [List.map_cons, List.countP_cons, List.countP_cons, ih (n + 1), hf]

theorem mem_enumFrom_snd {α} {q : Nat × α} :
    ∀ {l : List α} {n : Nat}, q ∈ l.enumFrom n → q.2 ∈ l := by
  intro l
  induction l with
  | nil => intro n h; exact absurd h (List.not_mem_nil q)
  | cons a t ih =>
    intro n h
    rcases List.mem_cons.1 h with h1 | h2
    · rw [h1]; exact List.mem_cons_self _ _
    · exact List.mem_cons_of_mem _ (ih h2)

theorem nodup_id_inj {nodes : List Node} (h : (nodes.map Node.id).Nodup)
    {a b : Node} (ha : a ∈ nodes) (hb : b ∈ nodes) (hid : a.id = b.id) : a = b :=
  List.inj_on_of_nodup_map h ha hb hid

theorem countP_false_zero (p : Edge → Bool) (l : List Edge)
    (h : ∀ e ∈ l, p e = false) : l.countP p = 0 :=
  List.countP_eq_zero.2 (fun a ha hp => by rw [h a ha] at hp; exact Bool.noConfusion hp)

theorem stagesE_spec {β3 β4 β6 : Type} (p : Edge → Bool) (Q : Edge → Prop)
    (e1 e2 : Edge) (he1 : p e1 = false) (he2 : p e2 = true) (hQ : Q e2)
    (f3 : List Edge → β3 → List Edge) (l3 : List β3)
    (h3 : ∀ es b, b ∈ l3 → ∃ ex, f3 es b = es ++ ex ∧ ∀ e ∈ ex, p e = false)
    (f4 : List Edge → β4 → List Edge) (l4 : List β4)
    (h4 : ∀ es b, b ∈ l4 → ∃ ex, f4 es b = es ++ ex ∧ ∀ e ∈ ex, p e = false)
    (mids : List Edge) (hmids : ∀ e ∈ mids, p e = false)
    (f6 : List Edge → β6 → List Edge) (l6 : List β6)
    (h6 : ∀ es b, b ∈ l6 → ∃ ex, f6 es b = es ++ ex ∧ ∀ e ∈ ex, p e = false) :
    (List.foldl f6 (List.foldl f4 (List.foldl f3 [e1, e2] l3) l4 ++ mids) l6).countP p = 1 ∧
    ∀ e ∈ List.foldl f6 (List.foldl f4 (List.foldl f3 [e1, e2] l3) l4 ++ mids) l6,
      p e = true → Q e := by
  obtain ⟨x3, h3e, h3f⟩ := foldl_append_extra p f3 l3 h3 [e1, e2]
  obtain ⟨x4, h4e, h4f⟩ := foldl_append_extra p f4 l4 h4 (List.foldl f3 [e1, e2] l3)
  obtain ⟨x6, h6e, h6f⟩ :=
    foldl_append_extra p f6 l6 h6 (List.foldl f4 (List.foldl f3 [e1, e2] l3) l4 ++ mids)
  rw [h6e, h4e, h3e]
  constructor
  · rw [List.countP_append, List.countP_append, List.countP_append, List.countP_append,
      countP_false_zero p x3 h3f, countP_false_zero p x4 h4f,
      countP_false_zero p mids hmids, countP_false_zero p x6 h6f]
    simp [List.countP_cons, he1, he2]
  · intro e he hpe
    rcases List.mem_append.1 he with he1m | hx6
    · rcases List.mem_append.1 he1m with he2m | hmid'
      · rcases List.mem_append.1 he2m with he3m | hx4
        · rcases List.mem_append.1 he3m with h12 | hx3
          · rcases List.mem_cons.1 h12 with h1 | h2
            · rw [h1, he1] at hpe; exact Bool.noConfusion hpe
            · rcases List.mem_cons.1 h2 with h1 | h0
              · rw [h1]; exact hQ
              · exact absurd h0 (List.not_mem_nil e)
          · rw [h3f e hx3] at hpe; exact Bool.noConfusion hpe
        · rw [h4f e hx4] at hpe; exact Bool.noConfusion hpe
      · rw [hmids e hmid'] at hpe; exact Bool.noConfusion hpe
    · rw [h6f e hx6] at hpe; exact Bool.noConfusion hpe

theorem retag_full {α} (p : α → Bool) (Q : α → Prop) (g : Nat × α → α)
    (hg : ∀ q, p (g q) = p q.2) (hQg : ∀ q, Q q.2 → Q (g q)) (l : List α)
    (hl : l.countP p = 1 ∧ ∀ e ∈ l, p e = true → Q e) :
    (l.enum.map g).countP p = 1 ∧ ∀ e ∈ l.enum.map g, p e = true → Q e := by
  refine ⟨(countP_enumFrom_map p g hg l 0).trans hl.1, ?_⟩
  intro e he hpe
  obtain ⟨q, hq, rfl⟩ := List.mem_map.1 he
  exact hQg q (hl.2 q.2 (mem_enumFrom_snd hq) (by rw [← hg q]; exact hpe))

/-- **C9.**  In the edge set returned by `createEdges` for a node list
with distinct ids containing a spawn entry and at least one hub, exactly
one edge joins the spawn entry to a hub, namely the edge to the middle
hub (index `⌊n/2⌋` of the `n` hubs sorted ascending by `y`); no other
hub is directly connected to the spawn entry. -/
theorem C9_main_street (nodes : List Node) (s s' : Int) (edges : List Edge)
    (se : Node)
    (hnodup : (nodes.map Node.id).Nodup)
    (hse : findNode nodes .SPAWN_ENTRY = some se)
    (hhubs : findNodes nodes .HUB ≠ [])
    (hok : createEdges nodes s = .ok (edges, s')) :
    ∃ mid, (sortByY (findNodes nodes .HUB))[(sortByY (findNodes nodes .HUB)).length / 2]? =
        some mid ∧
      edges.countP (joinsSEHub se.id ((findNodes nodes .HUB).map Node.id)) = 1 ∧
      ∀ e ∈ edges, joinsSEHub se.id ((findNodes nodes .HUB).map Node.id) e = true →
        e.fromId = se.id ∧ e.toId = mid.id := by
  have hsortlen : (sortByY (findNodes nodes .HUB)).length = (findNodes nodes .HUB).length :=
    (sortByY_perm _).length_eq
  have hlenpos : 0 < (sortByY (findNodes nodes .HUB)).length := by
    rw [hsortlen]; exact List.length_pos.2 hhubs
  have hhalf : (sortByY (findNodes nodes .HUB)).length / 2 <
      (sortByY (findNodes nodes .HUB)).length :=
    Nat.div_lt_self hlenpos (by norm_num)
  obtain ⟨mid, hmid⟩ : ∃ mid,
      (sortByY (findNodes nodes .HUB))[(sortByY (findNodes nodes .HUB)).length / 2]? =
        some mid :=
    ⟨_, List.getElem?_eq_getElem hhalf⟩
  refine ⟨mid, hmid, ?_⟩
  set pJ := joinsSEHub se.id ((findNodes nodes .HUB).map Node.id) with hpJ
  -- node-classification facts
  have hse2 : nodes.find? (fun q => decide (q.type = StrategicPointType.SPAWN_ENTRY)) = some se := hse
  have hseMem : se ∈ nodes := List.mem_of_find?_eq_some hse2
  have hseTy0 := List.find?_some hse2
  have hseTy : se.type = StrategicPointType.SPAWN_ENTRY := of_decide_eq_true hseTy0
  have hfindTy : ∀ (t : StrategicPointType), ∀ b ∈ findNodes nodes t,
      b ∈ nodes ∧ b.type = t := by
    intro t b hb
    have h := List.mem_filter.1 hb
    have h2 : decide (b.type = t) = true := h.2
    exact ⟨h.1, of_decide_eq_true h2⟩
  have hhubNode : ∀ h ∈ sortByY (findNodes nodes .HUB),
      h ∈ nodes ∧ h.type = StrategicPointType.HUB := by
    intro h hh
    exact hfindTy _ h ((sortByY_perm _).mem_iff.1 hh)
  have hne : ∀ a ∈ nodes, a.type ≠ StrategicPointType.SPAWN_ENTRY → a.id ≠ se.id := by
    intro a ha hty h
    have heq := nodup_id_inj hnodup ha hseMem h
    rw [heq] at hty
    exact hty hseTy
  have hnotHub : ∀ a ∈ nodes, a.type ≠ StrategicPointType.HUB →
      ∀ i ∈ (findNodes nodes .HUB).map Node.id, i ≠ a.id := by
    intro a ha hty i hi h
    obtain ⟨hb, hbmem, hbid⟩ := List.mem_map.1 hi
    obtain ⟨hbn, hbty⟩ := hfindTy _ hb hbmem
    have heq := nodup_id_inj hnodup hbn ha (hbid.symm ▸ h)
    rw [heq] at hbty
    exact hty hbty
  have hjoinF : ∀ a b : Node, a ∈ nodes → b ∈ nodes →
      a.type ≠ StrategicPointType.SPAWN_ENTRY → b.type ≠ StrategicPointType.SPAWN_ENTRY →
      pJ (mkEdge a b) = false := by
    intro a b ha hb hta htb
    apply joinsSEHub_false
    · intro h
      exact absurd h (hne a ha hta)
    · intro h
      exact absurd h (hne b hb htb)
  have hmidMem : mid ∈ findNodes nodes .HUB :=
    (sortByY_perm _).mem_iff.1 (List.getElem?_mem hmid)
  have he2T : pJ (mkEdge se mid) = true := by
    have hany : ((findNodes nodes .HUB).map Node.id).any (fun i => decide (i = mid.id)) = true :=
      List.any_eq_true.2 ⟨mid.id, List.mem_map_of_mem Node.id hmidMem, by simp⟩
    rw [hpJ]
    simp [joinsSEHub, mkEdge, hany]
  -- the three fold-step bounds
  have hstep3t : ∀ (es : List Edge), ∀ b ∈ findNodes nodes StrategicPointType.WOOL,
      ∃ ex, es = es ++ ex ∧ ∀ e ∈ ex, pJ e = false :=
    fun es b _ => ⟨[], (List.append_nil es).symm, by simp⟩
  have hstep3m : ∀ (es : List Edge), ∀ b ∈ findNodes nodes StrategicPointType.WOOL,
      ∃ ex, (match reduceNearest b.pos (findNodes nodes StrategicPointType.WOOL_ENTRY) with
          | none => es
          | some entry =>
            match reduceNearest entry.pos (sortByY (findNodes nodes StrategicPointType.HUB)) with
            | none => es
            | some hub => es ++ [mkEdge hub entry, mkEdge entry b]) = es ++ ex ∧
        ∀ e ∈ ex, pJ e = false := by
    intro es b hb
    cases hr1 : reduceNearest b.pos (findNodes nodes StrategicPointType.WOOL_ENTRY) with
    | none => exact ⟨[], by simp, by simp⟩
    | some entry =>
      cases hr2 : reduceNearest entry.pos (sortByY (findNodes nodes StrategicPointType.HUB)) with
      | none => exact ⟨[], by simp [hr2], by simp⟩
      | some hub =>
        refine ⟨[mkEdge hub entry, mkEdge entry b], by simp [hr2], ?_⟩
        intro e he
        have hentry := hfindTy _ entry (reduceNearest_mem hr1)
        have hhubm := hhubNode hub (reduceNearest_mem hr2)
        have hwool := hfindTy _ b hb
        rcases List.mem_cons.1 he with rfl | h2
        · exact hjoinF hub entry hhubm.1 hentry.1
            (ne_of_eq_of_ne hhubm.2 (by decide)) (ne_of_eq_of_ne hentry.2 (by decide))
        · rcases List.mem_cons.1 h2 with rfl | h0
          · exact hjoinF entry b hentry.1 hwool.1
              (ne_of_eq_of_ne hentry.2 (by decide)) (ne_of_eq_of_ne hwool.2 (by decide))
          · exact absurd h0 (List.not_mem_nil e)
  have hstep4 : ∀ (es : List Edge), ∀ b ∈ findNodes nodes StrategicPointType.FRONT_LINE_ENTRY,
      ∃ ex, (match reduceNearest b.pos (sortByY (findNodes nodes StrategicPointType.HUB)) with
          | none => es
          | some closestHub => es ++ [mkEdge closestHub b]) = es ++ ex ∧
        ∀ e ∈ ex, pJ e = false := by
    intro es b hb
    cases hr : reduceNearest b.pos (sortByY (findNodes nodes StrategicPointType.HUB)) with
    | none => exact ⟨[], by simp, by simp⟩
    | some ch =>
      refine ⟨[mkEdge ch b], by simp, ?_⟩
      intro e he
      have hchm := hhubNode ch (reduceNearest_mem hr)
      have hfe := hfindTy _ b hb
      rcases List.mem_cons.1 he with rfl | h0
      · exact hjoinF ch b hchm.1 hfe.1
          (ne_of_eq_of_ne hchm.2 (by decide)) (ne_of_eq_of_ne hfe.2 (by decide))
      · exact absurd h0 (List.not_mem_nil e)
  have hstep6 : ∀ (es : List Edge), ∀ b ∈ findNodes nodes StrategicPointType.FRONT_LINE_ENTRY,
      ∃ ex, (match reduceNearest b.pos (findNodes nodes StrategicPointType.FRONT_LINE) with
          | none => es
          | some fl => es ++ [mkEdge b fl]) = es ++ ex ∧
        ∀ e ∈ ex, pJ e = false := by
    intro es b hb
    cases hr : reduceNearest b.pos (findNodes nodes StrategicPointType.FRONT_LINE) with
    | none => exact ⟨[], by simp, by simp⟩
    | some fl =>
      refine ⟨[mkEdge b fl], by simp, ?_⟩
      intro e he
      have hflm := hfindTy _ fl (reduceNearest_mem hr)
      have hfe := hfindTy _ b hb
      rcases List.mem_cons.1 he with rfl | h0
      · exact hjoinF b fl hfe.1 hflm.1
          (ne_of_eq_of_ne hfe.2 (by decide)) (ne_of_eq_of_ne hflm.2 (by decide))
      · exact absurd h0 (List.not_mem_nil e)
  have hmids : ∀ e ∈ List.map (fun q => mkEdge q.1 q.2)
      ((sortByY (findNodes nodes StrategicPointType.HUB)).zip
        (sortByY (findNodes nodes StrategicPointType.HUB)).tail), pJ e = false := by
    intro e he
    obtain ⟨q, hq, rfl⟩ := List.mem_map.1 he
    obtain ⟨a, b⟩ := q
    have hz := List.of_mem_zip hq
    have ham := hhubNode a hz.1
    have hbm := hhubNode b (List.mem_of_mem_tail hz.2)
    exact hjoinF a b ham.1 hbm.1
      (ne_of_eq_of_ne ham.2 (by decide)) (ne_of_eq_of_ne hbm.2 (by decide))
  -- destructure the generator run
  unfold createEdges at hok
  cases hsp : findNode nodes .SPAWN with
  | none =>
    rw [hsp] at hok
    exact Except.noConfusion hok
  | some spawn =>
    rw [hsp, hse] at hok
    simp only [] at hok
    have hsp2 : nodes.find? (fun q => decide (q.type = StrategicPointType.SPAWN)) = some spawn := hsp
    have hspMem : spawn ∈ nodes := List.mem_of_find?_eq_some hsp2
    have hspTy0 := List.find?_some hsp2
    have hspTy : spawn.type = StrategicPointType.SPAWN := of_decide_eq_true hspTy0
    have he1F : pJ (mkEdge spawn se) = false := by
      apply joinsSEHub_false
      · intro h
        exact absurd h (hne spawn hspMem (ne_of_eq_of_ne hspTy (by decide)))
      · intro _
        exact hnotHub spawn hspMem (ne_of_eq_of_ne hspTy (by decide))
    have hmidHubIf : (if (sortByY (findNodes nodes StrategicPointType.HUB)).length > 1 then
          (sortByY (findNodes nodes
            StrategicPointType.HUB))[(sortByY (findNodes nodes StrategicPointType.HUB)).length / 2]?
        else (sortByY (findNodes nodes StrategicPointType.HUB))[0]?) = some mid := by
      by_cases hl : (sortByY (findNodes nodes StrategicPointType.HUB)).length > 1
      · rw [if_pos hl]
        exact hmid
      · rw [if_neg hl]
        have h0 : (sortByY (findNodes nodes StrategicPointType.HUB)).length / 2 = 0 := by omega
        rw [h0] at hmid
        exact hmid
    rw [hmidHubIf, if_pos hlenpos] at hok
    simp only [] at hok
    by_cases hfl : (findNodes nodes StrategicPointType.FRONT_LINE).length > 0
    · rw [if_pos hfl] at hok
      split at hok
      · split at hok
        · rw [bind_ok] at hok
          obtain ⟨shuffled, s1, hsh, hok⟩ := hok
          rw [bind_ok] at hok
          obtain ⟨k, s2, hk, hok⟩ := hok
          rw [pure_ok] at hok
          obtain ⟨hE, hs2⟩ := hok
          subst hE
          exact retag_full _ _ _ (fun q => by split <;> rfl) (fun q hq => by split <;> exact hq) _
            (stagesE_spec _ _ _ _ he1F he2T ⟨rfl, rfl⟩ _ _ hstep3t _ _ hstep4 _ hmids _ _ hstep6)
        · rw [pure_ok] at hok
          obtain ⟨hE, hs0⟩ := hok
          subst hE
          exact stagesE_spec _ _ _ _ he1F he2T ⟨rfl, rfl⟩ _ _ hstep3t _ _ hstep4 _ hmids _ _ hstep6
      · split at hok
        · rw [bind_ok] at hok
          obtain ⟨shuffled, s1, hsh, hok⟩ := hok
          rw [bind_ok] at hok
          obtain ⟨k, s2, hk, hok⟩ := hok
          rw [pure_ok] at hok
          obtain ⟨hE, hs2⟩ := hok
          subst hE
          exact retag_full _ _ _ (fun q => by split <;> rfl) (fun q hq => by split <;> exact hq) _
            (stagesE_spec _ _ _ _ he1F he2T ⟨rfl, rfl⟩ _ _ hstep3m _ _ hstep4 _ hmids _ _ hstep6)
        · rw [pure_ok] at hok
          obtain ⟨hE, hs0⟩ := hok
          subst hE
          exact stagesE_spec _ _ _ _ he1F he2T ⟨rfl, rfl⟩ _ _ hstep3m _ _ hstep4 _ hmids _ _ hstep6
    · rw [if_neg hfl] at hok
      split at hok
      · split at hok
        · rw [bind_ok] at hok
          obtain ⟨shuffled, s1, hsh, hok⟩ := hok
          rw [bind_ok] at hok
          obtain ⟨k, s2, hk, hok⟩ := hok
          rw [pure_ok] at hok
          obtain ⟨hE, hs2⟩ := hok
          subst hE
          exact retag_full _ _ _ (fun q => by split <;> rfl) (fun q hq => by split <;> exact hq) _
            (stagesE_spec _ _ _ _ he1F he2T ⟨rfl, rfl⟩ _ _ hstep3t _ _ hstep4 _ hmids
              (fun es (x : Unit) => es) [] (fun es b hb => absurd hb (List.not_mem_nil b)))
        · rw [pure_ok] at hok
          obtain ⟨hE, hs0⟩ := hok
          subst hE
          exact stagesE_spec _ _ _ _ he1F he2T ⟨rfl, rfl⟩ _ _ hstep3t _ _ hstep4 _ hmids
            (fun es (x : Unit) => es) [] (fun es b hb => absurd hb (List.not_mem_nil b))
      · split at hok
        · rw [bind_ok] at hok
          obtain ⟨shuffled, s1, hsh, hok⟩ := hok
          rw [bind_ok] at hok
          obtain ⟨k, s2, hk, hok⟩ := hok
          rw [pure_ok] at hok
          obtain ⟨hE, hs2⟩ := hok
          subst hE
          exact retag_full _ _ _ (fun q => by split <;> rfl) (fun q hq => by split <;> exact hq) _
            (stagesE_spec _ _ _ _ he1F he2T ⟨rfl, rfl⟩ _ _ hstep3m _ _ hstep4 _ hmids
              (fun es (x : Unit) => es) [] (fun es b hb => absurd hb (List.not_mem_nil b)))
        · rw [pure_ok] at hok
          obtain ⟨hE, hs0⟩ := hok
          subst hE
          exact stagesE_spec _ _ _ _ he1F he2T ⟨rfl, rfl⟩ _ _ hstep3m _ _ hstep4 _ hmids
            (fun es (x : Unit) => es) [] (fun es b hb => absurd hb (List.not_mem_nil b))

/-- A concrete node list: one spawn, one spawn entry, three hubs at
`y = 20, 50, 80`. -/
def c9nodes : List Node :=
  [ { id := ⟨.BLUE, "SPAWN", 1⟩, type := .SPAWN, pos := ⟨5, 50⟩, team := .BLUE },
    { id := ⟨.BLUE, "S_EXIT", 1⟩, type := .SPAWN_ENTRY, pos := ⟨15, 50⟩, team := .BLUE },
    { id := ⟨.BLUE, "HUB", 1⟩, type := .HUB, pos := ⟨40, 20⟩, team := .BLUE },
    { id := ⟨.BLUE, "HUB", 2⟩, type := .HUB, pos := ⟨40, 50⟩, team := .BLUE },
    { id := ⟨.BLUE, "HUB", 3⟩, type := .HUB, pos := ⟨40, 80⟩, team := .BLUE } ]

/-- The edges `createEdges` produces for `c9nodes` (state 42 untouched:
no gap candidates, so no randomness is drawn). -/
def c9edges : List Edge :=
  [ { fromId := ⟨.BLUE, "SPAWN", 1⟩, toId := ⟨.BLUE, "S_EXIT", 1⟩, nodes := [⟨5, 50⟩, ⟨15, 50⟩] },
    { fromId := ⟨.BLUE, "S_EXIT", 1⟩, toId := ⟨.BLUE, "HUB", 2⟩, nodes := [⟨15, 50⟩, ⟨40, 50⟩] },
    { fromId := ⟨.BLUE, "HUB", 1⟩, toId := ⟨.BLUE, "HUB", 2⟩, nodes := [⟨40, 20⟩, ⟨40, 50⟩] },
    { fromId := ⟨.BLUE, "HUB", 2⟩, toId := ⟨.BLUE, "HUB", 3⟩, nodes := [⟨40, 50⟩, ⟨40, 80⟩] } ]

/-- Witness for C9: on `c9nodes`, the unique spawn-entry-to-hub edge
goes to the middle hub (`HUB-2`, index `3 / 2 = 1` of the `y`-sorted
hubs). -/
theorem C9_witness :
    ∃ mid, (sortByY (findNodes c9nodes .HUB))[(sortByY (findNodes c9nodes .HUB)).length / 2]? =
        some mid ∧
      c9edges.countP
        (joinsSEHub ⟨.BLUE, "S_EXIT", 1⟩ ((findNodes c9nodes .HUB).map Node.id)) = 1 ∧
      ∀ e ∈ c9edges,
        joinsSEHub ⟨.BLUE, "S_EXIT", 1⟩ ((findNodes c9nodes .HUB).map Node.id) e = true →
          e.fromId = ⟨.BLUE, "S_EXIT", 1⟩ ∧ e.toId = mid.id :=
  C9_main_street c9nodes 42 42 c9edges
    ⟨⟨.BLUE, "S_EXIT", 1⟩, .SPAWN_ENTRY, ⟨15, 50⟩, .BLUE⟩
    (by decide) (by decide) (by decide) (by decide)

/-! ## `applySymmetry` facts (C3) -/

theorem applySymmetry_mirror (nodes : List Node) (edges : List Edge) (team : Team)
    (tw th : ℚ) :
    ∀ n ∈ nodes, ∃ m ∈ (applySymmetry nodes edges team .MIRROR tw th).1,
      m.type = n.type ∧ m.pos.x = tw - n.pos.x ∧ m.pos.y = n.pos.y := by
  intro n hn
  refine ⟨_, List.mem_map_of_mem _ hn, rfl, ?_, ?_⟩ <;> simp [applySymmetry]

/-- **C3.**  On any successful 2-team run with `symmetryMode = MIRROR`,
the orange side is `applySymmetry` of the final blue side — a pure
function of the blue nodes and edges, taking no PRNG state, so no
further randomness is consumed — and for every blue node at `(x, y)`
the orange side holds a node of the same type at
`(totalWidth − x, y)` with `totalWidth = 2·teamWidth + teamGap`. -/
theorem C3_mirror_symmetry (config : GeneratorConfig) (s s' : Int) (layout : MapLayout)
    (hmode : config.symmetryMode = .MIRROR)
    (hok : generate2TeamLayout config s = .ok (layout, s')) :
    ∃ blueTL orangeTL,
      layout.teams .BLUE = some blueTL ∧ layout.teams .ORANGE = some orangeTL ∧
      orangeTL.nodes = (applySymmetry blueTL.nodes blueTL.edges .ORANGE config.symmetryMode
        (config.teamWidth * 2 + config.teamGap) config.teamHeight).1 ∧
      ∀ n ∈ blueTL.nodes, ∃ m ∈ orangeTL.nodes,
        m.type = n.type ∧
        m.pos.x = (config.teamWidth * 2 + config.teamGap) - n.pos.x ∧
        m.pos.y = n.pos.y := by
  unfold generate2TeamLayout at hok
  by_cases hw : config.teamWidth < 80
  · rw [if_pos hw] at hok
    exact Except.noConfusion hok
  · rw [if_neg hw] at hok
    simp only [] at hok
    rw [bind_ok] at hok
    obtain ⟨blueGrid, s1, hg, hok⟩ := hok
    rw [bind_ok] at hok
    obtain ⟨pn, s2, hpn, hok⟩ := hok
    obtain ⟨blueNodes, counters1⟩ := pn
    simp only [] at hok
    rw [bind_ok] at hok
    obtain ⟨blueEdges, s3, hbe, hok⟩ := hok
    rw [bind_ok] at hok
    obtain ⟨pe, s4, hpe, hok⟩ := hok
    obtain ⟨enhNodes, enhEdges, counters2⟩ := pe
    simp only [] at hok
    rw [bind_ok] at hok
    obtain ⟨pi, s5, hpi, hok⟩ := hok
    obtain ⟨islandNodes, islandEdges, counters3⟩ := pi
    simp only [] at hok
    rw [pure_ok] at hok
    obtain ⟨hlay, hs⟩ := hok
    subst hlay
    refine ⟨_, _, rfl, rfl, rfl, ?_⟩
    rw [hmode]
    exact applySymmetry_mirror (enhNodes ++ islandNodes) (enhEdges ++ islandEdges) .ORANGE
      (config.teamWidth * 2 + config.teamGap) config.teamHeight

/-- A plain 2-team Mirror configuration (no islands, no enhancements). -/
def cfg3w : GeneratorConfig :=
  { teamWidth := 100, teamHeight := 160, teamGap := 24, laneWidth := 5,
    seed := 42, gridMode := .STANDARD, symmetryMode := .MIRROR,
    symmetricalTeamLayout := false,
    spawnEntryDistance := ⟨10, 25⟩, woolEntryDistance := ⟨10, 25⟩,
    frontlineEntryDistance := ⟨10, 25⟩,
    islandGeneration := ⟨false, 0, false, false, false⟩,
    pathingEnhancements := ⟨false, false⟩,
    numTeams := 2, woolsPerTeam := 2 }

/-- Witness for C3 at the concrete configuration `cfg3w` from state 42
(the run succeeds, and the mirror property holds for its layout). -/
theorem C3_witness :
    cfg3w.symmetryMode = SymmetryMode.MIRROR ∧
    ∃ layout s', generate2TeamLayout cfg3w 42 = .ok (layout, s') ∧
      ∃ blueTL orangeTL,
        layout.teams .BLUE = some blueTL ∧ layout.teams .ORANGE = some orangeTL ∧
        orangeTL.nodes = (applySymmetry blueTL.nodes blueTL.edges .ORANGE cfg3w.symmetryMode
          (cfg3w.teamWidth * 2 + cfg3w.teamGap) cfg3w.teamHeight).1 ∧
        ∀ n ∈ blueTL.nodes, ∃ m ∈ orangeTL.nodes,
          m.type = n.type ∧
          m.pos.x = (cfg3w.teamWidth * 2 + cfg3w.teamGap) - n.pos.x ∧
          m.pos.y = n.pos.y := by
  refine ⟨rfl, ?_⟩
  cases h : generate2TeamLayout cfg3w 42 with
  | error e =>
    have hok : (generate2TeamLayout cfg3w 42).isOk = true := by decide
    rw [h] at hok
    exact Bool.noConfusion hok
  | ok p =>
    obtain ⟨lay, st⟩ := p
    exact ⟨lay, st, rfl, C3_mirror_symmetry cfg3w 42 st lay rfl h⟩

/-! ## Id-uniqueness infrastructure (C2)

The generation invariant: all ids so far are pairwise distinct, carry
the generating team, and their per-type indices are bounded by the
counter table, so the next `generateNodeId` is always fresh. -/

def NodesOk (t : Team) (c : Counters) (ns : List Node) : Prop :=
  (ns.map Node.id).Nodup ∧ ∀ n ∈ ns, n.id.team = t ∧
    ∃ ty, n.id.abbr = NODE_TYPE_ABBREVIATIONS ty ∧ 1 ≤ n.id.idx ∧ n.id.idx ≤ c (t, ty)

theorem abbr_inj : ∀ t1 t2 : StrategicPointType,
    NODE_TYPE_ABBREVIATIONS t1 = NODE_TYPE_ABBREVIATIONS t2 → t1 = t2 := by
  intro t1 t2 h
  cases t1 <;> cases t2 <;> first | rfl | exact absurd h (by decide)

theorem NodesOk_nil (t : Team) (c : Counters) : NodesOk t c [] :=
  ⟨List.nodup_nil, by simp⟩

theorem NodesOk_congr {t : Team} {c : Counters} {l l' : List Node}
    (h : NodesOk t c l) (he : l = l') : NodesOk t c l' := he ▸ h

theorem NodesOk_snoc {t : Team} {c : Counters} {ns : List Node} (h : NodesOk t c ns)
    (ty nty : StrategicPointType) (pos : Point) (tm : Team) :
    NodesOk t (fun k => if k = (t, ty) then c (t, ty) + 1 else c k)
      (ns ++ [⟨⟨t, NODE_TYPE_ABBREVIATIONS ty, c (t, ty) + 1⟩, nty, pos, tm⟩]) := by
  obtain ⟨hnd, hbound⟩ := h
  constructor
  · rw [List.map_append]
    refine List.nodup_append.2 ⟨hnd, List.nodup_singleton _, ?_⟩
    intro i hi1 hi2
    rw [List.map_singleton, List.mem_singleton] at hi2
    obtain ⟨n, hn, hidn⟩ := List.mem_map.1 hi1
    obtain ⟨_hteam, ty', habbr, _h1, hle⟩ := hbound n hn
    rw [hi2] at hidn
    have habbr2 : NODE_TYPE_ABBREVIATIONS ty' = NODE_TYPE_ABBREVIATIONS ty := by
      rw [← habbr, hidn]
    have hty := abbr_inj _ _ habbr2
    subst hty
    have hidx : n.id.idx = c (t, ty') + 1 := by rw [hidn]
    rw [hidx] at hle
    exact Nat.not_succ_le_self _ hle
  · intro n hn
    rcases List.mem_append.1 hn with h1 | h2
    · obtain ⟨hteam, ty', habbr, h1', hle⟩ := hbound n h1
      refine ⟨hteam, ty', habbr, h1', ?_⟩
      show n.id.idx ≤ if ((t, ty') : Team × StrategicPointType) = (t, ty) then
        c (t, ty) + 1 else c (t, ty')
      split
      · next he =>
        have hty : ty' = ty := (Prod.ext_iff.1 he).2
        subst hty
        exact Nat.le_succ_of_le hle
      · exact hle
    · rw [List.mem_singleton] at h2
      subst h2
      refine ⟨rfl, ty, rfl, Nat.succ_le_succ (Nat.zero_le _), ?_⟩
      show c (t, ty) + 1 ≤ if ((t, ty) : Team × StrategicPointType) = (t, ty) then
        c (t, ty) + 1 else c (t, ty)
      rw [if_pos rfl]

theorem NodesOk_genId {t : Team} {c : Counters} {ns : List Node} (h : NodesOk t c ns)
    (ty : StrategicPointType) {i : NodeId} {c2 : Counters}
    (hg : generateNodeId c t ty = (i, c2)) (nty : StrategicPointType) (pos : Point)
    (tm : Team) : NodesOk t c2 (ns ++ [⟨i, nty, pos, tm⟩]) := by
  unfold generateNodeId at hg
  rw [Prod.ext_iff] at hg
  obtain ⟨hi, hc⟩ := hg
  simp only [] at hi hc
  subst hi
  subst hc
  exact NodesOk_snoc h ty nty pos tm

theorem NodesOk_genId3 {t : Team} {c : Counters} {ns : List Node} (h : NodesOk t c ns)
    (ty1 ty2 ty3 nty1 nty2 nty3 : StrategicPointType)
    {i1 i2 i3 : NodeId} {c1 c2 c3 : Counters}
    (hg1 : generateNodeId c t ty1 = (i1, c1)) (hg2 : generateNodeId c1 t ty2 = (i2, c2))
    (hg3 : generateNodeId c2 t ty3 = (i3, c3)) (pos1 pos2 pos3 : Point) (tm : Team) :
    NodesOk t c3
      (ns ++ [⟨i1, nty1, pos1, tm⟩, ⟨i2, nty2, pos2, tm⟩, ⟨i3, nty3, pos3, tm⟩]) :=
  NodesOk_congr
    (NodesOk_genId (NodesOk_genId (NodesOk_genId h ty1 hg1 nty1 pos1 tm) ty2 hg2 nty2 pos2 tm)
      ty3 hg3 nty3 pos3 tm) (by simp)

theorem foldlM_inv {σ β : Type} (I : σ → Prop) (l : List β) (step : σ → β → GenM σ)
    (hstep : ∀ a b s r s', b ∈ l → I a → step a b s = .ok (r, s') → I r) :
    ∀ (init : σ) (s : Int) (r : σ) (s' : Int), I init →
      l.foldlM step init s = .ok (r, s') → I r := by
  induction l with
  | nil =>
    intro init s r s' hI h
    rw [List.foldlM_nil, pure_ok] at h
    rw [h.1]
    exact hI
  | cons b tl ih =>
    intro init s r s' hI h
    rw [List.foldlM_cons, bind_ok] at h
    obtain ⟨a1, s1, hstep1, h⟩ := h
    exact ih (fun a b2 s2 r2 s2' hb => hstep a b2 s2 r2 s2' (List.mem_cons_of_mem _ hb))
      a1 s1 r s' (hstep init b s a1 s1 (List.mem_cons_self _ _) hI hstep1) h

theorem listSwap_subset {α} (l : List α) (i j : Nat) : ∀ x ∈ listSwap l i j, x ∈ l := by
  intro x hx
  unfold listSwap at hx
  cases hi : l[i]? with
  | none => rw [hi] at hx; exact hx
  | some a =>
    cases hj : l[j]? with
    | none => rw [hi, hj] at hx; exact hx
    | some b =>
      rw [hi, hj] at hx
      rcases List.mem_or_eq_of_mem_set hx with hx2 | rfl
      · rcases List.mem_or_eq_of_mem_set hx2 with hx3 | rfl
        · exact hx3
        · exact List.getElem?_mem hj
      · exact List.getElem?_mem hi

theorem shuffleGo_subset {α} (n : Nat) : ∀ (l : List α) (s : Int) (r : List α) (s' : Int),
    shuffleGo l n s = .ok (r, s') → ∀ x ∈ r, x ∈ l := by
  induction n with
  | zero =>
    intro l s r s' h x hx
    rw [shuffleGo, pure_ok] at h
    rw [h.1] at hx
    exact hx
  | succ n ih =>
    intro l s r s' h x hx
    rw [shuffleGo, bind_ok] at h
    obtain ⟨u, s1, hu, h⟩ := h
    exact listSwap_subset l n _ x (ih _ s1 r s' h x hx)

theorem shuffle_subset {α} {l : List α} {s : Int} {r : List α} {s' : Int}
    (h : shuffle l s = .ok (r, s')) : ∀ x ∈ r, x ∈ l :=
  shuffleGo_subset l.length l s r s' h

/-- The per-node action of `rotateLayout` (the body of its fold, which
never deduplicates when the input ids are distinct). -/
def rotNodeF (cp : Point) (ang : ℚ) (nt : Team) (p : Node) : Node :=
  if p.type = StrategicPointType.CENTER_HUB then p
  else { p with id := { p.id with team := nt }, team := nt,
                pos := rotatePoint p.pos ang cp }

theorem rotFold_eq (cp : Point) (ang : ℚ) (nt : Team) :
    ∀ (l : List Node) (ns : List Node) (nm : List (NodeId × NodeId)),
      (∀ i ∈ l.map Node.id, ∀ q ∈ nm, q.1 ≠ i) → (l.map Node.id).Nodup →
      (l.foldl
        (fun (acc : List Node × List (NodeId × NodeId)) p =>
          if p.type = StrategicPointType.CENTER_HUB then
            if (acc.2.find? (fun q => q.1 == p.id)).isSome then acc
            else (acc.1 ++ [p], acc.2 ++ [(p.id, p.id)])
          else
            (acc.1 ++
              [{ p with
                  id := { p.id with team := nt }, team := nt,
                  pos := rotatePoint p.pos ang cp }],
             acc.2 ++ [(p.id, { p.id with team := nt })]))
        (ns, nm)).1 = ns ++ l.map (rotNodeF cp ang nt) := by
  intro l
  induction l with
  | nil => intro ns nm hdis hnd; simp
  | cons p tl ih =>
    intro ns nm hdis hnd
    rw [List.foldl_cons]
    rw [List.map_cons, List.nodup_cons] at hnd
    by_cases hty : p.type = StrategicPointType.CENTER_HUB
    · have hfind : nm.find? (fun q => q.1 == p.id) = none := by
        rw [List.find?_eq_none]
        intro q hq h
        exact hdis p.id (by simp) q hq (by rwa [beq_iff_eq] at h)
      simp only [hty, hfind, Option.isSome_none, Bool.false_eq_true, if_false, if_true]
      rw [ih (ns ++ [p]) (nm ++ [(p.id, p.id)]) ?_ hnd.2]
      · simp [rotNodeF, hty, List.append_assoc]
      · intro i hi q hq
        rcases List.mem_append.1 hq with hq1 | hq2
        · exact hdis i (List.mem_cons_of_mem _ hi) q hq1
        · rw [List.mem_singleton] at hq2
          subst hq2
          intro hcon
          apply hnd.1
          show p.id ∈ List.map Node.id tl
          rw [show p.id = i from hcon]
          exact hi
    · simp only [hty, if_false]
      rw [ih (ns ++ [_]) (nm ++ [(p.id, _)]) ?_ hnd.2]
      · simp [rotNodeF, hty, List.append_assoc]
      · intro i hi q hq
        rcases List.mem_append.1 hq with hq1 | hq2
        · exact hdis i (List.mem_cons_of_mem _ hi) q hq1
        · rw [List.mem_singleton] at hq2
          subst hq2
          intro hcon
          apply hnd.1
          show p.id ∈ List.map Node.id tl
          rw [show p.id = i from hcon]
          exact hi

theorem rotateLayout_nodes (cp : Point) (tl : TeamLayout) (ang : ℚ) (nt : Team)
    (hnd : (tl.nodes.map Node.id).Nodup) :
    (rotateLayout cp tl ang nt).nodes = tl.nodes.map (rotNodeF cp ang nt) :=
  rotFold_eq cp ang nt tl.nodes [] []
    (fun _ _ q hq => absurd hq (List.not_mem_nil q)) hnd
theorem nodeId_ext {a b : NodeId} (h1 : a.team = b.team) (h2 : a.abbr = b.abbr)
    (h3 : a.idx = b.idx) : a = b := by
  cases a
  cases b
  simp only [] at h1 h2 h3
  rw [h1, h2, h3]

theorem base_vs_map {A : List Node}
    (hteam : ∀ n ∈ A, n.id.team = Team.BLUE)
    {f : Node → Node} {nt : Team} (hnt : nt ≠ Team.BLUE)
    (hf : ∀ p, (f p).id = { p.id with team := nt })
    {x y : Node} (hx : x ∈ A) (hy : y ∈ A.map f) (hid : x.id = y.id) : x = y := by
  obtain ⟨p, hp, rfl⟩ := List.mem_map.1 hy
  have h1 := hteam x hx
  have h2 : (f p).id.team = nt := by rw [hf p]
  rw [hid] at h1
  rw [h2] at h1
  exact absurd h1 hnt

theorem map_vs_map {A : List Node} (hnd : (A.map Node.id).Nodup)
    (hteam : ∀ n ∈ A, n.id.team = Team.BLUE)
    {f : Node → Node} {nt : Team}
    (hf : ∀ p, (f p).id = { p.id with team := nt })
    {x y : Node} (hx : x ∈ A.map f) (hy : y ∈ A.map f) (hid : x.id = y.id) : x = y := by
  obtain ⟨p, hp, rfl⟩ := List.mem_map.1 hx
  obtain ⟨q, hq, rfl⟩ := List.mem_map.1 hy
  rw [hf p, hf q, NodeId.mk.injEq] at hid
  have hpq : p.id = q.id :=
    nodeId_ext ((hteam p hp).trans (hteam q hq).symm) hid.2.1 hid.2.2
  rw [nodup_id_inj hnd hp hq hpq]

theorem rotNodeF_id_center {cp : Point} {ang : ℚ} {nt : Team} {p : Node}
    (h : p.type = StrategicPointType.CENTER_HUB) : rotNodeF cp ang nt p = p := by
  unfold rotNodeF
  rw [if_pos h]

theorem rotNodeF_id_other {cp : Point} {ang : ℚ} {nt : Team} {p : Node}
    (h : ¬ p.type = StrategicPointType.CENTER_HUB) :
    (rotNodeF cp ang nt p).id = { p.id with team := nt } := by
  unfold rotNodeF
  rw [if_neg h]

theorem base_vs_rot {A : List Node} (hnd : (A.map Node.id).Nodup)
    (hteam : ∀ n ∈ A, n.id.team = Team.BLUE)
    {cp : Point} {ang : ℚ} {nt : Team} (hnt : nt ≠ Team.BLUE)
    {x y : Node} (hx : x ∈ A) (hy : y ∈ A.map (rotNodeF cp ang nt))
    (hid : x.id = y.id) : x = y := by
  obtain ⟨p, hp, rfl⟩ := List.mem_map.1 hy
  by_cases hty : p.type = StrategicPointType.CENTER_HUB
  · rw [rotNodeF_id_center hty] at hid ⊢
    exact nodup_id_inj hnd hx hp hid
  · have h1 := hteam x hx
    rw [hid, rotNodeF_id_other hty] at h1
    exact absurd (show nt = Team.BLUE from h1) hnt

theorem rot_vs_rot {A : List Node} (hnd : (A.map Node.id).Nodup)
    (hteam : ∀ n ∈ A, n.id.team = Team.BLUE)
    {cp : Point} {ang1 ang2 : ℚ} {nt1 nt2 : Team}
    (hnt1 : nt1 ≠ Team.BLUE) (hnt2 : nt2 ≠ Team.BLUE)
    (hsame : nt1 = nt2 → ang1 = ang2)
    {x y : Node} (hx : x ∈ A.map (rotNodeF cp ang1 nt1))
    (hy : y ∈ A.map (rotNodeF cp ang2 nt2)) (hid : x.id = y.id) : x = y := by
  obtain ⟨p, hp, rfl⟩ := List.mem_map.1 hx
  obtain ⟨q, hq, rfl⟩ := List.mem_map.1 hy
  by_cases hpt : p.type = StrategicPointType.CENTER_HUB
  · by_cases hqt : q.type = StrategicPointType.CENTER_HUB
    · rw [rotNodeF_id_center hpt] at hid ⊢
      rw [rotNodeF_id_center hqt] at hid ⊢
      rw [nodup_id_inj hnd hp hq hid]
    · have h1 := hteam p hp
      rw [rotNodeF_id_center hpt] at hid
      rw [hid, rotNodeF_id_other hqt] at h1
      exact absurd (show nt2 = Team.BLUE from h1) hnt2
  · by_cases hqt : q.type = StrategicPointType.CENTER_HUB
    · have h1 := hteam q hq
      rw [rotNodeF_id_center hqt] at hid
      rw [← hid, rotNodeF_id_other hpt] at h1
      exact absurd (show nt1 = Team.BLUE from h1) hnt1
    · rw [rotNodeF_id_other hpt, rotNodeF_id_other hqt, NodeId.mk.injEq] at hid
      have hnteq := hsame hid.1
      have hpq : p.id = q.id :=
        nodeId_ext ((hteam p hp).trans (hteam q hq).symm) hid.2.1 hid.2.2
      rw [nodup_id_inj hnd hp hq hpq, hid.1, hnteq]

/-- The nodes of one team of a layout (empty when the team is absent). -/
def teamNodes (layout : MapLayout) (t : Team) : List Node :=
  ((layout.teams t).map TeamLayout.nodes).getD []

/-- All node entries of a layout, across the four possible teams. -/
def allNodes (layout : MapLayout) : List Node :=
  teamNodes layout .BLUE ++ (teamNodes layout .ORANGE ++
    (teamNodes layout .GREEN ++ teamNodes layout .YELLOW))

theorem placeNodes_nodesOk (grid : List (List Zone)) (t : Team) (config : GeneratorConfig)
    (c : Counters) (s : Int) (ns : List Node) (c' : Counters) (s' : Int)
    (hok : placeNodes grid t config c s = .ok ((ns, c'), s')) :
    NodesOk t c' ns := by
  unfold placeNodes at hok
  by_cases hsym : config.symmetricalTeamLayout = false
  · rw [if_pos hsym] at hok
    rw [bind_ok] at hok
    obtain ⟨woolZones, s1, _hwz, hok⟩ := hok
    simp only [] at hok
    rw [bind_ok] at hok
    obtain ⟨pp1, s2, _hp1, hok⟩ := hok
    obtain ⟨w1Pos, w1E⟩ := pp1
    simp only [] at hok
    obtain ⟨i1, c1, hg1⟩ : ∃ i cc, generateNodeId c t .WOOL = (i, cc) := ⟨_, _, rfl⟩
    rw [hg1] at hok
    simp only [] at hok
    obtain ⟨i2, c2, hg2⟩ : ∃ i cc, generateNodeId c1 t .WOOL_ENTRY = (i, cc) := ⟨_, _, rfl⟩
    rw [hg2] at hok
    simp only [] at hok
    rw [bind_ok] at hok
    obtain ⟨pp2, s3, _hp2, hok⟩ := hok
    obtain ⟨w2Pos, w2E⟩ := pp2
    simp only [] at hok
    obtain ⟨i3, c3, hg3⟩ : ∃ i cc, generateNodeId c2 t .WOOL = (i, cc) := ⟨_, _, rfl⟩
    rw [hg3] at hok
    simp only [] at hok
    obtain ⟨i4, c4, hg4⟩ : ∃ i cc, generateNodeId c3 t .WOOL_ENTRY = (i, cc) := ⟨_, _, rfl⟩
    rw [hg4] at hok
    simp only [] at hok
    rw [bind_ok] at hok
    obtain ⟨pp3, s4, _hp3, hok⟩ := hok
    obtain ⟨spPos, spE⟩ := pp3
    simp only [] at hok
    obtain ⟨i5, c5, hg5⟩ : ∃ i cc, generateNodeId c4 t .SPAWN = (i, cc) := ⟨_, _, rfl⟩
    rw [hg5] at hok
    simp only [] at hok
    obtain ⟨i6, c6, hg6⟩ : ∃ i cc, generateNodeId c5 t .SPAWN_ENTRY = (i, cc) := ⟨_, _, rfl⟩
    rw [hg6] at hok
    simp only [] at hok
    rw [bind_ok] at hok
    obtain ⟨hubAcc, s5, hhub, hok⟩ := hok
    obtain ⟨ns5, c5h⟩ := hubAcc
    simp only [] at hok
    rw [bind_ok] at hok
    obtain ⟨shIdx, s6, _hsi, hok⟩ := hok
    rw [bind_ok] at hok
    obtain ⟨cnt, s7, _hc, hok⟩ := hok
    rw [bind_ok] at hok
    obtain ⟨feAcc, s8, hfe, hok⟩ := hok
    obtain ⟨ns8, c8⟩ := feAcc
    simp only [] at hok
    rw [pure_ok] at hok
    obtain ⟨hpair, _hs⟩ := hok
    rw [Prod.ext_iff] at hpair
    obtain ⟨hns, hc⟩ := hpair
    simp only [] at hns hc
    subst hns
    subst hc
    have hI6 : NodesOk t c6
        ([(⟨i1, .WOOL, w1Pos, t⟩ : Node), ⟨i2, .WOOL_ENTRY, w1E, t⟩] ++
          [(⟨i3, .WOOL, w2Pos, t⟩ : Node), ⟨i4, .WOOL_ENTRY, w2E, t⟩] ++
          [(⟨i5, .SPAWN, spPos, t⟩ : Node), ⟨i6, .SPAWN_ENTRY, spE, t⟩]) := by
      exact NodesOk_genId (NodesOk_genId (NodesOk_genId (NodesOk_genId
        (NodesOk_genId (NodesOk_genId (NodesOk_nil t c) .WOOL hg1 .WOOL w1Pos t)
        .WOOL_ENTRY hg2 .WOOL_ENTRY w1E t) .WOOL hg3 .WOOL w2Pos t)
        .WOOL_ENTRY hg4 .WOOL_ENTRY w2E t) .SPAWN hg5 .SPAWN spPos t)
        .SPAWN_ENTRY hg6 .SPAWN_ENTRY spE t
    have hI5 : NodesOk t c5h ns5 := by
      refine foldlM_inv (fun a => NodesOk t a.2 a.1) _ _ ?_ _ _ _ _ hI6 hhub
      intro a b s9 r s9' _hb hI happ
      obtain ⟨ans, acs⟩ := a
      simp only [] at happ
      rw [bind_ok] at happ
      obtain ⟨pts, s10, _hp, happ⟩ := happ
      obtain ⟨ih, ch, hgh⟩ : ∃ i cc, generateNodeId acs t .HUB = (i, cc) := ⟨_, _, rfl⟩
      rw [hgh] at happ
      simp only [] at happ
      rw [pure_ok] at happ
      obtain ⟨hr, _⟩ := happ
      rw [hr]
      exact NodesOk_genId hI .HUB hgh .HUB _ t
    refine foldlM_inv (fun a => NodesOk t a.2 a.1) _ _ ?_ _ _ _ _ hI5 hfe
    intro a b s9 r s9' _hb hI happ
    obtain ⟨ans, acs⟩ := a
    simp only [] at happ
    rw [bind_ok] at happ
    obtain ⟨ppf, s10, _hp, happ⟩ := happ
    obtain ⟨fePos, flPos⟩ := ppf
    simp only [] at happ
    obtain ⟨ia, ca, hga⟩ : ∃ i cc, generateNodeId acs t .FRONT_LINE_ENTRY = (i, cc) := ⟨_, _, rfl⟩
    rw [hga] at happ
    simp only [] at happ
    obtain ⟨ib, cb, hgb⟩ : ∃ i cc, generateNodeId ca t .FRONT_LINE = (i, cc) := ⟨_, _, rfl⟩
    rw [hgb] at happ
    simp only [] at happ
    rw [pure_ok] at happ
    obtain ⟨hr, _⟩ := happ
    rw [hr]
    exact NodesOk_congr
      (NodesOk_genId (NodesOk_genId hI .FRONT_LINE_ENTRY hga .FRONT_LINE_ENTRY fePos t)
        .FRONT_LINE hgb .FRONT_LINE flPos t) (by simp)
  · rw [if_neg hsym] at hok
    rw [bind_ok] at hok
    obtain ⟨my, s1, _h1, hok⟩ := hok
    simp only [] at hok
    rw [bind_ok] at hok
    obtain ⟨pps, s2, _h2, hok⟩ := hok
    obtain ⟨spPosR, spER⟩ := pps
    simp only [] at hok
    obtain ⟨i1, c1, hg1⟩ : ∃ i cc, generateNodeId c t .SPAWN = (i, cc) := ⟨_, _, rfl⟩
    rw [hg1] at hok
    simp only [] at hok
    obtain ⟨i2, c2, hg2⟩ : ∃ i cc, generateNodeId c1 t .SPAWN_ENTRY = (i, cc) := ⟨_, _, rfl⟩
    rw [hg2] at hok
    simp only [] at hok
    rw [bind_ok] at hok
    obtain ⟨ppw, s3, _h3, hok⟩ := hok
    obtain ⟨w1Pos, w1E⟩ := ppw
    simp only [] at hok
    obtain ⟨i3, c3, hg3⟩ : ∃ i cc, generateNodeId c2 t .WOOL = (i, cc) := ⟨_, _, rfl⟩
    rw [hg3] at hok
    simp only [] at hok
    obtain ⟨i4, c4, hg4⟩ : ∃ i cc, generateNodeId c3 t .WOOL_ENTRY = (i, cc) := ⟨_, _, rfl⟩
    rw [hg4] at hok
    simp only [] at hok
    obtain ⟨i5, c5, hg5⟩ : ∃ i cc, generateNodeId c4 t .WOOL = (i, cc) := ⟨_, _, rfl⟩
    rw [hg5] at hok
    simp only [] at hok
    obtain ⟨i6, c6, hg6⟩ : ∃ i cc, generateNodeId c5 t .WOOL_ENTRY = (i, cc) := ⟨_, _, rfl⟩
    rw [hg6] at hok
    simp only [] at hok
    rw [bind_ok] at hok
    obtain ⟨thp, s4, _h4, hok⟩ := hok
    obtain ⟨i7, c7, hg7⟩ : ∃ i cc, generateNodeId c6 t .HUB = (i, cc) := ⟨_, _, rfl⟩
    rw [hg7] at hok
    simp only [] at hok
    rw [bind_ok] at hok
    obtain ⟨mhx, s5, _h5, hok⟩ := hok
    obtain ⟨i8, c8, hg8⟩ : ∃ i cc, generateNodeId c7 t .HUB = (i, cc) := ⟨_, _, rfl⟩
    rw [hg8] at hok
    simp only [] at hok
    obtain ⟨i9, c9, hg9⟩ : ∃ i cc, generateNodeId c8 t .HUB = (i, cc) := ⟨_, _, rfl⟩
    rw [hg9] at hok
    simp only [] at hok
    rw [bind_ok] at hok
    obtain ⟨ppf, s6, _h6, hok⟩ := hok
    obtain ⟨fePos, flPos⟩ := ppf
    simp only [] at hok
    obtain ⟨ia, ca, hga⟩ : ∃ i cc, generateNodeId c9 t .FRONT_LINE_ENTRY = (i, cc) := ⟨_, _, rfl⟩
    rw [hga] at hok
    simp only [] at hok
    obtain ⟨ib, cb, hgb⟩ : ∃ i cc, generateNodeId ca t .FRONT_LINE = (i, cc) := ⟨_, _, rfl⟩
    rw [hgb] at hok
    simp only [] at hok
    obtain ⟨ic, cc1, hgc⟩ : ∃ i cc, generateNodeId cb t .FRONT_LINE_ENTRY = (i, cc) := ⟨_, _, rfl⟩
    rw [hgc] at hok
    simp only [] at hok
    obtain ⟨id1, cd, hgd⟩ : ∃ i cc, generateNodeId cc1 t .FRONT_LINE = (i, cc) := ⟨_, _, rfl⟩
    rw [hgd] at hok
    simp only [] at hok
    rw [pure_ok] at hok
    obtain ⟨hpair, _hs⟩ := hok
    rw [Prod.ext_iff] at hpair
    obtain ⟨hns, hc⟩ := hpair
    simp only [] at hns hc
    subst hns
    subst hc
    exact NodesOk_genId (NodesOk_genId (NodesOk_genId (NodesOk_genId
      (NodesOk_genId (NodesOk_genId (NodesOk_genId (NodesOk_genId (NodesOk_genId
      (NodesOk_genId (NodesOk_genId (NodesOk_genId (NodesOk_genId (NodesOk_nil t c)
      .SPAWN hg1 .SPAWN _ t) .SPAWN_ENTRY hg2 .SPAWN_ENTRY _ t)
      .WOOL hg3 .WOOL _ t) .WOOL_ENTRY hg4 .WOOL_ENTRY _ t)
      .WOOL hg5 .WOOL _ t) .WOOL_ENTRY hg6 .WOOL_ENTRY _ t)
      .HUB hg7 .HUB _ t) .HUB hg8 .HUB _ t) .HUB hg9 .HUB _ t)
      .FRONT_LINE_ENTRY hga .FRONT_LINE_ENTRY _ t) .FRONT_LINE hgb .FRONT_LINE _ t)
      .FRONT_LINE_ENTRY hgc .FRONT_LINE_ENTRY _ t) .FRONT_LINE hgd .FRONT_LINE _ t

theorem addPathing_nodesOk (nodes : List Node) (edges : List Edge)
    (config : GeneratorConfig) (t : Team) (c : Counters) (s : Int)
    (ns' : List Node) (es' : List Edge) (c' : Counters) (s' : Int)
    (hN : NodesOk t c nodes)
    (hok : addPathingEnhancements nodes edges config t c s = .ok ((ns', es', c'), s')) :
    NodesOk t c' ns' := by
  unfold addPathingEnhancements at hok
  by_cases hfr : config.pathingEnhancements.enableWoolFlankRoutes = true
  · rw [if_pos hfr] at hok
    simp only [] at hok
    rw [bind_ok] at hok
    obtain ⟨quad, s1, hquad, hok⟩ := hok
    obtain ⟨nn, ne, nc, fm⟩ := quad
    simp only [] at hok
    have hNN : NodesOk t nc nn := by
      refine foldlM_inv (fun a => NodesOk t a.2.2.1 a.1) _ _ ?_ _ _ _ _ hN hquad
      intro a b s2 r s2' _hb hI happ
      obtain ⟨ans, aes, acs, afm⟩ := a
      simp only [] at happ
      cases h1 : aes.find? (fun p => p.toId == b.id &&
          ((findNodes nodes .HUB).map (fun x => x.id)).contains p.fromId) with
      | none =>
        rw [h1] at happ
        simp only [] at happ
        rw [pure_ok] at happ
        rw [happ.1]
        exact hI
      | some hwe =>
        rw [h1] at happ
        cases h2 : aes.find? (fun p => p.fromId == b.id &&
            ((findNodes nodes .WOOL).map (fun x => x.id)).contains p.toId) with
        | none =>
          rw [h2] at happ
          simp only [] at happ
          rw [pure_ok] at happ
          rw [happ.1]
          exact hI
        | some wwe =>
          rw [h2] at happ
          simp only [] at happ
          cases h3 : ans.find? (fun p => p.id == hwe.fromId) with
          | none =>
            rw [h3] at happ
            simp only [] at happ
            exact Except.noConfusion happ
          | some hub =>
            rw [h3] at happ
            cases h4 : ans.find? (fun p => p.id == wwe.toId) with
            | none =>
              rw [h4] at happ
              simp only [] at happ
              exact Except.noConfusion happ
            | some wool =>
              rw [h4] at happ
              simp only [] at happ
              rw [bind_ok] at happ
              obtain ⟨f, s3, _hf, happ⟩ := happ
              obtain ⟨j1, d1, hj1⟩ : ∃ i cc, generateNodeId acs t .HELPER = (i, cc) :=
                ⟨_, _, rfl⟩
              rw [hj1] at happ
              simp only [] at happ
              obtain ⟨j2, d2, hj2⟩ : ∃ i cc, generateNodeId d1 t .HELPER = (i, cc) :=
                ⟨_, _, rfl⟩
              rw [hj2] at happ
              simp only [] at happ
              obtain ⟨j3, d3, hj3⟩ : ∃ i cc, generateNodeId d2 t .HELPER = (i, cc) :=
                ⟨_, _, rfl⟩
              rw [hj3] at happ
              simp only [] at happ
              rw [pure_ok] at happ
              rw [happ.1]
              exact NodesOk_genId3 hI .HELPER .HELPER .HELPER .HELPER .HELPER .HELPER
                hj1 hj2 hj3 _ _ _ t
    by_cases hrr : config.pathingEnhancements.enableSpawnWoolRushRoute = true
    · rw [if_pos hrr] at hok
      cases h5 : findNode nn .SPAWN_ENTRY with
      | none =>
        rw [h5] at hok
        simp only [] at hok
        rw [pure_ok] at hok
        have h6 := hok.1
        rw [Prod.ext_iff] at h6
        obtain ⟨ha, h6⟩ := h6
        rw [Prod.ext_iff] at h6
        obtain ⟨_hb, hc2⟩ := h6
        simp only [] at ha hc2
        rw [ha, hc2]
        exact hNN
      | some se =>
        rw [h5] at hok
        simp only [] at hok
        by_cases h7 : (findNodes nn .WOOL_ENTRY).length > 0
        · rw [if_pos h7] at hok
          cases h8 : reduceNearest se.pos (findNodes nn .WOOL_ENTRY) with
          | none =>
            rw [h8] at hok
            simp only [] at hok
            rw [pure_ok] at hok
            have h6 := hok.1
            rw [Prod.ext_iff] at h6
            obtain ⟨ha, h6⟩ := h6
            rw [Prod.ext_iff] at h6
            obtain ⟨_hb, hc2⟩ := h6
            simp only [] at ha hc2
            rw [ha, hc2]
            exact hNN
          | some we =>
            rw [h8] at hok
            simp only [] at hok
            rw [pure_ok] at hok
            have h6 := hok.1
            rw [Prod.ext_iff] at h6
            obtain ⟨ha, h6⟩ := h6
            rw [Prod.ext_iff] at h6
            obtain ⟨_hb, hc2⟩ := h6
            simp only [] at ha hc2
            rw [ha, hc2]
            exact hNN
        · rw [if_neg h7] at hok
          rw [pure_ok] at hok
          have h6 := hok.1
          rw [Prod.ext_iff] at h6
          obtain ⟨ha, h6⟩ := h6
          rw [Prod.ext_iff] at h6
          obtain ⟨_hb, hc2⟩ := h6
          simp only [] at ha hc2
          rw [ha, hc2]
          exact hNN
    · rw [if_neg hrr] at hok
      rw [pure_ok] at hok
      have h6 := hok.1
      rw [Prod.ext_iff] at h6
      obtain ⟨ha, h6⟩ := h6
      rw [Prod.ext_iff] at h6
      obtain ⟨_hb, hc2⟩ := h6
      simp only [] at ha hc2
      rw [ha, hc2]
      exact hNN
  · rw [if_neg hfr] at hok
    rw [bind_ok] at hok
    obtain ⟨quad, s1, hquad, hok⟩ := hok
    obtain ⟨nn, ne, nc, fm⟩ := quad
    simp only [] at hok
    have hNN : NodesOk t nc nn := by
      rw [pure_ok] at hquad
      have hq := hquad.1
      rw [Prod.ext_iff] at hq
      obtain ⟨ha, hq⟩ := hq
      rw [Prod.ext_iff] at hq
      obtain ⟨hb, hq⟩ := hq
      rw [Prod.ext_iff] at hq
      obtain ⟨hc2, _hd⟩ := hq
      simp only [] at ha hc2
      rw [ha, hc2]
      exact hN
    by_cases hrr : config.pathingEnhancements.enableSpawnWoolRushRoute = true
    · rw [if_pos hrr] at hok
      cases h5 : findNode nn .SPAWN_ENTRY with
      | none =>
        rw [h5] at hok
        simp only [] at hok
        rw [pure_ok] at hok
        have h6 := hok.1
        rw [Prod.ext_iff] at h6
        obtain ⟨ha, h6⟩ := h6
        rw [Prod.ext_iff] at h6
        obtain ⟨_hb, hc2⟩ := h6
        simp only [] at ha hc2
        rw [ha, hc2]
        exact hNN
      | some se =>
        rw [h5] at hok
        simp only [] at hok
        by_cases h7 : (findNodes nn .WOOL_ENTRY).length > 0
        · rw [if_pos h7] at hok
          cases h8 : reduceNearest se.pos (findNodes nn .WOOL_ENTRY) with
          | none =>
            rw [h8] at hok
            simp only [] at hok
            rw [pure_ok] at hok
            have h6 := hok.1
            rw [Prod.ext_iff] at h6
            obtain ⟨ha, h6⟩ := h6
            rw [Prod.ext_iff] at h6
            obtain ⟨_hb, hc2⟩ := h6
            simp only [] at ha hc2
            rw [ha, hc2]
            exact hNN
          | some we =>
            rw [h8] at hok
            simp only [] at hok
            rw [pure_ok] at hok
            have h6 := hok.1
            rw [Prod.ext_iff] at h6
            obtain ⟨ha, h6⟩ := h6
            rw [Prod.ext_iff] at h6
            obtain ⟨_hb, hc2⟩ := h6
            simp only [] at ha hc2
            rw [ha, hc2]
            exact hNN
        · rw [if_neg h7] at hok
          rw [pure_ok] at hok
          have h6 := hok.1
          rw [Prod.ext_iff] at h6
          obtain ⟨ha, h6⟩ := h6
          rw [Prod.ext_iff] at h6
          obtain ⟨_hb, hc2⟩ := h6
          simp only [] at ha hc2
          rw [ha, hc2]
          exact hNN
    · rw [if_neg hrr] at hok
      rw [pure_ok] at hok
      have h6 := hok.1
      rw [Prod.ext_iff] at h6
      obtain ⟨ha, h6⟩ := h6
      rw [Prod.ext_iff] at h6
      obtain ⟨_hb, hc2⟩ := h6
      simp only [] at ha hc2
      rw [ha, hc2]
      exact hNN

theorem islandFold_nodesOk (t : Team) :
    ∀ (ps : List Point) (ns0 : List Node) (c0 : Counters) (base : List Node),
      NodesOk t c0 (base ++ ns0) →
      NodesOk t
        (ps.foldl (fun (acc : List Node × Counters) p =>
          (acc.1 ++ [⟨(generateNodeId acc.2 t .ISLAND).1, .ISLAND, p, t⟩],
           (generateNodeId acc.2 t .ISLAND).2)) (ns0, c0)).2
        (base ++ (ps.foldl (fun (acc : List Node × Counters) p =>
          (acc.1 ++ [⟨(generateNodeId acc.2 t .ISLAND).1, .ISLAND, p, t⟩],
           (generateNodeId acc.2 t .ISLAND).2)) (ns0, c0)).1) := by
  intro ps
  induction ps with
  | nil => intro ns0 c0 base h; exact h
  | cons p ps ih =>
    intro ns0 c0 base h
    rw [List.foldl_cons]
    exact ih _ _ base
      (NodesOk_congr (NodesOk_genId h .ISLAND rfl .ISLAND p t)
        (List.append_assoc _ _ _))

theorem createIslandChain_nodesOk (start : Point) (bounds : Zone) (t : Team) (c : Counters)
    (s : Int) (ns : List Node) (es : List Edge) (c2 : Counters) (s' : Int)
    (hok : createIslandChain start bounds t c s = .ok ((ns, es, c2), s'))
    (acc : List Node) (hacc : NodesOk t c acc) : NodesOk t c2 (acc ++ ns) := by
  unfold createIslandChain at hok
  rw [bind_ok] at hok
  obtain ⟨numPoints, s1, _h1, hok⟩ := hok
  rw [bind_ok] at hok
  obtain ⟨chain, s2, _h2, hok⟩ := hok
  simp only [] at hok
  rw [pure_ok] at hok
  have h6 := hok.1
  rw [Prod.ext_iff] at h6
  obtain ⟨ha, h6⟩ := h6
  rw [Prod.ext_iff] at h6
  obtain ⟨_hb, hc2⟩ := h6
  simp only [] at ha hc2
  rw [ha, hc2]
  exact islandFold_nodesOk t chain [] c acc (NodesOk_congr hacc (List.append_nil acc).symm)

/-- An island strategy only appends freshly numbered island nodes. -/
def StratOk (f : IslandStrat) : Prop :=
  ∀ (c : Counters) (acc : List Node) (s : Int) (b : Bool) (ns' : List Node)
    (es' : List Edge) (c2 : Counters) (s' : Int),
    NodesOk Team.BLUE c acc → f c s = .ok ((b, ns', es', c2), s') →
    NodesOk Team.BLUE c2 (acc ++ ns')

theorem islandSpawnEmptyZones_stratOk (grid : List (List Zone)) (existing : List Node) :
    StratOk (islandSpawnEmptyZones grid existing) := by
  intro c acc s b ns' es' c2 s' hacc hok
  unfold islandSpawnEmptyZones at hok
  split at hok
  · rw [pure_ok] at hok
    have h6 := hok.1
    rw [Prod.ext_iff] at h6
    obtain ⟨_ha, h6⟩ := h6
    rw [Prod.ext_iff] at h6
    obtain ⟨hb, h6⟩ := h6
    rw [Prod.ext_iff] at h6
    obtain ⟨_hc, hd⟩ := h6
    simp only [] at hb hd
    rw [hb, hd]
    exact NodesOk_congr hacc (List.append_nil acc).symm
  · rw [bind_ok] at hok
    obtain ⟨shuffled, s1, _h1, hok⟩ := hok
    simp only [] at hok
    cases hfn : findNearestNode
        ⟨(shuffled.getD 0 dfltZone).x,
          (shuffled.getD 0 dfltZone).y + (shuffled.getD 0 dfltZone).height / 2⟩ existing with
    | none =>
      rw [hfn] at hok
      exact Except.noConfusion hok
    | some nearestNode =>
      rw [hfn] at hok
      simp only [] at hok
      rw [bind_ok] at hok
      obtain ⟨sx, s2, _h2, hok⟩ := hok
      rw [bind_ok] at hok
      obtain ⟨sy, s3, _h3, hok⟩ := hok
      rw [bind_ok] at hok
      obtain ⟨tri, s4, hchain, hok⟩ := hok
      obtain ⟨cn, ce, cc2⟩ := tri
      simp only [] at hok
      cases hcn : cn with
      | nil =>
        rw [hcn] at hok
        simp only [] at hok
        exact Except.noConfusion hok
      | cons first rest =>
        rw [hcn] at hok
        simp only [] at hok
        rw [pure_ok] at hok
        have h6 := hok.1
        rw [Prod.ext_iff] at h6
        obtain ⟨_ha, h6⟩ := h6
        rw [Prod.ext_iff] at h6
        obtain ⟨hb, h6⟩ := h6
        rw [Prod.ext_iff] at h6
        obtain ⟨_hc, hd⟩ := h6
        simp only [] at hb hd
        rw [hb, hd]
        rw [hcn] at hchain
        exact createIslandChain_nodesOk _ _ _ _ _ _ _ _ _ hchain acc hacc

theorem islandSpawnFourthColumn_stratOk (config : GeneratorConfig) (existing : List Node)
    (totalHeight : ℚ) : StratOk (islandSpawnFourthColumn config existing totalHeight) := by
  intro c acc s b ns' es' c2 s' hacc hok
  unfold islandSpawnFourthColumn at hok
  split at hok
  · rw [pure_ok] at hok
    have h6 := hok.1
    rw [Prod.ext_iff] at h6
    obtain ⟨_ha, h6⟩ := h6
    rw [Prod.ext_iff] at h6
    obtain ⟨hb, h6⟩ := h6
    rw [Prod.ext_iff] at h6
    obtain ⟨_hc, hd⟩ := h6
    simp only [] at hb hd
    rw [hb, hd]
    exact NodesOk_congr hacc (List.append_nil acc).symm
  · rw [bind_ok] at hok
    obtain ⟨shuffled, s1, _h1, hok⟩ := hok
    cases hsh : shuffled with
    | nil =>
      rw [hsh] at hok
      simp only [] at hok
      exact Except.noConfusion hok
    | cons nearest rest =>
      rw [hsh] at hok
      simp only [] at hok
      rw [bind_ok] at hok
      obtain ⟨dx, s2, _h2, hok⟩ := hok
      rw [bind_ok] at hok
      obtain ⟨dy, s3, _h3, hok⟩ := hok
      rw [bind_ok] at hok
      obtain ⟨tri, s4, hchain, hok⟩ := hok
      obtain ⟨cn, ce, cc2⟩ := tri
      simp only [] at hok
      cases hcn : cn with
      | nil =>
        rw [hcn] at hok
        simp only [] at hok
        exact Except.noConfusion hok
      | cons first rest2 =>
        rw [hcn] at hok
        simp only [] at hok
        rw [pure_ok] at hok
        have h6 := hok.1
        rw [Prod.ext_iff] at h6
        obtain ⟨_ha, h6⟩ := h6
        rw [Prod.ext_iff] at h6
        obtain ⟨hb, h6⟩ := h6
        rw [Prod.ext_iff] at h6
        obtain ⟨_hc, hd⟩ := h6
        simp only [] at hb hd
        rw [hb, hd]
        rw [hcn] at hchain
        exact createIslandChain_nodesOk _ _ _ _ _ _ _ _ _ hchain acc hacc

theorem islandSpawnCenterGap_stratOk (config : GeneratorConfig) (existing : List Node)
    (totalWidth totalHeight : ℚ) :
    StratOk (islandSpawnCenterGap config existing totalWidth totalHeight) := by
  intro c acc s b ns' es' c2 s' hacc hok
  unfold islandSpawnCenterGap at hok
  split at hok
  · rw [pure_ok] at hok
    have h6 := hok.1
    rw [Prod.ext_iff] at h6
    obtain ⟨_ha, h6⟩ := h6
    rw [Prod.ext_iff] at h6
    obtain ⟨hb, h6⟩ := h6
    rw [Prod.ext_iff] at h6
    obtain ⟨_hc, hd⟩ := h6
    simp only [] at hb hd
    rw [hb, hd]
    exact NodesOk_congr hacc (List.append_nil acc).symm
  · rw [bind_ok] at hok
    obtain ⟨startY, s1, _h1, hok⟩ := hok
    rw [bind_ok] at hok
    obtain ⟨sx, s2, _h2, hok⟩ := hok
    simp only [] at hok
    cases hfn : findNearestNode ⟨(totalWidth - config.teamGap) / 2 + sx, startY⟩
        (List.filter (fun p => decide (p.type = StrategicPointType.FRONT_LINE)) existing) with
    | none =>
      rw [hfn] at hok
      exact Except.noConfusion hok
    | some nearestNode =>
      rw [hfn] at hok
      simp only [] at hok
      rw [bind_ok] at hok
      obtain ⟨tri, s4, hchain, hok⟩ := hok
      obtain ⟨cn, ce, cc2⟩ := tri
      simp only [] at hok
      cases hcn : cn with
      | nil =>
        rw [hcn] at hok
        simp only [] at hok
        exact Except.noConfusion hok
      | cons first rest2 =>
        rw [hcn] at hok
        simp only [] at hok
        rw [pure_ok] at hok
        have h6 := hok.1
        rw [Prod.ext_iff] at h6
        obtain ⟨_ha, h6⟩ := h6
        rw [Prod.ext_iff] at h6
        obtain ⟨hb, h6⟩ := h6
        rw [Prod.ext_iff] at h6
        obtain ⟨_hc, hd⟩ := h6
        simp only [] at hb hd
        rw [hb, hd]
        rw [hcn] at hchain
        exact createIslandChain_nodesOk _ _ _ _ _ _ _ _ _ hchain acc hacc

theorem runSpawns_nodesOk (maxI : Nat) :
    ∀ (fs : List IslandStrat) (ic : Nat) (ns : List Node) (es : List Edge) (cs : Counters)
      (base : List Node) (s : Int) (r : List Node × List Edge × Counters) (s' : Int),
      (∀ f ∈ fs, StratOk f) → NodesOk .BLUE cs (base ++ ns) →
      runSpawns maxI fs ic ns es cs s = .ok (r, s') →
      NodesOk .BLUE r.2.2 (base ++ r.1) := by
  intro fs
  induction fs with
  | nil =>
    intro ic ns es cs base s r s' _hfs hI hok
    rw [runSpawns, pure_ok] at hok
    rw [hok.1]
    exact hI
  | cons f rest ih =>
    intro ic ns es cs base s r s' hfs hI hok
    rw [runSpawns] at hok
    split at hok
    · rw [bind_ok] at hok
      obtain ⟨quad, s1, hf, hok⟩ := hok
      obtain ⟨b, ns2, es2, cs2⟩ := quad
      simp only [] at hok
      have hstrat := hfs f (List.mem_cons_self _ _) cs (base ++ ns) s b ns2 es2 cs2 s1 hI hf
      exact ih _ _ _ _ base _ _ _ (fun g hg => hfs g (List.mem_cons_of_mem _ hg))
        (NodesOk_congr hstrat (List.append_assoc _ _ _)) hok
    · rw [pure_ok] at hok
      rw [hok.1]
      exact hI

theorem generateIslands_nodesOk (config : GeneratorConfig) (grid : List (List Zone))
    (existing : List Node) (totalWidth totalHeight : ℚ) (c : Counters) (s : Int)
    (ns : List Node) (es : List Edge) (c2 : Counters) (s' : Int)
    (hok : generateIslands config grid existing totalWidth totalHeight c s =
      .ok ((ns, es, c2), s'))
    (acc : List Node) (hacc : NodesOk .BLUE c acc) : NodesOk .BLUE c2 (acc ++ ns) := by
  unfold generateIslands at hok
  split at hok
  · rw [pure_ok] at hok
    have h6 := hok.1
    rw [Prod.ext_iff] at h6
    obtain ⟨ha, h6⟩ := h6
    rw [Prod.ext_iff] at h6
    obtain ⟨_hb, hc2⟩ := h6
    simp only [] at ha hc2
    rw [ha, hc2]
    exact NodesOk_congr hacc (List.append_nil acc).symm
  · rw [bind_ok] at hok
    obtain ⟨shuffledSpawns, s1, hshuf, hok⟩ := hok
    have hokr : runSpawns config.islandGeneration.maxIslandsPerTeam shuffledSpawns.reverse
        0 [] [] c s1 = .ok ((ns, es, c2), s') := hok
    have hsub := shuffle_subset hshuf
    have hall : ∀ f ∈ shuffledSpawns.reverse, StratOk f := by
      intro f hf
      have hf2 := hsub f (List.mem_reverse.1 hf)
      rcases List.mem_append.1 hf2 with hf3 | hf3
      · rcases List.mem_append.1 hf3 with hf4 | hf4
        · by_cases hc1 : config.islandGeneration.spawnInEmptyZones = true
          · rw [if_pos hc1] at hf4
            rw [List.mem_singleton] at hf4
            rw [hf4]
            exact islandSpawnEmptyZones_stratOk grid existing
          · rw [if_neg hc1] at hf4
            exact absurd hf4 (List.not_mem_nil f)
        · by_cases hc1 : config.islandGeneration.spawnInFourthColumn = true ∧ config.numTeams = 2
          · rw [if_pos hc1] at hf4
            rw [List.mem_singleton] at hf4
            rw [hf4]
            exact islandSpawnFourthColumn_stratOk config existing totalHeight
          · rw [if_neg hc1] at hf4
            exact absurd hf4 (List.not_mem_nil f)
      · by_cases hc1 : config.islandGeneration.spawnInCenterGap = true
        · rw [if_pos hc1] at hf3
          rw [List.mem_singleton] at hf3
          rw [hf3]
          exact islandSpawnCenterGap_stratOk config existing totalWidth totalHeight
        · rw [if_neg hc1] at hf3
          exact absurd hf3 (List.not_mem_nil f)
    have := runSpawns_nodesOk config.islandGeneration.maxIslandsPerTeam
      shuffledSpawns.reverse 0 [] [] c acc s1 (ns, es, c2) s' hall
      (NodesOk_congr hacc (List.append_nil acc).symm) hokr
    exact this

theorem generate2Team_id_inj (config : GeneratorConfig) (s s' : Int) (layout : MapLayout)
    (hok : generate2TeamLayout config s = .ok (layout, s')) :
    ∀ n1 ∈ allNodes layout, ∀ n2 ∈ allNodes layout, n1.id = n2.id → n1 = n2 := by
  unfold generate2TeamLayout at hok
  by_cases hw : config.teamWidth < 80
  · rw [if_pos hw] at hok
    exact Except.noConfusion hok
  · rw [if_neg hw] at hok
    simp only [] at hok
    rw [bind_ok] at hok
    obtain ⟨blueGrid, s1, _hg, hok⟩ := hok
    rw [bind_ok] at hok
    obtain ⟨pn, s2, hpn, hok⟩ := hok
    obtain ⟨blueNodes, counters1⟩ := pn
    simp only [] at hok
    rw [bind_ok] at hok
    obtain ⟨blueEdges, s3, _hbe, hok⟩ := hok
    rw [bind_ok] at hok
    obtain ⟨pe, s4, hpe, hok⟩ := hok
    obtain ⟨enhNodes, enhEdges, counters2⟩ := pe
    simp only [] at hok
    rw [bind_ok] at hok
    obtain ⟨pi, s5, hpi, hok⟩ := hok
    obtain ⟨islandNodes, islandEdges, counters3⟩ := pi
    simp only [] at hok
    rw [pure_ok] at hok
    obtain ⟨hlay, _hs⟩ := hok
    subst hlay
    have hB1 : NodesOk .BLUE counters1 blueNodes :=
      placeNodes_nodesOk _ _ _ _ _ _ _ _ hpn
    have hB2 : NodesOk .BLUE counters2 enhNodes :=
      addPathing_nodesOk _ _ _ _ _ _ _ _ _ _ hB1 hpe
    have hB3 : NodesOk .BLUE counters3 (enhNodes ++ islandNodes) :=
      generateIslands_nodesOk _ _ _ _ _ _ _ _ _ _ _ hpi enhNodes hB2
    have hnd := hB3.1
    have hteam : ∀ n ∈ enhNodes ++ islandNodes, n.id.team = Team.BLUE :=
      fun n hn => (hB3.2 n hn).1
    intro n1 hn1 n2 hn2 hid
    have hx1 : n1 ∈ (enhNodes ++ islandNodes) ++
        ((applySymmetry (enhNodes ++ islandNodes) (enhEdges ++ islandEdges) .ORANGE
          config.symmetryMode (config.teamWidth * 2 + config.teamGap)
          config.teamHeight).1 ++ ([] ++ [])) := hn1
    have hx2 : n2 ∈ (enhNodes ++ islandNodes) ++
        ((applySymmetry (enhNodes ++ islandNodes) (enhEdges ++ islandEdges) .ORANGE
          config.symmetryMode (config.teamWidth * 2 + config.teamGap)
          config.teamHeight).1 ++ ([] ++ [])) := hn2
    have hsplit : ∀ x : Node, x ∈ (enhNodes ++ islandNodes) ++
        ((applySymmetry (enhNodes ++ islandNodes) (enhEdges ++ islandEdges) .ORANGE
          config.symmetryMode (config.teamWidth * 2 + config.teamGap)
          config.teamHeight).1 ++ ([] ++ [])) →
        x ∈ enhNodes ++ islandNodes ∨
        x ∈ (applySymmetry (enhNodes ++ islandNodes) (enhEdges ++ islandEdges) .ORANGE
          config.symmetryMode (config.teamWidth * 2 + config.teamGap)
          config.teamHeight).1 := by
      intro x hx
      rcases List.mem_append.1 hx with h | h
      · exact Or.inl h
      · rcases List.mem_append.1 h with h | h
        · exact Or.inr h
        · rcases List.mem_append.1 h with h | h <;> exact absurd h (List.not_mem_nil x)
    rcases hsplit n1 hx1 with h1 | h1 <;> rcases hsplit n2 hx2 with h2 | h2
    · exact nodup_id_inj hnd h1 h2 hid
    · exact base_vs_map hteam (by decide) (fun p => rfl) h1 h2 hid
    · exact (base_vs_map hteam (by decide) (fun p => rfl) h2 h1 hid.symm).symm
    · exact map_vs_map hnd hteam (fun p => rfl) h1 h2 hid

theorem generate4Team_id_inj (config : GeneratorConfig) (s s' : Int) (layout : MapLayout)
    (hok : generate4TeamLayout config s = .ok (layout, s')) :
    ∀ n1 ∈ allNodes layout, ∀ n2 ∈ allNodes layout, n1.id = n2.id → n1 = n2 := by
  unfold generate4TeamLayout at hok
  rw [bind_ok] at hok
  obtain ⟨blueGrid, s1, _hg, hok⟩ := hok
  simp only [] at hok
  rw [bind_ok] at hok
  obtain ⟨pps, s2, _hs2, hok⟩ := hok
  obtain ⟨spawnPos, spawnE⟩ := pps
  simp only [] at hok
  obtain ⟨i1, c1, hg1⟩ : ∃ i cc, generateNodeId (fun _ => 0) .BLUE .SPAWN = (i, cc) :=
    ⟨_, _, rfl⟩
  rw [hg1] at hok
  simp only [] at hok
  obtain ⟨i2, c2, hg2⟩ : ∃ i cc, generateNodeId c1 .BLUE .SPAWN_ENTRY = (i, cc) := ⟨_, _, rfl⟩
  rw [hg2] at hok
  simp only [] at hok
  by_cases h1w : config.woolsPerTeam = 1
  · rw [if_pos h1w] at hok
    rw [bind_ok] at hok
    obtain ⟨ppw, s4, _hpw, hok⟩ := hok
    obtain ⟨woolPos, woolE⟩ := ppw
    simp only [] at hok
    obtain ⟨i3, c3, hg3⟩ : ∃ i cc, generateNodeId c2 .BLUE .WOOL = (i, cc) := ⟨_, _, rfl⟩
    rw [hg3] at hok
    simp only [] at hok
    obtain ⟨i4, c4, hg4⟩ : ∃ i cc, generateNodeId c3 .BLUE .WOOL_ENTRY = (i, cc) := ⟨_, _, rfl⟩
    rw [hg4] at hok
    simp only [] at hok
    rw [bind_ok] at hok
    obtain ⟨y, sY, hy, hok⟩ := hok
    rw [pure_ok] at hy
    obtain ⟨B1, C1⟩ := y
    have h6y := hy.1
    rw [Prod.ext_iff] at h6y
    obtain ⟨hB1e, hC1e⟩ := h6y
    simp only [] at hB1e hC1e hok
    rw [hB1e, hC1e] at hok
    have hIB1 : NodesOk .BLUE c4
        ([(⟨i1, .SPAWN, spawnPos, .BLUE⟩ : Node), ⟨i2, .SPAWN_ENTRY, spawnE, .BLUE⟩] ++
          [(⟨i3, .WOOL, woolPos, .BLUE⟩ : Node), ⟨i4, .WOOL_ENTRY, woolE, .BLUE⟩]) :=
      NodesOk_genId (NodesOk_genId (NodesOk_genId (NodesOk_genId
        (NodesOk_nil .BLUE (fun _ => 0)) .SPAWN hg1 .SPAWN spawnPos .BLUE)
        .SPAWN_ENTRY hg2 .SPAWN_ENTRY spawnE .BLUE) .WOOL hg3 .WOOL woolPos .BLUE)
        .WOOL_ENTRY hg4 .WOOL_ENTRY woolE .BLUE
    rw [bind_ok] at hok
    obtain ⟨ph, s6, hhub, hok⟩ := hok
    obtain ⟨B2, C2⟩ := ph
    simp only [] at hok
    rw [bind_ok] at hok
    obtain ⟨ppf, s7, _hf7, hok⟩ := hok
    obtain ⟨fePos, flPos⟩ := ppf
    simp only [] at hok
    obtain ⟨i7, c7, hg7⟩ : ∃ i cc, generateNodeId C2 .BLUE .FRONT_LINE_ENTRY = (i, cc) :=
      ⟨_, _, rfl⟩
    rw [hg7] at hok
    simp only [] at hok
    obtain ⟨i8, c8, hg8⟩ : ∃ i cc, generateNodeId c7 .BLUE .FRONT_LINE = (i, cc) := ⟨_, _, rfl⟩
    rw [hg8] at hok
    simp only [] at hok
    rw [bind_ok] at hok
    obtain ⟨blueEdges1, s8, _he8, hok⟩ := hok
    rw [bind_ok] at hok
    obtain ⟨pc, s9, hch, hok⟩ := hok
    obtain ⟨CH, C4⟩ := pc
    simp only [] at hok
    rw [bind_ok] at hok
    obtain ⟨E2, s10, _hfe, hok⟩ := hok
    rw [pure_ok] at hok
    obtain ⟨hlay, _hs⟩ := hok
    subst hlay
    have hIB2 : NodesOk .BLUE C2 B2 := by
      refine foldlM_inv (fun a => NodesOk Team.BLUE a.2 a.1) _ _ ?_ _ _ _ _ hIB1 hhub
      intro a b s11 r s11' _hb hI happ
      obtain ⟨ans, acs⟩ := a
      simp only [] at happ
      rw [bind_ok] at happ
      obtain ⟨pts, s12, _hp, happ⟩ := happ
      obtain ⟨ihb, chb, hghb⟩ : ∃ i cc, generateNodeId acs .BLUE .HUB = (i, cc) := ⟨_, _, rfl⟩
      rw [hghb] at happ
      simp only [] at happ
      rw [pure_ok] at happ
      rw [happ.1]
      exact NodesOk_genId hI .HUB hghb .HUB _ .BLUE
    have hIB3 : NodesOk .BLUE c8
        (B2 ++ [(⟨i7, .FRONT_LINE_ENTRY, fePos, .BLUE⟩ : Node),
                ⟨i8, .FRONT_LINE, flPos, .BLUE⟩]) :=
      NodesOk_congr
        (NodesOk_genId (NodesOk_genId hIB2 .FRONT_LINE_ENTRY hg7 .FRONT_LINE_ENTRY fePos .BLUE)
          .FRONT_LINE hg8 .FRONT_LINE flPos .BLUE) (by simp)
    have hIB4 : NodesOk .BLUE C4 ((B2 ++ [(⟨i7, .FRONT_LINE_ENTRY, fePos, .BLUE⟩ : Node), ⟨i8, .FRONT_LINE, flPos, .BLUE⟩]) ++ CH) := by
      refine foldlM_inv (fun a => NodesOk Team.BLUE a.2
        ((B2 ++ [(⟨i7, .FRONT_LINE_ENTRY, fePos, .BLUE⟩ : Node),
                 ⟨i8, .FRONT_LINE, flPos, .BLUE⟩]) ++ a.1)) _ _ ?_ _ _ _ _
        (NodesOk_congr hIB3 (List.append_nil _).symm) hch
      intro a b s11 r s11' _hb hI happ
      obtain ⟨ans, acs⟩ := a
      simp only [] at happ
      obtain ⟨ich, cch, hgch⟩ : ∃ i cc, generateNodeId acs .BLUE .CENTER_HUB = (i, cc) :=
        ⟨_, _, rfl⟩
      rw [hgch] at happ
      simp only [] at happ
      rw [bind_ok] at happ
      obtain ⟨dx, s12, _hdx, happ⟩ := happ
      rw [bind_ok] at happ
      obtain ⟨dy, s13, _hdy, happ⟩ := happ
      rw [pure_ok] at happ
      rw [happ.1]
      exact NodesOk_congr (NodesOk_genId hI .CENTER_HUB hgch .CENTER_HUB _ .BLUE)
        (List.append_assoc _ _ _)
    have hndA := hIB4.1
    have hteamA : ∀ n ∈ ((B2 ++ [(⟨i7, .FRONT_LINE_ENTRY, fePos, .BLUE⟩ : Node), ⟨i8, .FRONT_LINE, flPos, .BLUE⟩]) ++ CH), n.id.team = Team.BLUE := fun n hn => (hIB4.2 n hn).1
    have hr90 : (rotateLayout (⟨(config.teamWidth * 2 + config.teamGap) / 2, (config.teamWidth * 2 + config.teamGap) / 2⟩ : Point) ({ nodes := ((B2 ++ [(⟨i7, .FRONT_LINE_ENTRY, fePos, .BLUE⟩ : Node), ⟨i8, .FRONT_LINE, flPos, .BLUE⟩]) ++ CH), edges := E2, grid := blueGrid } : TeamLayout) 90 Team.ORANGE).nodes = ((B2 ++ [(⟨i7, .FRONT_LINE_ENTRY, fePos, .BLUE⟩ : Node), ⟨i8, .FRONT_LINE, flPos, .BLUE⟩]) ++ CH).map (rotNodeF (⟨(config.teamWidth * 2 + config.teamGap) / 2, (config.teamWidth * 2 + config.teamGap) / 2⟩ : Point) 90 Team.ORANGE) := rotateLayout_nodes _ _ _ _ hndA
    have hr180 : (rotateLayout (⟨(config.teamWidth * 2 + config.teamGap) / 2, (config.teamWidth * 2 + config.teamGap) / 2⟩ : Point) ({ nodes := ((B2 ++ [(⟨i7, .FRONT_LINE_ENTRY, fePos, .BLUE⟩ : Node), ⟨i8, .FRONT_LINE, flPos, .BLUE⟩]) ++ CH), edges := E2, grid := blueGrid } : TeamLayout) 180 Team.GREEN).nodes = ((B2 ++ [(⟨i7, .FRONT_LINE_ENTRY, fePos, .BLUE⟩ : Node), ⟨i8, .FRONT_LINE, flPos, .BLUE⟩]) ++ CH).map (rotNodeF (⟨(config.teamWidth * 2 + config.teamGap) / 2, (config.teamWidth * 2 + config.teamGap) / 2⟩ : Point) 180 Team.GREEN) := rotateLayout_nodes _ _ _ _ hndA
    have hr270 : (rotateLayout (⟨(config.teamWidth * 2 + config.teamGap) / 2, (config.teamWidth * 2 + config.teamGap) / 2⟩ : Point) ({ nodes := ((B2 ++ [(⟨i7, .FRONT_LINE_ENTRY, fePos, .BLUE⟩ : Node), ⟨i8, .FRONT_LINE, flPos, .BLUE⟩]) ++ CH), edges := E2, grid := blueGrid } : TeamLayout) 270 Team.YELLOW).nodes = ((B2 ++ [(⟨i7, .FRONT_LINE_ENTRY, fePos, .BLUE⟩ : Node), ⟨i8, .FRONT_LINE, flPos, .BLUE⟩]) ++ CH).map (rotNodeF (⟨(config.teamWidth * 2 + config.teamGap) / 2, (config.teamWidth * 2 + config.teamGap) / 2⟩ : Point) 270 Team.YELLOW) := rotateLayout_nodes _ _ _ _ hndA
    intro n1 hn1 n2 hn2 hid
    have hx1 : n1 ∈ ((B2 ++ [(⟨i7, .FRONT_LINE_ENTRY, fePos, .BLUE⟩ : Node), ⟨i8, .FRONT_LINE, flPos, .BLUE⟩]) ++ CH) ++ ((rotateLayout (⟨(config.teamWidth * 2 + config.teamGap) / 2, (config.teamWidth * 2 + config.teamGap) / 2⟩ : Point) ({ nodes := ((B2 ++ [(⟨i7, .FRONT_LINE_ENTRY, fePos, .BLUE⟩ : Node), ⟨i8, .FRONT_LINE, flPos, .BLUE⟩]) ++ CH), edges := E2, grid := blueGrid } : TeamLayout) 90 Team.ORANGE).nodes ++ ((rotateLayout (⟨(config.teamWidth * 2 + config.teamGap) / 2, (config.teamWidth * 2 + config.teamGap) / 2⟩ : Point) ({ nodes := ((B2 ++ [(⟨i7, .FRONT_LINE_ENTRY, fePos, .BLUE⟩ : Node), ⟨i8, .FRONT_LINE, flPos, .BLUE⟩]) ++ CH), edges := E2, grid := blueGrid } : TeamLayout) 180 Team.GREEN).nodes ++ (rotateLayout (⟨(config.teamWidth * 2 + config.teamGap) / 2, (config.teamWidth * 2 + config.teamGap) / 2⟩ : Point) ({ nodes := ((B2 ++ [(⟨i7, .FRONT_LINE_ENTRY, fePos, .BLUE⟩ : Node), ⟨i8, .FRONT_LINE, flPos, .BLUE⟩]) ++ CH), edges := E2, grid := blueGrid } : TeamLayout) 270 Team.YELLOW).nodes)) := hn1
    have hx2 : n2 ∈ ((B2 ++ [(⟨i7, .FRONT_LINE_ENTRY, fePos, .BLUE⟩ : Node), ⟨i8, .FRONT_LINE, flPos, .BLUE⟩]) ++ CH) ++ ((rotateLayout (⟨(config.teamWidth * 2 + config.teamGap) / 2, (config.teamWidth * 2 + config.teamGap) / 2⟩ : Point) ({ nodes := ((B2 ++ [(⟨i7, .FRONT_LINE_ENTRY, fePos, .BLUE⟩ : Node), ⟨i8, .FRONT_LINE, flPos, .BLUE⟩]) ++ CH), edges := E2, grid := blueGrid } : TeamLayout) 90 Team.ORANGE).nodes ++ ((rotateLayout (⟨(config.teamWidth * 2 + config.teamGap) / 2, (config.teamWidth * 2 + config.teamGap) / 2⟩ : Point) ({ nodes := ((B2 ++ [(⟨i7, .FRONT_LINE_ENTRY, fePos, .BLUE⟩ : Node), ⟨i8, .FRONT_LINE, flPos, .BLUE⟩]) ++ CH), edges := E2, grid := blueGrid } : TeamLayout) 180 Team.GREEN).nodes ++ (rotateLayout (⟨(config.teamWidth * 2 + config.teamGap) / 2, (config.teamWidth * 2 + config.teamGap) / 2⟩ : Point) ({ nodes := ((B2 ++ [(⟨i7, .FRONT_LINE_ENTRY, fePos, .BLUE⟩ : Node), ⟨i8, .FRONT_LINE, flPos, .BLUE⟩]) ++ CH), edges := E2, grid := blueGrid } : TeamLayout) 270 Team.YELLOW).nodes)) := hn2
    rw [hr90, hr180, hr270] at hx1 hx2
    have hsplit : ∀ x : Node, x ∈ ((B2 ++ [(⟨i7, .FRONT_LINE_ENTRY, fePos, .BLUE⟩ : Node), ⟨i8, .FRONT_LINE, flPos, .BLUE⟩]) ++ CH) ++ (((B2 ++ [(⟨i7, .FRONT_LINE_ENTRY, fePos, .BLUE⟩ : Node), ⟨i8, .FRONT_LINE, flPos, .BLUE⟩]) ++ CH).map (rotNodeF (⟨(config.teamWidth * 2 + config.teamGap) / 2, (config.teamWidth * 2 + config.teamGap) / 2⟩ : Point) 90 Team.ORANGE) ++ (((B2 ++ [(⟨i7, .FRONT_LINE_ENTRY, fePos, .BLUE⟩ : Node), ⟨i8, .FRONT_LINE, flPos, .BLUE⟩]) ++ CH).map (rotNodeF (⟨(config.teamWidth * 2 + config.teamGap) / 2, (config.teamWidth * 2 + config.teamGap) / 2⟩ : Point) 180 Team.GREEN) ++ ((B2 ++ [(⟨i7, .FRONT_LINE_ENTRY, fePos, .BLUE⟩ : Node), ⟨i8, .FRONT_LINE, flPos, .BLUE⟩]) ++ CH).map (rotNodeF (⟨(config.teamWidth * 2 + config.teamGap) / 2, (config.teamWidth * 2 + config.teamGap) / 2⟩ : Point) 270 Team.YELLOW))) →
        x ∈ ((B2 ++ [(⟨i7, .FRONT_LINE_ENTRY, fePos, .BLUE⟩ : Node), ⟨i8, .FRONT_LINE, flPos, .BLUE⟩]) ++ CH) ∨ x ∈ ((B2 ++ [(⟨i7, .FRONT_LINE_ENTRY, fePos, .BLUE⟩ : Node), ⟨i8, .FRONT_LINE, flPos, .BLUE⟩]) ++ CH).map (rotNodeF (⟨(config.teamWidth * 2 + config.teamGap) / 2, (config.teamWidth * 2 + config.teamGap) / 2⟩ : Point) 90 Team.ORANGE) ∨ x ∈ ((B2 ++ [(⟨i7, .FRONT_LINE_ENTRY, fePos, .BLUE⟩ : Node), ⟨i8, .FRONT_LINE, flPos, .BLUE⟩]) ++ CH).map (rotNodeF (⟨(config.teamWidth * 2 + config.teamGap) / 2, (config.teamWidth * 2 + config.teamGap) / 2⟩ : Point) 180 Team.GREEN) ∨ x ∈ ((B2 ++ [(⟨i7, .FRONT_LINE_ENTRY, fePos, .BLUE⟩ : Node), ⟨i8, .FRONT_LINE, flPos, .BLUE⟩]) ++ CH).map (rotNodeF (⟨(config.teamWidth * 2 + config.teamGap) / 2, (config.teamWidth * 2 + config.teamGap) / 2⟩ : Point) 270 Team.YELLOW) := by
      intro x hx
      rcases List.mem_append.1 hx with h | h
      · exact Or.inl h
      · rcases List.mem_append.1 h with h | h
        · exact Or.inr (Or.inl h)
        · rcases List.mem_append.1 h with h | h
          · exact Or.inr (Or.inr (Or.inl h))
          · exact Or.inr (Or.inr (Or.inr h))
    rcases hsplit n1 hx1 with h1 | h1 | h1 | h1 <;> rcases hsplit n2 hx2 with h2 | h2 | h2 | h2
    · exact nodup_id_inj hndA h1 h2 hid
    · exact base_vs_rot hndA hteamA (by decide) h1 h2 hid
    · exact base_vs_rot hndA hteamA (by decide) h1 h2 hid
    · exact base_vs_rot hndA hteamA (by decide) h1 h2 hid
    · exact (base_vs_rot hndA hteamA (by decide) h2 h1 hid.symm).symm
    · exact rot_vs_rot hndA hteamA (by decide) (by decide) (fun _ => rfl) h1 h2 hid
    · exact rot_vs_rot hndA hteamA (by decide) (by decide)
        (fun h => absurd h (by decide)) h1 h2 hid
    · exact rot_vs_rot hndA hteamA (by decide) (by decide)
        (fun h => absurd h (by decide)) h1 h2 hid
    · exact (base_vs_rot hndA hteamA (by decide) h2 h1 hid.symm).symm
    · exact rot_vs_rot hndA hteamA (by decide) (by decide)
        (fun h => absurd h (by decide)) h1 h2 hid
    · exact rot_vs_rot hndA hteamA (by decide) (by decide) (fun _ => rfl) h1 h2 hid
    · exact rot_vs_rot hndA hteamA (by decide) (by decide)
        (fun h => absurd h (by decide)) h1 h2 hid
    · exact (base_vs_rot hndA hteamA (by decide) h2 h1 hid.symm).symm
    · exact rot_vs_rot hndA hteamA (by decide) (by decide)
        (fun h => absurd h (by decide)) h1 h2 hid
    · exact rot_vs_rot hndA hteamA (by decide) (by decide)
        (fun h => absurd h (by decide)) h1 h2 hid
    · exact rot_vs_rot hndA hteamA (by decide) (by decide) (fun _ => rfl) h1 h2 hid

  · rw [if_neg h1w] at hok
    rw [bind_ok] at hok
    obtain ⟨ppw, s4, _hpw, hok⟩ := hok
    obtain ⟨wtPos, wtE⟩ := ppw
    simp only [] at hok
    obtain ⟨i3, c3, hg3⟩ : ∃ i cc, generateNodeId c2 .BLUE .WOOL = (i, cc) := ⟨_, _, rfl⟩
    rw [hg3] at hok
    simp only [] at hok
    obtain ⟨i4, c4, hg4⟩ : ∃ i cc, generateNodeId c3 .BLUE .WOOL_ENTRY = (i, cc) := ⟨_, _, rfl⟩
    rw [hg4] at hok
    simp only [] at hok
    rw [bind_ok] at hok
    obtain ⟨ppb, s5, _hpb, hok⟩ := hok
    obtain ⟨wbPos, wbE⟩ := ppb
    simp only [] at hok
    obtain ⟨i5, c5, hg5⟩ : ∃ i cc, generateNodeId c4 .BLUE .WOOL = (i, cc) := ⟨_, _, rfl⟩
    rw [hg5] at hok
    simp only [] at hok
    obtain ⟨i6, c6, hg6⟩ : ∃ i cc, generateNodeId c5 .BLUE .WOOL_ENTRY = (i, cc) := ⟨_, _, rfl⟩
    rw [hg6] at hok
    simp only [] at hok
    rw [bind_ok] at hok
    obtain ⟨y, sY, hy, hok⟩ := hok
    rw [pure_ok] at hy
    obtain ⟨B1, C1⟩ := y
    have h6y := hy.1
    rw [Prod.ext_iff] at h6y
    obtain ⟨hB1e, hC1e⟩ := h6y
    simp only [] at hB1e hC1e hok
    rw [hB1e, hC1e] at hok
    have hIB1 : NodesOk .BLUE c6
        ([(⟨i1, .SPAWN, spawnPos, .BLUE⟩ : Node), ⟨i2, .SPAWN_ENTRY, spawnE, .BLUE⟩] ++
          [(⟨i3, .WOOL, wtPos, .BLUE⟩ : Node), ⟨i4, .WOOL_ENTRY, wtE, .BLUE⟩,
           ⟨i5, .WOOL, wbPos, .BLUE⟩, ⟨i6, .WOOL_ENTRY, wbE, .BLUE⟩]) :=
      NodesOk_genId (NodesOk_genId (NodesOk_genId (NodesOk_genId (NodesOk_genId (NodesOk_genId
        (NodesOk_nil .BLUE (fun _ => 0)) .SPAWN hg1 .SPAWN spawnPos .BLUE)
        .SPAWN_ENTRY hg2 .SPAWN_ENTRY spawnE .BLUE) .WOOL hg3 .WOOL wtPos .BLUE)
        .WOOL_ENTRY hg4 .WOOL_ENTRY wtE .BLUE) .WOOL hg5 .WOOL wbPos .BLUE)
        .WOOL_ENTRY hg6 .WOOL_ENTRY wbE .BLUE
    rw [bind_ok] at hok
    obtain ⟨ph, s6, hhub, hok⟩ := hok
    obtain ⟨B2, C2⟩ := ph
    simp only [] at hok
    rw [bind_ok] at hok
    obtain ⟨ppf, s7, _hf7, hok⟩ := hok
    obtain ⟨fePos, flPos⟩ := ppf
    simp only [] at hok
    obtain ⟨i7, c7, hg7⟩ : ∃ i cc, generateNodeId C2 .BLUE .FRONT_LINE_ENTRY = (i, cc) :=
      ⟨_, _, rfl⟩
    rw [hg7] at hok
    simp only [] at hok
    obtain ⟨i8, c8, hg8⟩ : ∃ i cc, generateNodeId c7 .BLUE .FRONT_LINE = (i, cc) := ⟨_, _, rfl⟩
    rw [hg8] at hok
    simp only [] at hok
    rw [bind_ok] at hok
    obtain ⟨blueEdges1, s8, _he8, hok⟩ := hok
    rw [bind_ok] at hok
    obtain ⟨pc, s9, hch, hok⟩ := hok
    obtain ⟨CH, C4⟩ := pc
    simp only [] at hok
    rw [bind_ok] at hok
    obtain ⟨E2, s10, _hfe, hok⟩ := hok
    rw [pure_ok] at hok
    obtain ⟨hlay, _hs⟩ := hok
    subst hlay
    have hIB2 : NodesOk .BLUE C2 B2 := by
      refine foldlM_inv (fun a => NodesOk Team.BLUE a.2 a.1) _ _ ?_ _ _ _ _ hIB1 hhub
      intro a b s11 r s11' _hb hI happ
      obtain ⟨ans, acs⟩ := a
      simp only [] at happ
      rw [bind_ok] at happ
      obtain ⟨pts, s12, _hp, happ⟩ := happ
      obtain ⟨ihb, chb, hghb⟩ : ∃ i cc, generateNodeId acs .BLUE .HUB = (i, cc) := ⟨_, _, rfl⟩
      rw [hghb] at happ
      simp only [] at happ
      rw [pure_ok] at happ
      rw [happ.1]
      exact NodesOk_genId hI .HUB hghb .HUB _ .BLUE
    have hIB3 : NodesOk .BLUE c8
        (B2 ++ [(⟨i7, .FRONT_LINE_ENTRY, fePos, .BLUE⟩ : Node),
                ⟨i8, .FRONT_LINE, flPos, .BLUE⟩]) :=
      NodesOk_congr
        (NodesOk_genId (NodesOk_genId hIB2 .FRONT_LINE_ENTRY hg7 .FRONT_LINE_ENTRY fePos .BLUE)
          .FRONT_LINE hg8 .FRONT_LINE flPos .BLUE) (by simp)
    have hIB4 : NodesOk .BLUE C4 ((B2 ++ [(⟨i7, .FRONT_LINE_ENTRY, fePos, .BLUE⟩ : Node), ⟨i8, .FRONT_LINE, flPos, .BLUE⟩]) ++ CH) := by
      refine foldlM_inv (fun a => NodesOk Team.BLUE a.2
        ((B2 ++ [(⟨i7, .FRONT_LINE_ENTRY, fePos, .BLUE⟩ : Node),
                 ⟨i8, .FRONT_LINE, flPos, .BLUE⟩]) ++ a.1)) _ _ ?_ _ _ _ _
        (NodesOk_congr hIB3 (List.append_nil _).symm) hch
      intro a b s11 r s11' _hb hI happ
      obtain ⟨ans, acs⟩ := a
      simp only [] at happ
      obtain ⟨ich, cch, hgch⟩ : ∃ i cc, generateNodeId acs .BLUE .CENTER_HUB = (i, cc) :=
        ⟨_, _, rfl⟩
      rw [hgch] at happ
      simp only [] at happ
      rw [bind_ok] at happ
      obtain ⟨dx, s12, _hdx, happ⟩ := happ
      rw [bind_ok] at happ
      obtain ⟨dy, s13, _hdy, happ⟩ := happ
      rw [pure_ok] at happ
      rw [happ.1]
      exact NodesOk_congr (NodesOk_genId hI .CENTER_HUB hgch .CENTER_HUB _ .BLUE)
        (List.append_assoc _ _ _)
    have hndA := hIB4.1
    have hteamA : ∀ n ∈ ((B2 ++ [(⟨i7, .FRONT_LINE_ENTRY, fePos, .BLUE⟩ : Node), ⟨i8, .FRONT_LINE, flPos, .BLUE⟩]) ++ CH), n.id.team = Team.BLUE := fun n hn => (hIB4.2 n hn).1
    have hr90 : (rotateLayout (⟨(config.teamWidth * 2 + config.teamGap) / 2, (config.teamWidth * 2 + config.teamGap) / 2⟩ : Point) ({ nodes := ((B2 ++ [(⟨i7, .FRONT_LINE_ENTRY, fePos, .BLUE⟩ : Node), ⟨i8, .FRONT_LINE, flPos, .BLUE⟩]) ++ CH), edges := E2, grid := blueGrid } : TeamLayout) 90 Team.ORANGE).nodes = ((B2 ++ [(⟨i7, .FRONT_LINE_ENTRY, fePos, .BLUE⟩ : Node), ⟨i8, .FRONT_LINE, flPos, .BLUE⟩]) ++ CH).map (rotNodeF (⟨(config.teamWidth * 2 + config.teamGap) / 2, (config.teamWidth * 2 + config.teamGap) / 2⟩ : Point) 90 Team.ORANGE) := rotateLayout_nodes _ _ _ _ hndA
    have hr180 : (rotateLayout (⟨(config.teamWidth * 2 + config.teamGap) / 2, (config.teamWidth * 2 + config.teamGap) / 2⟩ : Point) ({ nodes := ((B2 ++ [(⟨i7, .FRONT_LINE_ENTRY, fePos, .BLUE⟩ : Node), ⟨i8, .FRONT_LINE, flPos, .BLUE⟩]) ++ CH), edges := E2, grid := blueGrid } : TeamLayout) 180 Team.GREEN).nodes = ((B2 ++ [(⟨i7, .FRONT_LINE_ENTRY, fePos, .BLUE⟩ : Node), ⟨i8, .FRONT_LINE, flPos, .BLUE⟩]) ++ CH).map (rotNodeF (⟨(config.teamWidth * 2 + config.teamGap) / 2, (config.teamWidth * 2 + config.teamGap) / 2⟩ : Point) 180 Team.GREEN) := rotateLayout_nodes _ _ _ _ hndA
    have hr270 : (rotateLayout (⟨(config.teamWidth * 2 + config.teamGap) / 2, (config.teamWidth * 2 + config.teamGap) / 2⟩ : Point) ({ nodes := ((B2 ++ [(⟨i7, .FRONT_LINE_ENTRY, fePos, .BLUE⟩ : Node), ⟨i8, .FRONT_LINE, flPos, .BLUE⟩]) ++ CH), edges := E2, grid := blueGrid } : TeamLayout) 270 Team.YELLOW).nodes = ((B2 ++ [(⟨i7, .FRONT_LINE_ENTRY, fePos, .BLUE⟩ : Node), ⟨i8, .FRONT_LINE, flPos, .BLUE⟩]) ++ CH).map (rotNodeF (⟨(config.teamWidth * 2 + config.teamGap) / 2, (config.teamWidth * 2 + config.teamGap) / 2⟩ : Point) 270 Team.YELLOW) := rotateLayout_nodes _ _ _ _ hndA
    intro n1 hn1 n2 hn2 hid
    have hx1 : n1 ∈ ((B2 ++ [(⟨i7, .FRONT_LINE_ENTRY, fePos, .BLUE⟩ : Node), ⟨i8, .FRONT_LINE, flPos, .BLUE⟩]) ++ CH) ++ ((rotateLayout (⟨(config.teamWidth * 2 + config.teamGap) / 2, (config.teamWidth * 2 + config.teamGap) / 2⟩ : Point) ({ nodes := ((B2 ++ [(⟨i7, .FRONT_LINE_ENTRY, fePos, .BLUE⟩ : Node), ⟨i8, .FRONT_LINE, flPos, .BLUE⟩]) ++ CH), edges := E2, grid := blueGrid } : TeamLayout) 90 Team.ORANGE).nodes ++ ((rotateLayout (⟨(config.teamWidth * 2 + config.teamGap) / 2, (config.teamWidth * 2 + config.teamGap) / 2⟩ : Point) ({ nodes := ((B2 ++ [(⟨i7, .FRONT_LINE_ENTRY, fePos, .BLUE⟩ : Node), ⟨i8, .FRONT_LINE, flPos, .BLUE⟩]) ++ CH), edges := E2, grid := blueGrid } : TeamLayout) 180 Team.GREEN).nodes ++ (rotateLayout (⟨(config.teamWidth * 2 + config.teamGap) / 2, (config.teamWidth * 2 + config.teamGap) / 2⟩ : Point) ({ nodes := ((B2 ++ [(⟨i7, .FRONT_LINE_ENTRY, fePos, .BLUE⟩ : Node), ⟨i8, .FRONT_LINE, flPos, .BLUE⟩]) ++ CH), edges := E2, grid := blueGrid } : TeamLayout) 270 Team.YELLOW).nodes)) := hn1
    have hx2 : n2 ∈ ((B2 ++ [(⟨i7, .FRONT_LINE_ENTRY, fePos, .BLUE⟩ : Node), ⟨i8, .FRONT_LINE, flPos, .BLUE⟩]) ++ CH) ++ ((rotateLayout (⟨(config.teamWidth * 2 + config.teamGap) / 2, (config.teamWidth * 2 + config.teamGap) / 2⟩ : Point) ({ nodes := ((B2 ++ [(⟨i7, .FRONT_LINE_ENTRY, fePos, .BLUE⟩ : Node), ⟨i8, .FRONT_LINE, flPos, .BLUE⟩]) ++ CH), edges := E2, grid := blueGrid } : TeamLayout) 90 Team.ORANGE).nodes ++ ((rotateLayout (⟨(config.teamWidth * 2 + config.teamGap) / 2, (config.teamWidth * 2 + config.teamGap) / 2⟩ : Point) ({ nodes := ((B2 ++ [(⟨i7, .FRONT_LINE_ENTRY, fePos, .BLUE⟩ : Node), ⟨i8, .FRONT_LINE, flPos, .BLUE⟩]) ++ CH), edges := E2, grid := blueGrid } : TeamLayout) 180 Team.GREEN).nodes ++ (rotateLayout (⟨(config.teamWidth * 2 + config.teamGap) / 2, (config.teamWidth * 2 + config.teamGap) / 2⟩ : Point) ({ nodes := ((B2 ++ [(⟨i7, .FRONT_LINE_ENTRY, fePos, .BLUE⟩ : Node), ⟨i8, .FRONT_LINE, flPos, .BLUE⟩]) ++ CH), edges := E2, grid := blueGrid } : TeamLayout) 270 Team.YELLOW).nodes)) := hn2
    rw [hr90, hr180, hr270] at hx1 hx2
    have hsplit : ∀ x : Node, x ∈ ((B2 ++ [(⟨i7, .FRONT_LINE_ENTRY, fePos, .BLUE⟩ : Node), ⟨i8, .FRONT_LINE, flPos, .BLUE⟩]) ++ CH) ++ (((B2 ++ [(⟨i7, .FRONT_LINE_ENTRY, fePos, .BLUE⟩ : Node), ⟨i8, .FRONT_LINE, flPos, .BLUE⟩]) ++ CH).map (rotNodeF (⟨(config.teamWidth * 2 + config.teamGap) / 2, (config.teamWidth * 2 + config.teamGap) / 2⟩ : Point) 90 Team.ORANGE) ++ (((B2 ++ [(⟨i7, .FRONT_LINE_ENTRY, fePos, .BLUE⟩ : Node), ⟨i8, .FRONT_LINE, flPos, .BLUE⟩]) ++ CH).map (rotNodeF (⟨(config.teamWidth * 2 + config.teamGap) / 2, (config.teamWidth * 2 + config.teamGap) / 2⟩ : Point) 180 Team.GREEN) ++ ((B2 ++ [(⟨i7, .FRONT_LINE_ENTRY, fePos, .BLUE⟩ : Node), ⟨i8, .FRONT_LINE, flPos, .BLUE⟩]) ++ CH).map (rotNodeF (⟨(config.teamWidth * 2 + config.teamGap) / 2, (config.teamWidth * 2 + config.teamGap) / 2⟩ : Point) 270 Team.YELLOW))) →
        x ∈ ((B2 ++ [(⟨i7, .FRONT_LINE_ENTRY, fePos, .BLUE⟩ : Node), ⟨i8, .FRONT_LINE, flPos, .BLUE⟩]) ++ CH) ∨ x ∈ ((B2 ++ [(⟨i7, .FRONT_LINE_ENTRY, fePos, .BLUE⟩ : Node), ⟨i8, .FRONT_LINE, flPos, .BLUE⟩]) ++ CH).map (rotNodeF (⟨(config.teamWidth * 2 + config.teamGap) / 2, (config.teamWidth * 2 + config.teamGap) / 2⟩ : Point) 90 Team.ORANGE) ∨ x ∈ ((B2 ++ [(⟨i7, .FRONT_LINE_ENTRY, fePos, .BLUE⟩ : Node), ⟨i8, .FRONT_LINE, flPos, .BLUE⟩]) ++ CH).map (rotNodeF (⟨(config.teamWidth * 2 + config.teamGap) / 2, (config.teamWidth * 2 + config.teamGap) / 2⟩ : Point) 180 Team.GREEN) ∨ x ∈ ((B2 ++ [(⟨i7, .FRONT_LINE_ENTRY, fePos, .BLUE⟩ : Node), ⟨i8, .FRONT_LINE, flPos, .BLUE⟩]) ++ CH).map (rotNodeF (⟨(config.teamWidth * 2 + config.teamGap) / 2, (config.teamWidth * 2 + config.teamGap) / 2⟩ : Point) 270 Team.YELLOW) := by
      intro x hx
      rcases List.mem_append.1 hx with h | h
      · exact Or.inl h
      · rcases List.mem_append.1 h with h | h
        · exact Or.inr (Or.inl h)
        · rcases List.mem_append.1 h with h | h
          · exact Or.inr (Or.inr (Or.inl h))
          · exact Or.inr (Or.inr (Or.inr h))
    rcases hsplit n1 hx1 with h1 | h1 | h1 | h1 <;> rcases hsplit n2 hx2 with h2 | h2 | h2 | h2
    · exact nodup_id_inj hndA h1 h2 hid
    · exact base_vs_rot hndA hteamA (by decide) h1 h2 hid
    · exact base_vs_rot hndA hteamA (by decide) h1 h2 hid
    · exact base_vs_rot hndA hteamA (by decide) h1 h2 hid
    · exact (base_vs_rot hndA hteamA (by decide) h2 h1 hid.symm).symm
    · exact rot_vs_rot hndA hteamA (by decide) (by decide) (fun _ => rfl) h1 h2 hid
    · exact rot_vs_rot hndA hteamA (by decide) (by decide)
        (fun h => absurd h (by decide)) h1 h2 hid
    · exact rot_vs_rot hndA hteamA (by decide) (by decide)
        (fun h => absurd h (by decide)) h1 h2 hid
    · exact (base_vs_rot hndA hteamA (by decide) h2 h1 hid.symm).symm
    · exact rot_vs_rot hndA hteamA (by decide) (by decide)
        (fun h => absurd h (by decide)) h1 h2 hid
    · exact rot_vs_rot hndA hteamA (by decide) (by decide) (fun _ => rfl) h1 h2 hid
    · exact rot_vs_rot hndA hteamA (by decide) (by decide)
        (fun h => absurd h (by decide)) h1 h2 hid
    · exact (base_vs_rot hndA hteamA (by decide) h2 h1 hid.symm).symm
    · exact rot_vs_rot hndA hteamA (by decide) (by decide)
        (fun h => absurd h (by decide)) h1 h2 hid
    · exact rot_vs_rot hndA hteamA (by decide) (by decide)
        (fun h => absurd h (by decide)) h1 h2 hid
    · exact rot_vs_rot hndA hteamA (by decide) (by decide) (fun _ => rfl) h1 h2 hid


/-- **C2.**  Id uniqueness: in every layout returned by `generateLayout`
(2-team or 4-team, any enhancement and island settings), a node id
determines the node — any two entries across all teams' node lists that
share an id are the same node record.  (In 4-team mode each shared
center hub appears by value in all four lists under its single id, so
this is the faithful reading of "no two distinct nodes share an id".) -/
theorem C2_id_unique (config : GeneratorConfig) (layout : MapLayout) (s' : Int)
    (hok : generateLayout config = .ok (layout, s')) :
    ∀ n1 ∈ allNodes layout, ∀ n2 ∈ allNodes layout, n1.id = n2.id → n1 = n2 := by
  unfold generateLayout at hok
  by_cases h4 : config.numTeams = 4
  · rw [if_pos h4] at hok
    exact generate4Team_id_inj config _ s' layout hok
  · rw [if_neg h4] at hok
    exact generate2Team_id_inj config _ s' layout hok

/-- Witness for C2: the concrete 2-team run of `cfg3w` succeeds and its
layout's node ids are injective. -/
theorem C2_witness :
    ∃ layout s', generateLayout cfg3w = .ok (layout, s') ∧
      ∀ n1 ∈ allNodes layout, ∀ n2 ∈ allNodes layout, n1.id = n2.id → n1 = n2 := by
  cases h : generateLayout cfg3w with
  | error e =>
    have hk : (generateLayout cfg3w).isOk = true := by decide
    rw [h] at hk
    exact Bool.noConfusion hk
  | ok p =>
    obtain ⟨lay, st⟩ := p
    exact ⟨lay, st, rfl, C2_id_unique cfg3w lay st h⟩

end CTW
